import Mathlib

/-!
Damped Newton and mesh refinement control logic of modular-pnp.

A shallow embedding of the Newton drivers of

* `benchmarks/PNP/pnp_adaptive.cpp`   (namespace `PnpAdaptive`),
* `benchmarks/battery/battery_PER.cpp` (namespace `BatteryPER`),
* `benchmarks/PNP/pnp_EAFE2.cpp`      (namespace `PnpEAFE2`),

of `Linear_PNP::fasp_solve` of `benchmarks/linearized_pnp_experiment/linear_pnp.cpp`
(namespace `Linear_PNP`), and of the refinement functions `check_local_entropy`
and `check_electric_field` of `src/domains.cpp`; further
`compute_entropy_potential` of `benchmarks/pnp_pb/main_refinement.cpp`, the
manufactured solution of `benchmarks/pnp_refine_exact/main.cpp` (namespace
`PnpRefineExact`), and the periodic boundaries, the charge check, the fix-point
search and the adaptivity loop of `battery_PER.cpp`.

Degree-of-freedom vectors are lists of rationals (exact arithmetic instead of
`double`).  The finite-element services the drivers consume (`assemble`, the
boundary-condition application, the linear solver, interpolation) are taken as
function parameters: the drivers are verified for every such function.  The
manufactured solution is written over a field with the elementary functions as
parameters and is differentiated over the reals.
-/

namespace ModularPnp

/-- The coefficient vector of a `dolfin::Function`, in exact arithmetic. -/
abbrev Vec := List ℚ

/-- The residual norm as the drivers compute it: `assemble(b, *L)`, then
`bc->apply(b)` (or `b[index] = 0.0`), then `b.norm("l2")`, as a function of the
three coefficients `L->CatCat`, `L->AnAn`, `L->EsEs` assigned just before. -/
abbrev ResNorm := Vec → Vec → Vec → ℚ

/-- What one linear solve leaves behind: the `status` returned by
`fasp_solver_dbsr_krylov_amg` and the three components of `solutionUpdate`
filled from `solu_fasp` by `copy_dvector_to_vector_function`. -/
structure LinearSolve where
  status : Int
  update0 : Vec
  update1 : Vec
  update2 : Vec
deriving DecidableEq

/-- The linear solve of one Newton pass (Jacobian assembly at the current
iterate, conversion to FASP, `fasp_solver_dbsr_krylov_amg`, copy into
`solutionUpdate`) as a function of the current iterate. -/
abbrev Solver := Vec → Vec → Vec → LinearSolve

/-- Modelled from the spec: `update_solution(iterate, update)` is declared in
`newton_functs.h`, which is not among the sources; the spec describes it as
`trial = iterate + update`, entry by entry. -/
def update_solution (iterate update : Vec) : Vec :=
  List.zipWith (fun a b => a + b) iterate update

/-- The in-place scaling `*(update.vector()) *= c`. -/
def scale (update : Vec) (c : ℚ) : Vec :=
  update.map (fun a => a * c)

/-- Modelled from the spec: `newton_param` is declared in `newton.h`, which is
not among the sources; these are the fields the drivers read, the two counters
with the values they have once converted to `unsigned int`. -/
structure newton_param where
  max_it : Nat
  tol : ℚ
  damp_factor : ℚ
  damp_it : Nat
  adapt_tol : ℚ
deriving DecidableEq

/-- Local variables of `update_solution_pnp` while it backtracks.  `passes`
and `assemblies` are ghost counters: executions of the loop body and calls of
`assemble` so far. -/
structure Backtrack where
  _iterate0 : Vec
  _iterate1 : Vec
  _iterate2 : Vec
  _update0 : Vec
  _update1 : Vec
  _update2 : Vec
  new_relative_residual : ℚ
  damp_iters : Nat
  passes : Nat
  assemblies : Nat
deriving DecidableEq

/-- What the caller of `update_solution_pnp` sees afterwards: its three
iterates, its three updates, the returned `double`, and the ghost counters. -/
structure UpdateResult where
  iterate0 : Vec
  iterate1 : Vec
  iterate2 : Vec
  update0 : Vec
  update1 : Vec
  update2 : Vec
  ret : ℚ
  passes : Nat
  assemblies : Nat
deriving DecidableEq

/-- Lines 50-65 of `pnp_adaptive.cpp` and 740-756 of `battery_PER.cpp`: copy
iterates and updates, apply the full update to the copies, assemble once.  The
two files differ in the start value of `damp_iters` only. -/
def first_trial (resnorm : ResNorm) (iterate0 iterate1 iterate2 update0 update1 update2 : Vec)
    (initial_residual : ℚ) (damp_iters : Nat) : Backtrack :=
  let _iterate0 := update_solution iterate0 update0
  let _iterate1 := update_solution iterate1 update1
  let _iterate2 := update_solution iterate2 update2
  { _iterate0 := _iterate0
    _iterate1 := _iterate1
    _iterate2 := _iterate2
    _update0 := update0
    _update1 := update1
    _update2 := update2
    new_relative_residual := resnorm _iterate0 _iterate1 _iterate2 / initial_residual
    damp_iters := damp_iters
    passes := 0
    assemblies := 1 }

/-- One execution of the body of the backtrack loop (lines 74-90 of
`pnp_adaptive.cpp`, 766-783 of `battery_PER.cpp`): reset the copies to the
caller's iterates, scale the local updates, apply them, assemble again. -/
def damp_pass (resnorm : ResNorm) (iterate0 iterate1 iterate2 : Vec)
    (initial_residual : ℚ) (params : newton_param) (s : Backtrack) : Backtrack :=
  let _update0 := scale s._update0 params.damp_factor
  let _update1 := scale s._update1 params.damp_factor
  let _update2 := scale s._update2 params.damp_factor
  let _iterate0 := update_solution iterate0 _update0
  let _iterate1 := update_solution iterate1 _update1
  let _iterate2 := update_solution iterate2 _update2
  { _iterate0 := _iterate0
    _iterate1 := _iterate1
    _iterate2 := _iterate2
    _update0 := _update0
    _update1 := _update1
    _update2 := _update2
    new_relative_residual := resnorm _iterate0 _iterate1 _iterate2 / initial_residual
    damp_iters := s.damp_iters + 1
    passes := s.passes + 1
    assemblies := s.assemblies + 1 }

/-- The backtrack loop
`while (new_relative_residual > relative_residual && damp_iters < params->damp_it)`. -/
def damp_loop (resnorm : ResNorm) (iterate0 iterate1 iterate2 : Vec)
    (relative_residual initial_residual : ℚ) (params : newton_param) (s : Backtrack) : Backtrack :=
  if s.new_relative_residual > relative_residual ∧ s.damp_iters < params.damp_it then
    damp_loop resnorm iterate0 iterate1 iterate2 relative_residual initial_residual params
      (damp_pass resnorm iterate0 iterate1 iterate2 initial_residual params s)
  else
    s
termination_by params.damp_it - s.damp_iters
decreasing_by
  simp only [damp_pass]
  omega

/-- Lines 93-102 of `pnp_adaptive.cpp` and 786-794 of `battery_PER.cpp`: the
check for decrease and, on acceptance, the copy into the caller's iterates. -/
def finish (iterate0 iterate1 iterate2 update0 update1 update2 : Vec)
    (relative_residual : ℚ) (s : Backtrack) : UpdateResult :=
  if s.new_relative_residual > relative_residual then
    { iterate0 := iterate0
      iterate1 := iterate1
      iterate2 := iterate2
      update0 := update0
      update1 := update1
      update2 := update2
      ret := -s.new_relative_residual
      passes := s.passes
      assemblies := s.assemblies }
  else
    { iterate0 := s._iterate0
      iterate1 := s._iterate1
      iterate2 := s._iterate2
      update0 := update0
      update1 := update1
      update2 := update2
      ret := s.new_relative_residual
      passes := s.passes
      assemblies := s.assemblies }

/-- The variables of `main` that the Newton loop reads and writes. -/
structure NewtonState where
  cationSolution : Vec
  anionSolution : Vec
  potentialSolution : Vec
  initial_residual : ℚ
  relative_residual : ℚ
  newton_iteration : Nat
deriving DecidableEq

/-- Which of the two messages after the Newton loop is printed. -/
inductive Report where
  | solved
  | did_not_converge
deriving DecidableEq

/-- The report after the Newton loop (lines 493-498 of `pnp_adaptive.cpp`,
602-607 of `battery_PER.cpp`): `if (relative_residual < nonlinear_tol)` prints
"Successfully solved the system below desired residual", else "Did not
converge in %d Newton iterations" and "current relative residual is %e > %e". -/
def report (newtparam : newton_param) (st : NewtonState) : Report :=
  if st.relative_residual < newtparam.tol then Report.solved else Report.did_not_converge

/-- The update scaled by `d ^ j`, the specification's `d^j * update`; the code
reaches it by `j` successive scalings of the local copy. -/
def damped (update : Vec) (d : ℚ) (j : Nat) : Vec :=
  update.map (fun a => a * d ^ j)

/-- Relative residual of the trial `iterate + d ^ j * update`. -/
def trial_rr (resnorm : ResNorm) (iterate0 iterate1 iterate2 update0 update1 update2 : Vec)
    (initial_residual d : ℚ) (j : Nat) : ℚ :=
  resnorm (update_solution iterate0 (damped update0 d j))
    (update_solution iterate1 (damped update1 d j))
    (update_solution iterate2 (damped update2 d j)) / initial_residual

/-- Closed form of the local state of `update_solution_pnp` after `j`
executions of the loop body, the counter having started at `c0`. -/
def trial_state (resnorm : ResNorm) (iterate0 iterate1 iterate2 update0 update1 update2 : Vec)
    (initial_residual d : ℚ) (c0 j : Nat) : Backtrack :=
  { _iterate0 := update_solution iterate0 (damped update0 d j)
    _iterate1 := update_solution iterate1 (damped update1 d j)
    _iterate2 := update_solution iterate2 (damped update2 d j)
    _update0 := damped update0 d j
    _update1 := damped update1 d j
    _update2 := damped update2 d j
    new_relative_residual :=
      trial_rr resnorm iterate0 iterate1 iterate2 update0 update1 update2 initial_residual d j
    damp_iters := c0 + j
    passes := j
    assemblies := j + 1 }

namespace PnpAdaptive

/-- State of `update_solution_pnp` of `pnp_adaptive.cpp` when its backtrack
loop has ended; `damp_iters` starts at 1 (line 68). -/
def backtrack (resnorm : ResNorm) (iterate0 iterate1 iterate2 update0 update1 update2 : Vec)
    (relative_residual initial_residual : ℚ) (params : newton_param) : Backtrack :=
  damp_loop resnorm iterate0 iterate1 iterate2 relative_residual initial_residual params
    (first_trial resnorm iterate0 iterate1 iterate2 update0 update1 update2 initial_residual 1)

/-- The function `update_solution_pnp` of `pnp_adaptive.cpp` (lines 36-103). -/
def update_solution_pnp (resnorm : ResNorm)
    (iterate0 iterate1 iterate2 update0 update1 update2 : Vec)
    (relative_residual initial_residual : ℚ) (params : newton_param) : UpdateResult :=
  finish iterate0 iterate1 iterate2 update0 update1 update2 relative_residual
    (backtrack resnorm iterate0 iterate1 iterate2 update0 update1 update2
      relative_residual initial_residual params)

/-- Lines 353-368 of `pnp_adaptive.cpp`: `newton_iteration = 0`, the residual
is assembled at the interpolated start iterate, its norm is
`initial_residual`, and `relative_residual = 1.0`. -/
def newton_init (resnorm : ResNorm) (cationSolution anionSolution potentialSolution : Vec) :
    NewtonState :=
  { cationSolution := cationSolution
    anionSolution := anionSolution
    potentialSolution := potentialSolution
    initial_residual := resnorm cationSolution anionSolution potentialSolution
    relative_residual := 1
    newton_iteration := 0 }

/-- The call of `update_solution_pnp` in one Newton pass (lines 381-439): the
linear solve at the current iterate gives `solutionUpdate`, whose three
components are passed as updates. -/
def newton_update (resnorm : ResNorm) (solve : Solver) (newtparam : newton_param)
    (st : NewtonState) : UpdateResult :=
  let solutionUpdate := solve st.cationSolution st.anionSolution st.potentialSolution
  update_solution_pnp resnorm st.cationSolution st.anionSolution st.potentialSolution
    solutionUpdate.update0 solutionUpdate.update1 solutionUpdate.update2
    st.relative_residual st.initial_residual newtparam

/-- One pass of the Newton loop of `pnp_adaptive.cpp` (lines 379-491). -/
def newton_pass (resnorm : ResNorm) (solve : Solver) (newtparam : newton_param)
    (st : NewtonState) : NewtonState :=
  -- `++newton_iteration` (line 379)
  let st1 := { st with newton_iteration := st.newton_iteration + 1 }
  -- `relative_residual = update_solution_pnp(...)` (lines 427-439)
  let r := newton_update resnorm solve newtparam st
  let st2 := { st1 with
    cationSolution := r.iterate0
    anionSolution := r.iterate1
    potentialSolution := r.iterate2
    relative_residual := r.ret }
  -- `if (relative_residual < 0.0) { ...; relative_residual *= -1.0; }` (lines 440-445)
  let st3 := if st2.relative_residual < 0 then
      { st2 with relative_residual := st2.relative_residual * -1 }
    else st2
  -- the residual is assembled again at the stored iterate (lines 448-453)
  { st3 with
    relative_residual :=
      resnorm st3.cationSolution st3.anionSolution st3.potentialSolution / st3.initial_residual }

/-- The Newton loop of `pnp_adaptive.cpp` (line 377):
`while (relative_residual > nonlinear_tol && newton_iteration < max_newton_iters)`. -/
def newton_loop (resnorm : ResNorm) (solve : Solver) (newtparam : newton_param)
    (st : NewtonState) : NewtonState :=
  if st.relative_residual > newtparam.tol ∧ st.newton_iteration < newtparam.max_it then
    newton_loop resnorm solve newtparam (newton_pass resnorm solve newtparam st)
  else
    st
termination_by newtparam.max_it - st.newton_iteration
decreasing_by
  simp only [newton_pass]
  split <;> simp only [] <;> omega

/-- Newton initialisation followed by the Newton loop, as in `main`. -/
def newton_solve (resnorm : ResNorm) (solve : Solver) (newtparam : newton_param)
    (cationSolution anionSolution potentialSolution : Vec) : NewtonState :=
  newton_loop resnorm solve newtparam
    (newton_init resnorm cationSolution anionSolution potentialSolution)

end PnpAdaptive

namespace BatteryPER

/-- State of `update_solution_pnp` of `battery_PER.cpp` when its backtrack
loop has ended; `damp_iters` starts at 0 (line 760). -/
def backtrack (resnorm : ResNorm) (iterate0 iterate1 iterate2 update0 update1 update2 : Vec)
    (relative_residual initial_residual : ℚ) (params : newton_param) : Backtrack :=
  damp_loop resnorm iterate0 iterate1 iterate2 relative_residual initial_residual params
    (first_trial resnorm iterate0 iterate1 iterate2 update0 update1 update2 initial_residual 0)

/-- The function `update_solution_pnp` of `battery_PER.cpp` (lines 726-795). -/
def update_solution_pnp (resnorm : ResNorm)
    (iterate0 iterate1 iterate2 update0 update1 update2 : Vec)
    (relative_residual initial_residual : ℚ) (params : newton_param) : UpdateResult :=
  finish iterate0 iterate1 iterate2 update0 update1 update2 relative_residual
    (backtrack resnorm iterate0 iterate1 iterate2 update0 update1 update2
      relative_residual initial_residual params)

/-- The residual norm of `battery_PER.cpp`: `assemble(b, *L)`, `b[index] = 0.0`,
`b.norm("l2")`, as a function of the five coefficients `CatCat`, `AnAn`,
`EsEs`, `CatCat_t0`, `AnAn_t0` of `L`. -/
abbrev ResNormT0 := Vec → Vec → Vec → Vec → Vec → ℚ

/-- The function `get_initial_residual` of `battery_PER.cpp` (lines 797-822);
`interpolate` stands for the interpolation onto the fresh function space. -/
def get_initial_residual (assembleNorm : ResNormT0) (interpolate : Vec → Vec)
    (cation anion potential : Vec) : ℚ :=
  let adapt_cation := interpolate cation
  let adapt_anion := interpolate anion
  let adapt_potential := interpolate potential
  assembleNorm adapt_cation adapt_anion adapt_potential adapt_cation adapt_anion

/-- Lines 459-480 of `battery_PER.cpp`, run at the start of every adaptivity
pass of every time step: `newton_iteration = 0`, `initial_residual` is taken at
the previous time step's solution, and `relative_residual` is the residual norm
at the current iterate divided by it. -/
def newton_init (assembleNorm : ResNormT0) (interpolate : Vec → Vec)
    (previous_cation previous_anion previous_potential : Vec)
    (cationSolution anionSolution potentialSolution : Vec) : NewtonState :=
  let initial_residual :=
    get_initial_residual assembleNorm interpolate previous_cation previous_anion previous_potential
  { cationSolution := cationSolution
    anionSolution := anionSolution
    potentialSolution := potentialSolution
    initial_residual := initial_residual
    relative_residual :=
      assembleNorm cationSolution anionSolution potentialSolution previous_cation previous_anion
        / initial_residual
    newton_iteration := 0 }

/-- The call of `update_solution_pnp` in one Newton pass (lines 501-576). -/
def newton_update (resnorm : ResNorm) (solve : Solver) (newtparam : newton_param)
    (st : NewtonState) : UpdateResult :=
  let solutionUpdate := solve st.cationSolution st.anionSolution st.potentialSolution
  update_solution_pnp resnorm st.cationSolution st.anionSolution st.potentialSolution
    solutionUpdate.update0 solutionUpdate.update1 solutionUpdate.update2
    st.relative_residual st.initial_residual newtparam

/-- One pass of the Newton loop of `battery_PER.cpp` (lines 499-600).  The
residual vector is assembled again at the end of the pass (lines 589-595) but
`relative_residual` is not recomputed from it. -/
def newton_pass (resnorm : ResNorm) (solve : Solver) (newtparam : newton_param)
    (st : NewtonState) : NewtonState :=
  -- `++newton_iteration` (line 499)
  let st1 := { st with newton_iteration := st.newton_iteration + 1 }
  -- `relative_residual = update_solution_pnp(...)` (lines 564-576)
  let r := newton_update resnorm solve newtparam st
  let st2 := { st1 with
    cationSolution := r.iterate0
    anionSolution := r.iterate1
    potentialSolution := r.iterate2
    relative_residual := r.ret }
  -- `if (relative_residual < 0.0) { ...; relative_residual *= -1.0; }` (lines 577-582)
  if st2.relative_residual < 0 then
    { st2 with relative_residual := st2.relative_residual * -1 }
  else st2

/-- The Newton loop of `battery_PER.cpp` (line 497):
`while (relative_residual > nonlinear_tol && newton_iteration < max_newton_iters)`. -/
def newton_loop (resnorm : ResNorm) (solve : Solver) (newtparam : newton_param)
    (st : NewtonState) : NewtonState :=
  if st.relative_residual > newtparam.tol ∧ st.newton_iteration < newtparam.max_it then
    newton_loop resnorm solve newtparam (newton_pass resnorm solve newtparam st)
  else
    st
termination_by newtparam.max_it - st.newton_iteration
decreasing_by
  simp only [newton_pass]
  split <;> simp only [] <;> omega

/-- Newton initialisation followed by the Newton loop, as in one adaptivity
pass of `main`; inside the loop `CatCat_t0` and `AnAn_t0` stay the previous
time step's solution. -/
def newton_solve (assembleNorm : ResNormT0) (interpolate : Vec → Vec) (solve : Solver)
    (newtparam : newton_param) (previous_cation previous_anion previous_potential : Vec)
    (cationSolution anionSolution potentialSolution : Vec) : NewtonState :=
  newton_loop (fun a b c => assembleNorm a b c previous_cation previous_anion) solve newtparam
    (newton_init assembleNorm interpolate previous_cation previous_anion previous_potential
      cationSolution anionSolution potentialSolution)

end BatteryPER

namespace PnpEAFE2

/-- Lines 236-262 of `pnp_EAFE2.cpp`: `newton_iteration = 0`, the residual is
assembled at the start iterate, `relative_residual = 1.0`. -/
def newton_init (resnorm : ResNorm) (cationSolution anionSolution potentialSolution : Vec) :
    NewtonState :=
  { cationSolution := cationSolution
    anionSolution := anionSolution
    potentialSolution := potentialSolution
    initial_residual := resnorm cationSolution anionSolution potentialSolution
    relative_residual := 1
    newton_iteration := 0 }

/-- The constant `double tol=1E-6` of line 269. -/
def tol : ℚ := 1 / 1000000

/-- The constant `double lambda=1.0` of line 252. -/
def lambda : ℚ := 1

/-- One pass of the Newton loop of `pnp_EAFE2.cpp` (lines 271-364).
`update_solution3` stands for the three-argument `update_solution(iterate,
update, lambda)` of `newton_functs.h`, which is not among the sources.  The
counter is an `unsigned int`. -/
def newton_pass (resnorm : ResNorm) (solve : Solver) (update_solution3 : Vec → Vec → ℚ → Vec)
    (st : NewtonState) : NewtonState :=
  let solutionUpdate := solve st.cationSolution st.anionSolution st.potentialSolution
  let cationSolution := update_solution3 st.cationSolution solutionUpdate.update0 lambda
  let anionSolution := update_solution3 st.anionSolution solutionUpdate.update1 lambda
  let potentialSolution := update_solution3 st.potentialSolution solutionUpdate.update2 lambda
  { cationSolution := cationSolution
    anionSolution := anionSolution
    potentialSolution := potentialSolution
    initial_residual := st.initial_residual
    relative_residual :=
      resnorm cationSolution anionSolution potentialSolution / st.initial_residual
    newton_iteration := (st.newton_iteration + 1) % 4294967296 }

/-- The Newton loop of `pnp_EAFE2.cpp` (line 270): `while (relative_residual>tol)`.
The loop has no other exit, so the embedding carries fuel: `none` means that
the loop is still running after `fuel` evaluations of its condition. -/
def newton_loop (resnorm : ResNorm) (solve : Solver) (update_solution3 : Vec → Vec → ℚ → Vec) :
    Nat → NewtonState → Option NewtonState
  | 0, _ => none
  | fuel + 1, st =>
    if st.relative_residual > tol then
      newton_loop resnorm solve update_solution3 fuel
        (newton_pass resnorm solve update_solution3 st)
    else
      some st

end PnpEAFE2

/-! ## Result records and example data -/

/-- The result record of an accepted full step. -/
def full_step (resnorm : ResNorm) (i0 i1 i2 u0 u1 u2 : Vec) (R0 : ℚ) : UpdateResult :=
  { iterate0 := update_solution i0 u0
    iterate1 := update_solution i1 u1
    iterate2 := update_solution i2 u2
    update0 := u0
    update1 := u1
    update2 := u2
    ret := resnorm (update_solution i0 u0) (update_solution i1 u1) (update_solution i2 u2) / R0
    passes := 0
    assemblies := 1 }

/-- The result record of a step accepted after `k` dampings. -/
def damped_step (resnorm : ResNorm) (i0 i1 i2 u0 u1 u2 : Vec) (R0 d : ℚ) (k : Nat) :
    UpdateResult :=
  { iterate0 := update_solution i0 (damped u0 d k)
    iterate1 := update_solution i1 (damped u1 d k)
    iterate2 := update_solution i2 (damped u2 d k)
    update0 := u0
    update1 := u1
    update2 := u2
    ret := trial_rr resnorm i0 i1 i2 u0 u1 u2 R0 d k
    passes := k
    assemblies := k + 1 }

/-- The result record of a step rejected after `k` dampings. -/
def rejected_step (resnorm : ResNorm) (i0 i1 i2 u0 u1 u2 : Vec) (R0 d : ℚ) (k : Nat) :
    UpdateResult :=
  { iterate0 := i0
    iterate1 := i1
    iterate2 := i2
    update0 := u0
    update1 := u1
    update2 := u2
    ret := -trial_rr resnorm i0 i1 i2 u0 u1 u2 R0 d k
    passes := k
    assemblies := k + 1 }

/-- A residual norm for the examples: the absolute value of the first cation
entry (the residual of the equation `x = 0`). -/
def example_resnorm : ResNorm := fun a _ _ => |a.headD 0|

/-- Newton parameters for the examples: halving, at most three dampings. -/
def example_params : newton_param :=
  { max_it := 3, tol := 1 / 10, damp_factor := 1 / 2, damp_it := 3, adapt_tol := 1 / 100 }

/-- Newton parameters for the examples with `damp_it = 1`. -/
def example_params_one : newton_param :=
  { max_it := 3, tol := 1 / 10, damp_factor := 1 / 2, damp_it := 1, adapt_tol := 1 / 100 }

/-- Newton parameters for the examples with `tol = 1/2`. -/
def example_params_half : newton_param :=
  { max_it := 3, tol := 1 / 2, damp_factor := 1 / 2, damp_it := 3, adapt_tol := 1 / 100 }

/-- A linear solve for the examples whose update halves the cation iterate. -/
def example_solver_halve : Solver := fun a _ _ =>
  { status := 0, update0 := a.map (fun x => -x / 2), update1 := [0], update2 := [0] }

/-- A linear solve for the examples whose update always moves the cation
iterate away from the solution by 8. -/
def example_solver_bad : Solver := fun _ _ _ =>
  { status := 0, update0 := [8], update1 := [0], update2 := [0] }

/-- A five-coefficient residual norm for the examples: a stationary part and
the difference to the previous time step. -/
def example_assemble : BatteryPER.ResNormT0 := fun a _ _ p _ =>
  |a.headD 0| + |a.headD 0 - p.headD 0|

/-- A linear solve for the examples that returns the zero update. -/
def example_solver_zero : Solver := fun _ _ _ =>
  { status := 0, update0 := [0], update1 := [0], update2 := [0] }

/-- The three-argument update for the examples: `iterate + lambda * update`. -/
def example_update_solution3 : Vec → Vec → ℚ → Vec := fun iterate update lam =>
  update_solution iterate (scale update lam)

/-- The in-place sum `*(x.vector()) += *(y.vector())`, entry by entry. -/
def vector_add (x y : Vec) : Vec :=
  List.zipWith (fun a b => a + b) x y

/-- A `dolfin::Function` as far as `domains.cpp` looks at it: the mesh of its
function space and its coefficient vector. -/
structure DolfinFunction (Mesh : Type) where
  mesh : Mesh
  vector : Vec

/-- The finite-element services `domains.cpp` consumes, for a mesh type `Mesh`:
`num_cells` is `mesh->num_cells()`; `refine` is `refine(*mesh, cell_marker)`;
`interpolate m f` is the coefficient vector of `f` interpolated into the
function space on `m`; `gradient_recovery m p` is the recovered gradient
(`assemble(b, L)` with `L.potential = p`, the FASP Krylov solve, the copy into
a function); `entropy_error m cat_entr cat_pot an_entr an_pot` and
`electric_error m pot gradpot` are the assembled `error_vector`s of
`poisson_cell_marker` and `electric_cell_marker`. -/
structure MeshOps (Mesh : Type) where
  num_cells : Mesh → Nat
  refine : Mesh → List Bool → Mesh
  interpolate : Mesh → DolfinFunction Mesh → Vec
  gradient_recovery : Mesh → Vec → Vec
  entropy_error : Mesh → Vec → Vec → Vec → Vec → Vec
  electric_error : Mesh → Vec → Vec → Vec

/-- What a call of `check_local_entropy` or `check_electric_field` leaves
behind: the returned `unsigned int` and the caller's `target_mesh`.  The other
three fields are ghost counters over the whole recursion: calls of `refine`,
assemblies of an `error_vector`, and cells marked. -/
structure Refinement (Mesh : Type) where
  levels : Nat
  target_mesh : Mesh
  refine_calls : Nat
  indicator_evals : Nat
  marked : Nat

/-- The marking loop (lines 195-202 and 341-348 of `domains.cpp`) from index
`errVecInd` on: `rest` holds the entries of `error_vector` not yet visited, the
pair is `cell_marker` and `marked_elem_count`. -/
def mark_from (threshold : ℚ) : Vec → Nat → List Bool × Nat → List Bool × Nat
  | [], _, s => s
  | e :: rest, errVecInd, s =>
    if e > threshold then
      mark_from threshold rest (errVecInd + 1) (s.1.set errVecInd true, s.2 + 1)
    else
      mark_from threshold rest (errVecInd + 1) s

/-- The marking of one level: `cell_marker` starts all `false` with one entry
per cell, `marked_elem_count` starts at 0, and the loop visits every entry of
`error_vector`. -/
def mark_cells (error_vector : Vec) (threshold : ℚ) (num_cells : Nat) : List Bool × Nat :=
  mark_from threshold error_vector 0 (List.replicate num_cells false, 0)

/-- The entropic potential of one species (lines 130-137 of `domains.cpp`):
the voltage interpolated into its own function space, scaled by the valency,
plus the species' coefficient vector. -/
def entropic_potential {Mesh : Type} (ops : MeshOps Mesh) (valency : ℚ)
    (species voltage : DolfinFunction Mesh) : Vec :=
  vector_add (scale (ops.interpolate voltage.mesh voltage) valency) species.vector

/-- The `error_vector` of `check_local_entropy` (lines 123-192). -/
def entropy_error_vector {Mesh : Type} (ops : MeshOps Mesh) (cation_valency anion_valency : ℚ)
    (cation anion voltage : DolfinFunction Mesh) : Vec :=
  let mesh := voltage.mesh
  let cation_potential := entropic_potential ops cation_valency cation voltage
  let anion_potential := entropic_potential ops anion_valency anion voltage
  let cation_entropy := ops.gradient_recovery mesh cation_potential
  let anion_entropy := ops.gradient_recovery mesh anion_potential
  ops.entropy_error mesh cation_entropy cation_potential anion_entropy anion_potential

/-- The `cell_marker` and `marked_elem_count` of `check_local_entropy`
(lines 195-202): entries above `entropy_tol` are marked. -/
def entropy_marking {Mesh : Type} (ops : MeshOps Mesh) (cation_valency anion_valency : ℚ)
    (entropy_tol : ℚ) (cation anion voltage : DolfinFunction Mesh) : List Bool × Nat :=
  mark_cells (entropy_error_vector ops cation_valency anion_valency cation anion voltage)
    entropy_tol (ops.num_cells voltage.mesh)

/-- The function `check_local_entropy` of `domains.cpp` with `max_cells`
(lines 104-241).  The recursion has no depth bound of its own, so the
embedding carries fuel, the number of nested calls allowed: `none` means that
the recursion is still descending. -/
def check_local_entropy {Mesh : Type} (ops : MeshOps Mesh) (cation_valency anion_valency : ℚ)
    (entropy_tol : ℚ) (max_cells : Int) :
    Nat → DolfinFunction Mesh → DolfinFunction Mesh → DolfinFunction Mesh → Mesh →
      Option (Refinement Mesh)
  | 0, _, _, _, _ => none
  | fuel + 1, cation, anion, voltage, target_mesh =>
    let mesh := voltage.mesh
    if max_cells > 0 ∧ (ops.num_cells mesh : Int) > max_cells then
      some { levels := 0, target_mesh := target_mesh, refine_calls := 0,
             indicator_evals := 0, marked := 0 }
    else
      let m := entropy_marking ops cation_valency anion_valency entropy_tol cation anion voltage
      let cell_marker := m.1
      let marked_elem_count := m.2
      if marked_elem_count = 0 then
        some { levels := 0, target_mesh := mesh, refine_calls := 0,
               indicator_evals := 1, marked := 0 }
      else
        let mesh_ptr := ops.refine mesh cell_marker
        let adapt_cation : DolfinFunction Mesh :=
          { mesh := mesh_ptr, vector := ops.interpolate mesh_ptr cation }
        let adapt_anion : DolfinFunction Mesh :=
          { mesh := mesh_ptr, vector := ops.interpolate mesh_ptr anion }
        let adapt_voltage : DolfinFunction Mesh :=
          { mesh := mesh_ptr, vector := ops.interpolate mesh_ptr voltage }
        match check_local_entropy ops cation_valency anion_valency entropy_tol max_cells fuel
            adapt_cation adapt_anion adapt_voltage target_mesh with
        | none => none
        | some r =>
          some { levels := 1 + r.levels, target_mesh := r.target_mesh,
                 refine_calls := 1 + r.refine_calls,
                 indicator_evals := 1 + r.indicator_evals,
                 marked := marked_elem_count + r.marked }

/-- The overload of `check_local_entropy` without `max_cells` (lines 243-260),
which passes `max_cells = -1`. -/
def check_local_entropy_unbounded {Mesh : Type} (ops : MeshOps Mesh)
    (cation_valency anion_valency : ℚ) (entropy_tol : ℚ) (fuel : Nat)
    (cation anion voltage : DolfinFunction Mesh) (target_mesh : Mesh) :
    Option (Refinement Mesh) :=
  check_local_entropy ops cation_valency anion_valency entropy_tol (-1) fuel
    cation anion voltage target_mesh

/-- The `error_vector` of `check_electric_field` (lines 291-338). -/
def electric_error_vector {Mesh : Type} (ops : MeshOps Mesh) (voltage : DolfinFunction Mesh) :
    Vec :=
  let mesh := voltage.mesh
  let potential := ops.interpolate mesh voltage
  let ElecField := ops.gradient_recovery mesh potential
  ops.electric_error mesh potential ElecField

/-- The `cell_marker` and `marked_elem_count` of `check_electric_field`
(lines 341-348): entries above `entropy_tol/2.0` are marked. -/
def electric_marking {Mesh : Type} (ops : MeshOps Mesh) (entropy_tol : ℚ)
    (voltage : DolfinFunction Mesh) : List Bool × Nat :=
  mark_cells (electric_error_vector ops voltage) (entropy_tol / 2) (ops.num_cells voltage.mesh)

/-- The function `check_electric_field` of `domains.cpp` with `max_cells`
(lines 276-376), with fuel as in `check_local_entropy`. -/
def check_electric_field {Mesh : Type} (ops : MeshOps Mesh) (entropy_tol : ℚ)
    (max_cells : Int) : Nat → DolfinFunction Mesh → Mesh → Option (Refinement Mesh)
  | 0, _, _ => none
  | fuel + 1, voltage, target_mesh =>
    let mesh := voltage.mesh
    if max_cells > 0 ∧ (ops.num_cells mesh : Int) > max_cells then
      some { levels := 0, target_mesh := target_mesh, refine_calls := 0,
             indicator_evals := 0, marked := 0 }
    else
      let m := electric_marking ops entropy_tol voltage
      let cell_marker := m.1
      let marked_elem_count := m.2
      if marked_elem_count = 0 then
        some { levels := 0, target_mesh := mesh, refine_calls := 0,
               indicator_evals := 1, marked := 0 }
      else
        let mesh_ptr := ops.refine mesh cell_marker
        let adapt_voltage : DolfinFunction Mesh :=
          { mesh := mesh_ptr, vector := ops.interpolate mesh_ptr voltage }
        match check_electric_field ops entropy_tol max_cells fuel adapt_voltage target_mesh with
        | none => none
        | some r =>
          some { levels := 1 + r.levels, target_mesh := r.target_mesh,
                 refine_calls := 1 + r.refine_calls,
                 indicator_evals := 1 + r.indicator_evals,
                 marked := marked_elem_count + r.marked }

/-- The overload of `check_electric_field` without `max_cells` (lines
377-387), which passes `max_cells = -1`. -/
def check_electric_field_unbounded {Mesh : Type} (ops : MeshOps Mesh) (entropy_tol : ℚ)
    (fuel : Nat) (voltage : DolfinFunction Mesh) (target_mesh : Mesh) :
    Option (Refinement Mesh) :=
  check_electric_field ops entropy_tol (-1) fuel voltage target_mesh

/-- The three input functions of `check_local_entropy`. -/
structure EntropyFields (Mesh : Type) where
  cation : DolfinFunction Mesh
  anion : DolfinFunction Mesh
  voltage : DolfinFunction Mesh

/-- The arguments of the recursive call of `check_local_entropy` (lines
213-226): the mesh refined by the level's `cell_marker` and the three
functions interpolated onto it. -/
def entropy_adapt {Mesh : Type} (ops : MeshOps Mesh) (cation_valency anion_valency : ℚ)
    (entropy_tol : ℚ) (s : EntropyFields Mesh) : EntropyFields Mesh :=
  let mesh_ptr := ops.refine s.voltage.mesh
    (entropy_marking ops cation_valency anion_valency entropy_tol s.cation s.anion s.voltage).1
  { cation := { mesh := mesh_ptr, vector := ops.interpolate mesh_ptr s.cation }
    anion := { mesh := mesh_ptr, vector := ops.interpolate mesh_ptr s.anion }
    voltage := { mesh := mesh_ptr, vector := ops.interpolate mesh_ptr s.voltage } }

/-- The argument of the recursive call of `check_electric_field` (lines
359-365): the voltage interpolated onto the mesh refined by the level's
`cell_marker`. -/
def electric_adapt {Mesh : Type} (ops : MeshOps Mesh) (entropy_tol : ℚ)
    (voltage : DolfinFunction Mesh) : DolfinFunction Mesh :=
  let mesh_ptr := ops.refine voltage.mesh (electric_marking ops entropy_tol voltage).1
  { mesh := mesh_ptr, vector := ops.interpolate mesh_ptr voltage }

/-- The cell-budget guard `(max_cells>0) && (mesh->num_cells()>max_cells)`. -/
def budget_guard (max_cells : Int) (num_cells : Nat) : Prop :=
  max_cells > 0 ∧ (num_cells : Int) > max_cells

instance budget_guard_decidable (max_cells : Int) (num_cells : Nat) :
    Decidable (budget_guard max_cells num_cells) := by
  unfold budget_guard
  infer_instance

/-- The common shape of the two recursions, over any kind of input `S`: the
guard on the cell count, the marking of the level, and the input of the next
level.  Used to prove facts about both functions at once. -/
def refine_loop {S Mesh : Type} (cells : S → Nat) (mesh_of : S → Mesh) (marked : S → Nat)
    (adapt : S → S) (max_cells : Int) : Nat → S → Mesh → Option (Refinement Mesh)
  | 0, _, _ => none
  | fuel + 1, s, target_mesh =>
    if budget_guard max_cells (cells s) then
      some { levels := 0, target_mesh := target_mesh, refine_calls := 0,
             indicator_evals := 0, marked := 0 }
    else if marked s = 0 then
      some { levels := 0, target_mesh := mesh_of s, refine_calls := 0,
             indicator_evals := 1, marked := 0 }
    else
      match refine_loop cells mesh_of marked adapt max_cells fuel (adapt s) target_mesh with
      | none => none
      | some r =>
        some { levels := 1 + r.levels, target_mesh := r.target_mesh,
               refine_calls := 1 + r.refine_calls,
               indicator_evals := 1 + r.indicator_evals,
               marked := marked s + r.marked }

/-- What a level that marks cells makes of the result of the level below. -/
def one_more_level {Mesh : Type} (marked_elem_count : Nat) (r : Refinement Mesh) :
    Refinement Mesh :=
  { levels := 1 + r.levels, target_mesh := r.target_mesh,
    refine_calls := 1 + r.refine_calls,
    indicator_evals := 1 + r.indicator_evals,
    marked := marked_elem_count + r.marked }

/-- Mesh services for the examples.  A mesh is its number of cells, `refine`
splits every marked cell in two, interpolation gives the constant function
with the value of the first coefficient, the recovered gradient is the
potential itself, and the error of a cell is the absolute value of the
potential there (for the entropy indicator: of the sum of the two entropic
potentials). -/
def example_mesh_ops : MeshOps Nat :=
  { num_cells := fun m => m
    refine := fun m cell_marker => m + cell_marker.count true
    interpolate := fun m f => List.replicate m (f.vector.headD 0)
    gradient_recovery := fun _ p => p
    entropy_error := fun _ _ cat_pot _ an_pot =>
      (vector_add cat_pot an_pot).map (fun x => |x|)
    electric_error := fun _ pot _ => pot.map (fun x => |x|) }

/-- The members of `Linear_PNP` that `fasp_solve` reads and writes: the
solution function stored by the base class `PDE` and the FASP solution
buffer with its allocation flag. -/
structure Linear_PNP where
  _solution : Vec
  _fasp_soln : Vec
  _faps_soln_unallocated : Bool
deriving DecidableEq

/-- What `fasp_solver_dbsr_krylov_amg` returns: the status and the contents
of the solution buffer afterwards. -/
structure FaspSolve where
  status : Int
  soln : Vec
deriving DecidableEq

namespace Linear_PNP

/-- Modelled from the spec: `get_solution` of the base class `PDE` (`pde.h`
is not among the sources) returns the stored solution function. -/
def get_solution (self : Linear_PNP) : Vec :=
  self._solution

/-- Modelled from the spec: `set_solution` of the base class `PDE` (`pde.h`
is not among the sources) replaces the stored solution function. -/
def set_solution (self : Linear_PNP) (solution : Vec) : Linear_PNP :=
  { self with _solution := solution }

/-- The function `Linear_PNP::setup_fasp_linear_algebra` (lines 67-81 of
`linear_pnp.cpp`) as far as the solution is concerned: the matrix and the
right-hand side are set up, the buffer is allocated on first use and set to
zero over the `rhs_size` rows of the right-hand side. -/
def setup_fasp_linear_algebra (rhs_size : Nat) (self : Linear_PNP) : Linear_PNP :=
  { self with
    _fasp_soln := List.replicate rhs_size 0
    _faps_soln_unallocated := false }

/-- The function `Linear_PNP::fasp_solve` (lines 83-120 of `linear_pnp.cpp`):
the returned function and the object afterwards.  `fasp` is the solver run on
the system set up from the stored solution, started from the zeroed buffer;
`convert` is `_convert_EigenVector_to_Function` of the base class, which is
not among the sources. -/
def fasp_solve (fasp : Vec → Vec → FaspSolve) (convert : Vec → Vec) (rhs_size : Nat)
    (self : Linear_PNP) : Vec × Linear_PNP :=
  let self1 := setup_fasp_linear_algebra rhs_size self
  let solution := get_solution self1
  let out := fasp self1._solution self1._fasp_soln
  let self2 := { self1 with _fasp_soln := out.soln }
  if out.status < 0 then
    (solution, set_solution self2 solution)
  else
    let solution_vector := out.soln
    let update := convert solution_vector
    let solution := vector_add solution update
    (solution, set_solution self2 solution)

end Linear_PNP

/-- A linear solve for the examples that reports failure (status -1) while
its buffer holds the update that halves the cation iterate. -/
def example_solver_failed : Solver := fun a _ _ =>
  { status := -1, update0 := a.map (fun x => -x / 2), update1 := [0], update2 := [0] }

/-- The result of the examples that refine once. -/
def example_one_level (t : Nat) : Refinement Nat :=
  { levels := 1, target_mesh := t, refine_calls := 1, indicator_evals := 1, marked := 1 }

/-! ## The entropy potentials of `main_refinement.cpp` -/

/-- The two local functions of the loop body of `compute_entropy_potential`
when one pass of the loop ends. -/
structure EntropyPotentialPass where
  potential : Vec
  entropy_potential : Vec
deriving DecidableEq

/-- One pass of the loop body of `compute_entropy_potential` (lines 189-201 of
`main_refinement.cpp`) for the component `comp`.  `interpolate comp f` is the
coefficient vector of `f` interpolated into the collapsed function space of
component `comp`; `solution` lists the coefficient vectors of the components
of the mixed solution. -/
def entropy_potential_pass (interpolate : Nat → Vec → Vec) (solution : List Vec)
    (valencies : List ℚ) (comp : Nat) : EntropyPotentialPass :=
  -- `potential.interpolate((*solution)[0]);`
  let potential := interpolate comp (solution.getD 0 [])
  -- `entropy_potential.interpolate((*solution)[comp]);`
  let entropy_potential := interpolate comp (solution.getD comp [])
  -- `*(potential.vector()) *= valencies[comp];`
  let potential := scale potential (valencies.getD comp 0)
  -- `*(potential.vector()) += *potential.vector();`
  let potential := vector_add potential potential
  { potential := potential, entropy_potential := entropy_potential }

/-- The function `compute_entropy_potential` of `main_refinement.cpp`
(lines 183-207): for `comp = 1, ..., component_count - 1` the function
`entropy_potential` of that pass is pushed onto the result. -/
def compute_entropy_potential (interpolate : Nat → Vec → Vec) (solution : List Vec)
    (valencies : List ℚ) : List Vec :=
  let component_count := solution.length
  (List.range (component_count - 1)).map (fun k =>
    (entropy_potential_pass interpolate solution valencies (k + 1)).entropy_potential)

/-- The entropic potential of component `comp` as the specification words it:
valency times the electrostatic potential plus the log-density, both taken in
the collapsed function space of the component. -/
def entropy_potential_spec (interpolate : Nat → Vec → Vec) (solution : List Vec)
    (valencies : List ℚ) (comp : Nat) : Vec :=
  vector_add (scale (interpolate comp (solution.getD 0 [])) (valencies.getD comp 0))
    (interpolate comp (solution.getD comp []))

/-! ## The manufactured solution of `pnp_refine_exact/main.cpp`

The functions of lines 20-79 over a field `K`, with the elementary functions
`std::sin`, `std::cos`, `std::exp`, `std::log` as parameters.  A
`std::vector<double>` with three entries is a function on `Fin 3`. -/

namespace PnpRefineExact

/-- `const double pi = 3.14159265359;` -/
def pi {K : Type} [Field K] : K := 314159265359 / 100000000000

/-- `const double permittivity_const = 1.0;` -/
def permittivity_const {K : Type} [Field K] : K := 1

/-- `const double electric_strength = 1.0;` -/
def electric_strength {K : Type} [Field K] : K := 1

/-- `const double ref_concentration = 1.0;` -/
def ref_concentration {K : Type} [Field K] : K := 1

/-- The function `exact_solution` (lines 25-31). -/
def exact_solution {K : Type} [Field K] (sin log : K → K) (x : K) : Fin 3 → K :=
  ![x * electric_strength + sin (pi * x),
    log ref_concentration - x * x * electric_strength,
    log ref_concentration + x * x * electric_strength]

/-- The function `exact_derivative` (lines 33-39). -/
def exact_derivative {K : Type} [Field K] (cos : K → K) (x : K) : Fin 3 → K :=
  ![electric_strength + pi * cos (pi * x),
    -2 * x * electric_strength,
    2 * x * electric_strength]

/-- The function `exact_second` (lines 41-47). -/
def exact_second {K : Type} [Field K] (sin : K → K) (x : K) : Fin 3 → K :=
  ![-(pi * pi) * sin (pi * x),
    -2 * electric_strength,
    2 * electric_strength]

/-- The function `diffusivities` (lines 49-55). -/
def diffusivities {K : Type} [Field K] (_x : K) : Fin 3 → K :=
  ![0, 1, 1]

/-- The function `fixed` (lines 57-62). -/
def fixed {K : Type} [Field K] (sin exp log : K → K) (x : K) : K :=
  let dds := exact_second sin x
  let s := exact_solution sin log x;
  -permittivity_const * dds 0 - (exp (s 1) - exp (s 2))

/-- The function `reactions` (lines 64-74). -/
def reactions {K : Type} [Field K] (sin cos exp log : K → K) (x : K) : Fin 3 → K :=
  let diff := diffusivities x
  let dds := exact_second sin x
  let ds := exact_derivative cos x
  let s := exact_solution sin log x
  ![0,
    -diff 1 * exp (s 1) * (ds 1 * (ds 1 + ds 0) + (dds 1 + dds 0)),
    -diff 2 * exp (s 2) * (ds 2 * (ds 2 - ds 0) + (dds 2 - dds 0))]

/-- The values of `Valency_Expression::eval` (lines 129-137). -/
def Valency_Expression {K : Type} [Field K] (_x : K) : Fin 3 → K :=
  ![0, 1, -1]

end PnpRefineExact

/-! ## Set-up code of `battery_PER.cpp` -/

namespace BatteryPER

/-- `double Lx = 12.0;` (line 44). -/
def Lx : ℚ := 12

/-- `double Ly = 12.0;` (line 45). -/
def Ly : ℚ := 12

/-- `double Lz = 12.0;` (line 46). -/
def Lz : ℚ := 12

/-- `PeriodicBoundary::inside` (lines 78-86); `DOLFIN_EPS` is the constant of
the DOLFIN library. -/
def PeriodicBoundary.inside (DOLFIN_EPS : ℚ) (x : Fin 3 → ℚ) (on_boundary : Bool) : Bool :=
  on_boundary && (
    decide (|x 0| < Lx / 2 + 5 * DOLFIN_EPS)
    || decide (|x 1| < Ly / 2 + 5 * DOLFIN_EPS)
    || decide (|x 2| < Lz / 2 + 5 * DOLFIN_EPS))

/-- `PeriodicBoundary::map` (lines 89-94): `y` is the output array, whose
entries are assigned one by one. -/
def PeriodicBoundary.map (x y : Fin 3 → ℚ) : Fin 3 → ℚ :=
  let y := Function.update y 0 (x 0)
  let y := Function.update y 1 (x 1)
  let y := Function.update y 2 (x 2)
  y

/-- `PeriodicBoundary1D::inside` (lines 100-108). -/
def PeriodicBoundary1D.inside (DOLFIN_EPS : ℚ) (x : Fin 3 → ℚ) (on_boundary : Bool) : Bool :=
  on_boundary && (
    decide (|x 0| < Lx / 2 + 5 * DOLFIN_EPS)
    || decide (|x 1| < Ly / 2 + 5 * DOLFIN_EPS)
    || decide (|x 2| < Lz / 2 + 5 * DOLFIN_EPS))

/-- `PeriodicBoundary1D::map` (lines 111-114): only `y[0]` is assigned. -/
def PeriodicBoundary1D.map (x y : Fin 3 → ℚ) : Fin 3 → ℚ :=
  Function.update y 0 (x 0)

/-- The numbers of the charge sanity check (lines 289-314). -/
structure ChargeCheck where
  cationNetCharge : ℚ
  anionNetCharge : ℚ
  unitSurfaceCharge : ℚ
  correctedSurfaceCharge : ℚ
  surfaceNetCharge : ℚ
  total_charge : ℚ
deriving DecidableEq

/-- The charge sanity check of `main` (lines 289-314).  `volumeCharge f` is
`assemble(volumeCharge)` with `volumeCharge.charge = f`; `surfaceCharge c` is
`assemble(surfaceCharge)` with `surfaceCharge.charge` the constant `c` and the
facet markers of the spheres.  `unitSurfaceCharge` is the first value of the
variable `surfaceNetCharge`, assembled with the constant `one`. -/
def charge_sanity (volumeCharge : Vec → ℚ) (surfaceCharge : ℚ → ℚ)
    (initial_cation initial_anion : Vec) : ChargeCheck :=
  let cationNetCharge := volumeCharge initial_cation
  let anionNetCharge := volumeCharge initial_anion
  let unitSurfaceCharge := surfaceCharge 1
  let correctedSurfaceCharge := -(cationNetCharge - anionNetCharge) / unitSurfaceCharge
  let surfaceNetCharge := surfaceCharge correctedSurfaceCharge
  { cationNetCharge := cationNetCharge
    anionNetCharge := anionNetCharge
    unitSurfaceCharge := unitSurfaceCharge
    correctedSurfaceCharge := correctedSurfaceCharge
    surfaceNetCharge := surfaceNetCharge
    total_charge := cationNetCharge - anionNetCharge + surfaceNetCharge }

/-- The variables of the search for the fix point (lines 371-380); `passes`
is a ghost counter of executions of the loop body. -/
structure FixPoint where
  index : Int
  flag_index : Bool
  passes : Nat
deriving DecidableEq

/-- The body of the search loop (lines 375-379); `getitem` is
`u_index0.vector()->getitem`. -/
def fix_point_pass (getitem : Int → ℚ) (s : FixPoint) : FixPoint :=
  if getitem s.index = 1 then
    { s with flag_index := true, passes := s.passes + 1 }
  else
    { s with index := s.index + 1, passes := s.passes + 1 }

/-- The loop `while (flag_index) { ... }` (lines 373-380).  Fuel is the
number of executions of the body allowed; `none` means that the loop is still
running. -/
def fix_point_search (getitem : Int → ℚ) : Nat → FixPoint → Option FixPoint
  | 0, s => if s.flag_index then none else some s
  | fuel + 1, s =>
    if s.flag_index then fix_point_search getitem fuel (fix_point_pass getitem s) else some s

/-- Lines 371-381: `int index = 0; bool flag_index=false;`, the search loop,
and `index = 3 * index + 2;`.  The result is the pinned index together with
the number of executions of the loop body. -/
def fix_point_index (getitem : Int → ℚ) (fuel : Nat) : Option (Int × Nat) :=
  (fix_point_search getitem fuel { index := 0, flag_index := false, passes := 0 }).map
    (fun s => (3 * s.index + 2, s.passes))

/-- The assignment `b[index] = 0.0` (lines 479, 595, 755, 780, 819). -/
def pin_residual (b : Vec) (index : Int) : Vec :=
  b.set index.toNat 0

/-- `unsigned int max_adapts = 5` (line 331). -/
def max_adapts : Nat := 5

/-- The variables of the adaptivity loop of one time step (lines 331-332);
`passes` is a ghost counter of the passes begun, that is, of Newton solves. -/
structure AdaptState where
  num_adapts : Nat
  adaptive_convergence : Bool
  passes : Nat
deriving DecidableEq

/-- The state before the adaptivity loop of a time step:
`num_adapts = 0`, `adaptive_convergence = false`. -/
def adapt_init : AdaptState :=
  { num_adapts := 0, adaptive_convergence := false, passes := 0 }

/-- One pass of the adaptivity loop (lines 355-716) as far as its control
goes; `num_refines` is the value `check_electric_field` returned in this pass.
The test is `(num_refines == 0) || (++num_adapts > max_adapts)`: the increment
happens only if `num_refines` is not 0, and the branch ends in `break`. -/
def adapt_pass (num_refines : Nat) (s : AdaptState) : AdaptState :=
  let s := { s with passes := s.passes + 1 }
  if num_refines = 0 then
    { s with adaptive_convergence := true }
  else
    let s := { s with num_adapts := (s.num_adapts + 1) % 2 ^ 32 }
    if s.num_adapts > max_adapts then
      { s with adaptive_convergence := true }
    else
      s

/-- The adaptivity loop `while (!adaptive_convergence)` of one time step;
`refines j` is the value `check_electric_field` returns in pass `j`, counted
from 0.  Fuel is the number of passes allowed. -/
def adapt_loop (refines : Nat → Nat) : Nat → AdaptState → Option AdaptState
  | 0, s => if s.adaptive_convergence then some s else none
  | fuel + 1, s =>
    if s.adaptive_convergence then some s
    else adapt_loop refines fuel (adapt_pass (refines s.passes) s)

end BatteryPER

/-- A volume-charge functional for the examples: the sum of the entries. -/
def example_volume_charge : Vec → ℚ := fun f => f.sum

/-- A surface-charge functional for the examples, linear with unit surface
integral 2. -/
def example_surface_charge : ℚ → ℚ := fun c => c * 2

/-! ## Theorems -/

theorem damped_zero (update : Vec) (d : ℚ) : damped update d 0 = update := by
  simp [damped]

theorem scale_damped (update : Vec) (d : ℚ) (j : Nat) :
    scale (damped update d j) d = damped update d (j + 1) := by
  simp [scale, damped, List.map_map, pow_succ, mul_assoc]

theorem first_trial_eq (resnorm : ResNorm) (i0 i1 i2 u0 u1 u2 : Vec) (R0 d : ℚ) (c0 : Nat) :
    first_trial resnorm i0 i1 i2 u0 u1 u2 R0 c0
      = trial_state resnorm i0 i1 i2 u0 u1 u2 R0 d c0 0 := by
  simp [first_trial, trial_state, trial_rr, damped_zero]

theorem damp_pass_trial (resnorm : ResNorm) (i0 i1 i2 u0 u1 u2 : Vec) (R0 : ℚ)
    (params : newton_param) (c0 j : Nat) :
    damp_pass resnorm i0 i1 i2 R0 params
        (trial_state resnorm i0 i1 i2 u0 u1 u2 R0 params.damp_factor c0 j)
      = trial_state resnorm i0 i1 i2 u0 u1 u2 R0 params.damp_factor c0 (j + 1) := by
  simp [damp_pass, trial_state, trial_rr, scale_damped, Nat.add_assoc]

theorem damp_loop_stop (resnorm : ResNorm) (i0 i1 i2 : Vec) (rr R0 : ℚ) (params : newton_param)
    (s : Backtrack) (h : ¬ (s.new_relative_residual > rr ∧ s.damp_iters < params.damp_it)) :
    damp_loop resnorm i0 i1 i2 rr R0 params s = s := by
  rw [damp_loop, if_neg h]

theorem damp_loop_continue (resnorm : ResNorm) (i0 i1 i2 : Vec) (rr R0 : ℚ)
    (params : newton_param) (s : Backtrack)
    (h : s.new_relative_residual > rr ∧ s.damp_iters < params.damp_it) :
    damp_loop resnorm i0 i1 i2 rr R0 params s
      = damp_loop resnorm i0 i1 i2 rr R0 params (damp_pass resnorm i0 i1 i2 R0 params s) := by
  rw [damp_loop, if_pos h]

/-- The backtrack loop, started after `m` passes, stops after some `k ≥ m`
passes: the loop condition held at every pass in between and fails at `k`. -/
theorem damp_loop_trial (resnorm : ResNorm) (i0 i1 i2 u0 u1 u2 : Vec) (rr R0 : ℚ)
    (params : newton_param) (c0 : Nat) :
    ∀ (n m : Nat), params.damp_it - (c0 + m) = n →
      ∃ k, m ≤ k ∧
        damp_loop resnorm i0 i1 i2 rr R0 params
            (trial_state resnorm i0 i1 i2 u0 u1 u2 R0 params.damp_factor c0 m)
          = trial_state resnorm i0 i1 i2 u0 u1 u2 R0 params.damp_factor c0 k ∧
        (∀ j, m ≤ j → j < k →
          trial_rr resnorm i0 i1 i2 u0 u1 u2 R0 params.damp_factor j > rr
            ∧ c0 + j < params.damp_it) ∧
        ¬ (trial_rr resnorm i0 i1 i2 u0 u1 u2 R0 params.damp_factor k > rr
            ∧ c0 + k < params.damp_it) := by
  intro n
  induction n with
  | zero =>
    intro m hm
    refine ⟨m, le_refl m, ?_, ?_, ?_⟩
    · apply damp_loop_stop
      simp only [trial_state]
      omega
    · intro j h1 h2
      omega
    · omega
  | succ n ih =>
    intro m hm
    by_cases hc : trial_rr resnorm i0 i1 i2 u0 u1 u2 R0 params.damp_factor m > rr
        ∧ c0 + m < params.damp_it
    · obtain ⟨k, hk, heq, hbefore, hstop⟩ := ih (m + 1) (by omega)
      refine ⟨k, by omega, ?_, ?_, hstop⟩
      · rw [damp_loop_continue _ _ _ _ _ _ _ _ (by simpa [trial_state] using hc),
          damp_pass_trial, heq]
      · intro j h1 h2
        by_cases hj : j = m
        · subst hj
          exact hc
        · exact hbefore j (by omega) h2
    · refine ⟨m, le_refl m, ?_, ?_, hc⟩
      · apply damp_loop_stop
        simpa [trial_state] using hc
      · intro j h1 h2
        omega

/-- Where the backtrack loop of `pnp_adaptive.cpp` ends: after `k` passes, the
loop condition having held before each of them and failing now. -/
theorem adaptive_backtrack_eq (resnorm : ResNorm) (i0 i1 i2 u0 u1 u2 : Vec) (rr R0 : ℚ)
    (params : newton_param) :
    ∃ k, PnpAdaptive.backtrack resnorm i0 i1 i2 u0 u1 u2 rr R0 params
          = trial_state resnorm i0 i1 i2 u0 u1 u2 R0 params.damp_factor 1 k ∧
        (∀ j, j < k →
          trial_rr resnorm i0 i1 i2 u0 u1 u2 R0 params.damp_factor j > rr
            ∧ 1 + j < params.damp_it) ∧
        ¬ (trial_rr resnorm i0 i1 i2 u0 u1 u2 R0 params.damp_factor k > rr
            ∧ 1 + k < params.damp_it) := by
  obtain ⟨k, _, heq, hbefore, hstop⟩ :=
    damp_loop_trial resnorm i0 i1 i2 u0 u1 u2 rr R0 params 1 _ 0 rfl
  refine ⟨k, ?_, fun j hj => hbefore j (Nat.zero_le j) hj, hstop⟩
  rw [PnpAdaptive.backtrack, first_trial_eq resnorm i0 i1 i2 u0 u1 u2 R0 params.damp_factor 1, heq]

/-- Where the backtrack loop of `battery_PER.cpp` ends. -/
theorem battery_backtrack_eq (resnorm : ResNorm) (i0 i1 i2 u0 u1 u2 : Vec) (rr R0 : ℚ)
    (params : newton_param) :
    ∃ k, BatteryPER.backtrack resnorm i0 i1 i2 u0 u1 u2 rr R0 params
          = trial_state resnorm i0 i1 i2 u0 u1 u2 R0 params.damp_factor 0 k ∧
        (∀ j, j < k →
          trial_rr resnorm i0 i1 i2 u0 u1 u2 R0 params.damp_factor j > rr
            ∧ 0 + j < params.damp_it) ∧
        ¬ (trial_rr resnorm i0 i1 i2 u0 u1 u2 R0 params.damp_factor k > rr
            ∧ 0 + k < params.damp_it) := by
  obtain ⟨k, _, heq, hbefore, hstop⟩ :=
    damp_loop_trial resnorm i0 i1 i2 u0 u1 u2 rr R0 params 0 _ 0 rfl
  refine ⟨k, ?_, fun j hj => hbefore j (Nat.zero_le j) hj, hstop⟩
  rw [BatteryPER.backtrack, first_trial_eq resnorm i0 i1 i2 u0 u1 u2 R0 params.damp_factor 0, heq]

/-- C1: when the residual at the full trial iterate, divided by the initial
residual norm, is at most the incoming relative residual, both variants of
`update_solution_pnp` run the backtrack loop body zero times, overwrite the
three iterates by iterate + update (undamped), and return exactly that
relative residual. -/
theorem update_solution_pnp_full_step (resnorm : ResNorm) (i0 i1 i2 u0 u1 u2 : Vec) (r R0 : ℚ)
    (params : newton_param)
    (h : resnorm (update_solution i0 u0) (update_solution i1 u1) (update_solution i2 u2) / R0
          ≤ r) :
    PnpAdaptive.update_solution_pnp resnorm i0 i1 i2 u0 u1 u2 r R0 params
        = full_step resnorm i0 i1 i2 u0 u1 u2 R0
      ∧ BatteryPER.update_solution_pnp resnorm i0 i1 i2 u0 u1 u2 r R0 params
        = full_step resnorm i0 i1 i2 u0 u1 u2 R0 := by
  have hs : ∀ c0, damp_loop resnorm i0 i1 i2 r R0 params
      (first_trial resnorm i0 i1 i2 u0 u1 u2 R0 c0)
        = first_trial resnorm i0 i1 i2 u0 u1 u2 R0 c0 := by
    intro c0
    apply damp_loop_stop
    simp only [first_trial]
    intro hc
    exact absurd hc.1 (not_lt.mpr h)
  constructor
  · rw [PnpAdaptive.update_solution_pnp, PnpAdaptive.backtrack, hs]
    simp only [finish, first_trial, full_step]
    rw [if_neg (not_lt.mpr h)]
  · rw [BatteryPER.update_solution_pnp, BatteryPER.backtrack, hs]
    simp only [finish, first_trial, full_step]
    rw [if_neg (not_lt.mpr h)]

theorem finish_trial_state (resnorm : ResNorm) (i0 i1 i2 u0 u1 u2 : Vec) (rr R0 d : ℚ)
    (c0 k : Nat) :
    finish i0 i1 i2 u0 u1 u2 rr (trial_state resnorm i0 i1 i2 u0 u1 u2 R0 d c0 k)
      = if trial_rr resnorm i0 i1 i2 u0 u1 u2 R0 d k > rr then
          rejected_step resnorm i0 i1 i2 u0 u1 u2 R0 d k
        else damped_step resnorm i0 i1 i2 u0 u1 u2 R0 d k := by
  simp only [finish, trial_state, rejected_step, damped_step]

/-- In `battery_PER.cpp`: if `k ≤ damp_it` is the least number of dampings
whose trial does not exceed the incoming relative residual, the step is
accepted after exactly `k` passes of the loop body. -/
theorem battery_update_solution_pnp_least (resnorm : ResNorm) (i0 i1 i2 u0 u1 u2 : Vec)
    (r R0 : ℚ) (params : newton_param) (k : Nat) (hk : k ≤ params.damp_it)
    (hlt : ∀ j, j < k → trial_rr resnorm i0 i1 i2 u0 u1 u2 R0 params.damp_factor j > r)
    (hle : trial_rr resnorm i0 i1 i2 u0 u1 u2 R0 params.damp_factor k ≤ r) :
    BatteryPER.update_solution_pnp resnorm i0 i1 i2 u0 u1 u2 r R0 params
      = damped_step resnorm i0 i1 i2 u0 u1 u2 R0 params.damp_factor k := by
  obtain ⟨m, heq, hbefore, hstop⟩ := battery_backtrack_eq resnorm i0 i1 i2 u0 u1 u2 r R0 params
  have hmk : m = k := by
    rcases Nat.lt_trichotomy m k with h | h | h
    · exact absurd ⟨hlt m h, by omega⟩ hstop
    · exact h
    · exact absurd (hbefore k h).1 (not_lt.mpr hle)
  subst hmk
  rw [BatteryPER.update_solution_pnp, heq, finish_trial_state, if_neg (not_lt.mpr hle)]

/-- In `pnp_adaptive.cpp` the same holds when `k < damp_it` (or `k = 0`): the
counter starts at 1, so only `damp_it - 1` dampings are available. -/
theorem adaptive_update_solution_pnp_least (resnorm : ResNorm) (i0 i1 i2 u0 u1 u2 : Vec)
    (r R0 : ℚ) (params : newton_param) (k : Nat) (hk : k < params.damp_it ∨ k = 0)
    (hlt : ∀ j, j < k → trial_rr resnorm i0 i1 i2 u0 u1 u2 R0 params.damp_factor j > r)
    (hle : trial_rr resnorm i0 i1 i2 u0 u1 u2 R0 params.damp_factor k ≤ r) :
    PnpAdaptive.update_solution_pnp resnorm i0 i1 i2 u0 u1 u2 r R0 params
      = damped_step resnorm i0 i1 i2 u0 u1 u2 R0 params.damp_factor k := by
  obtain ⟨m, heq, hbefore, hstop⟩ := adaptive_backtrack_eq resnorm i0 i1 i2 u0 u1 u2 r R0 params
  have hmk : m = k := by
    rcases Nat.lt_trichotomy m k with h | h | h
    · exact absurd ⟨hlt m h, by omega⟩ hstop
    · exact h
    · exact absurd (hbefore k h).1 (not_lt.mpr hle)
  subst hmk
  rw [PnpAdaptive.update_solution_pnp, heq, finish_trial_state, if_neg (not_lt.mpr hle)]

/-- In `battery_PER.cpp`: if the full step and each of the `damp_it` damped
trials exceed the incoming relative residual, the step is rejected after
exactly `damp_it` dampings. -/
theorem battery_update_solution_pnp_exhausted (resnorm : ResNorm) (i0 i1 i2 u0 u1 u2 : Vec)
    (r R0 : ℚ) (params : newton_param)
    (hgt : ∀ j, j ≤ params.damp_it →
      trial_rr resnorm i0 i1 i2 u0 u1 u2 R0 params.damp_factor j > r) :
    BatteryPER.update_solution_pnp resnorm i0 i1 i2 u0 u1 u2 r R0 params
      = rejected_step resnorm i0 i1 i2 u0 u1 u2 R0 params.damp_factor params.damp_it := by
  obtain ⟨m, heq, hbefore, hstop⟩ := battery_backtrack_eq resnorm i0 i1 i2 u0 u1 u2 r R0 params
  have hmk : m = params.damp_it := by
    rcases Nat.lt_trichotomy m params.damp_it with h | h | h
    · exact absurd ⟨hgt m (by omega), by omega⟩ hstop
    · exact h
    · have := (hbefore params.damp_it h).2
      omega
  rw [BatteryPER.update_solution_pnp, heq, finish_trial_state, hmk,
    if_pos (hgt params.damp_it (le_refl _))]

/-- In `pnp_adaptive.cpp`: if the full step and each of the `damp_it - 1`
damped trials exceed the incoming relative residual, the step is rejected
after exactly `damp_it - 1` dampings. -/
theorem adaptive_update_solution_pnp_exhausted (resnorm : ResNorm) (i0 i1 i2 u0 u1 u2 : Vec)
    (r R0 : ℚ) (params : newton_param)
    (hgt : ∀ j, j ≤ params.damp_it - 1 →
      trial_rr resnorm i0 i1 i2 u0 u1 u2 R0 params.damp_factor j > r) :
    PnpAdaptive.update_solution_pnp resnorm i0 i1 i2 u0 u1 u2 r R0 params
      = rejected_step resnorm i0 i1 i2 u0 u1 u2 R0 params.damp_factor (params.damp_it - 1) := by
  obtain ⟨m, heq, hbefore, hstop⟩ := adaptive_backtrack_eq resnorm i0 i1 i2 u0 u1 u2 r R0 params
  have hmk : m = params.damp_it - 1 := by
    rcases Nat.lt_trichotomy m (params.damp_it - 1) with h | h | h
    · exact absurd ⟨hgt m (by omega), by omega⟩ hstop
    · exact h
    · have := (hbefore (params.damp_it - 1) h).2
      omega
  rw [PnpAdaptive.update_solution_pnp, heq, finish_trial_state, hmk,
    if_pos (hgt (params.damp_it - 1) (le_refl _))]

/-- C1, at a concrete input: the initial residual norm is 10, the update
brings the residual to 3 = 0.3 * 10, the incoming relative residual is 1.0;
both variants return 0.3 with zero dampings. -/
theorem update_solution_pnp_full_step_witness :
    example_resnorm (update_solution [10] [-7]) (update_solution [0] [0])
        (update_solution [0] [0]) / 10 ≤ 1
      ∧ (PnpAdaptive.update_solution_pnp example_resnorm [10] [0] [0] [-7] [0] [0] 1 10
            example_params = full_step example_resnorm [10] [0] [0] [-7] [0] [0] 10
        ∧ BatteryPER.update_solution_pnp example_resnorm [10] [0] [0] [-7] [0] [0] 1 10
            example_params = full_step example_resnorm [10] [0] [0] [-7] [0] [0] 10)
      ∧ (full_step example_resnorm [10] [0] [0] [-7] [0] [0] 10).ret = 3 / 10
      ∧ (full_step example_resnorm [10] [0] [0] [-7] [0] [0] 10).passes = 0 :=
  ⟨by norm_num [example_resnorm, update_solution],
    update_solution_pnp_full_step example_resnorm [10] [0] [0] [-7] [0] [0] 1 10 example_params
      (by norm_num [example_resnorm, update_solution]),
    by norm_num [full_step, example_resnorm, update_solution],
    rfl⟩

/-- C2, at the failing input `damp_it = 1`, `damp_factor = 1/2`, iterate 0,
update 4, incoming relative residual 3, initial residual norm 1: the least
number of halvings that brings the residual to at most 3 is `k = 1 ≤ damp_it`,
`battery_PER.cpp` accepts after one damping, but `pnp_adaptive.cpp` performs no
damping at all and returns the failure value -4. -/
theorem update_solution_pnp_cap_off_by_one :
    trial_rr example_resnorm [0] [0] [0] [4] [0] [0] 1 example_params_one.damp_factor 0 > 3
      ∧ trial_rr example_resnorm [0] [0] [0] [4] [0] [0] 1 example_params_one.damp_factor 1 ≤ 3
      ∧ 1 ≤ example_params_one.damp_it
      ∧ PnpAdaptive.update_solution_pnp example_resnorm [0] [0] [0] [4] [0] [0] 3 1
          example_params_one
        = { iterate0 := [0], iterate1 := [0], iterate2 := [0],
            update0 := [4], update1 := [0], update2 := [0],
            ret := -4, passes := 0, assemblies := 1 }
      ∧ BatteryPER.update_solution_pnp example_resnorm [0] [0] [0] [4] [0] [0] 3 1
          example_params_one
        = { iterate0 := [2], iterate1 := [0], iterate2 := [0],
            update0 := [4], update1 := [0], update2 := [0],
            ret := 2, passes := 1, assemblies := 2 } := by
  have h0 : trial_rr example_resnorm [0] [0] [0] [4] [0] [0] 1
      example_params_one.damp_factor 0 > 3 := by
    norm_num [trial_rr, example_resnorm, update_solution, damped, example_params_one]
  have h1 : trial_rr example_resnorm [0] [0] [0] [4] [0] [0] 1
      example_params_one.damp_factor 1 ≤ 3 := by
    norm_num [trial_rr, example_resnorm, update_solution, damped, example_params_one]
  refine ⟨h0, h1, by norm_num [example_params_one], ?_, ?_⟩
  · rw [adaptive_update_solution_pnp_exhausted]
    · norm_num [rejected_step, trial_rr, example_resnorm, update_solution, damped,
        example_params_one]
    · intro j hj
      have hj0 : j = 0 := by
        simp only [example_params_one] at hj
        omega
      rw [hj0]
      exact h0
  · rw [battery_update_solution_pnp_least _ _ _ _ _ _ _ _ _ _ 1
      (by norm_num [example_params_one])
      (by
        intro j hj
        have hj0 : j = 0 := by omega
        rw [hj0]
        exact h0) h1]
    norm_num [damped_step, trial_rr, example_resnorm, update_solution, damped,
      example_params_one]

theorem trial_rr_nonneg (resnorm : ResNorm) (i0 i1 i2 u0 u1 u2 : Vec) (R0 d : ℚ) (j : Nat)
    (hR0 : 0 < R0) (hnorm : ∀ a b c, 0 ≤ resnorm a b c) :
    0 ≤ trial_rr resnorm i0 i1 i2 u0 u1 u2 R0 d j := by
  unfold trial_rr
  exact div_nonneg (hnorm _ _ _) (le_of_lt hR0)

/-- What the caller sees, in terms of the last trial: sign of the returned
value, the iterates and the updates. -/
theorem finish_facts (i0 i1 i2 u0 u1 u2 : Vec) (r : ℚ) (s : Backtrack) :
    (s.new_relative_residual > r →
        (finish i0 i1 i2 u0 u1 u2 r s).ret = -s.new_relative_residual
          ∧ (finish i0 i1 i2 u0 u1 u2 r s).iterate0 = i0
          ∧ (finish i0 i1 i2 u0 u1 u2 r s).iterate1 = i1
          ∧ (finish i0 i1 i2 u0 u1 u2 r s).iterate2 = i2)
      ∧ (¬ s.new_relative_residual > r →
        (finish i0 i1 i2 u0 u1 u2 r s).ret = s.new_relative_residual
          ∧ (finish i0 i1 i2 u0 u1 u2 r s).iterate0 = s._iterate0
          ∧ (finish i0 i1 i2 u0 u1 u2 r s).iterate1 = s._iterate1
          ∧ (finish i0 i1 i2 u0 u1 u2 r s).iterate2 = s._iterate2)
      ∧ (finish i0 i1 i2 u0 u1 u2 r s).update0 = u0
      ∧ (finish i0 i1 i2 u0 u1 u2 r s).update1 = u1
      ∧ (finish i0 i1 i2 u0 u1 u2 r s).update2 = u2
      ∧ (finish i0 i1 i2 u0 u1 u2 r s).passes = s.passes
      ∧ (finish i0 i1 i2 u0 u1 u2 r s).assemblies = s.assemblies := by
  unfold finish
  refine ⟨fun h => ?_, fun h => ?_, ?_, ?_, ?_, ?_, ?_⟩
  · rw [if_pos h]
    exact ⟨rfl, rfl, rfl, rfl⟩
  · rw [if_neg h]
    exact ⟨rfl, rfl, rfl, rfl⟩
  all_goals split <;> rfl

theorem adaptive_backtrack_nonneg (resnorm : ResNorm) (i0 i1 i2 u0 u1 u2 : Vec) (r R0 : ℚ)
    (params : newton_param) (hR0 : 0 < R0) (hnorm : ∀ a b c, 0 ≤ resnorm a b c) :
    0 ≤ (PnpAdaptive.backtrack resnorm i0 i1 i2 u0 u1 u2 r R0 params).new_relative_residual := by
  obtain ⟨k, heq, _, _⟩ := adaptive_backtrack_eq resnorm i0 i1 i2 u0 u1 u2 r R0 params
  rw [heq]
  exact trial_rr_nonneg resnorm i0 i1 i2 u0 u1 u2 R0 _ k hR0 hnorm

theorem battery_backtrack_nonneg (resnorm : ResNorm) (i0 i1 i2 u0 u1 u2 : Vec) (r R0 : ℚ)
    (params : newton_param) (hR0 : 0 < R0) (hnorm : ∀ a b c, 0 ≤ resnorm a b c) :
    0 ≤ (BatteryPER.backtrack resnorm i0 i1 i2 u0 u1 u2 r R0 params).new_relative_residual := by
  obtain ⟨k, heq, _, _⟩ := battery_backtrack_eq resnorm i0 i1 i2 u0 u1 u2 r R0 params
  rw [heq]
  exact trial_rr_nonneg resnorm i0 i1 i2 u0 u1 u2 R0 _ k hR0 hnorm

/-- The sign protocol of `finish` when the last trial and the incoming
relative residual are nonnegative. -/
theorem finish_sign (i0 i1 i2 u0 u1 u2 : Vec) (r : ℚ) (s : Backtrack)
    (hs : 0 ≤ s.new_relative_residual) (hr : 0 ≤ r) :
    ((finish i0 i1 i2 u0 u1 u2 r s).ret < 0 ↔ s.new_relative_residual > r)
      ∧ (s.new_relative_residual > r →
          (finish i0 i1 i2 u0 u1 u2 r s).ret = -s.new_relative_residual)
      ∧ (¬ s.new_relative_residual > r → 0 ≤ (finish i0 i1 i2 u0 u1 u2 r s).ret) := by
  obtain ⟨hrej, hacc, _⟩ := finish_facts i0 i1 i2 u0 u1 u2 r s
  refine ⟨⟨fun hneg => ?_, fun h => ?_⟩, fun h => (hrej h).1, fun h => ?_⟩
  · by_contra h
    rw [(hacc h).1] at hneg
    exact absurd hneg (not_lt.mpr hs)
  · rw [(hrej h).1]
    have : r < s.new_relative_residual := h
    linarith
  · rw [(hacc h).1]
    exact hs

/-- C3: with a positive initial residual norm, a nonnegative incoming relative
residual and a nonnegative residual norm, each variant of
`update_solution_pnp` returns a negative value exactly when the last trial
relative residual, after the backtrack loop has ended, still exceeds the
incoming one; the value is then the negation of that last trial relative
residual, and every accepted return is nonnegative. -/
theorem update_solution_pnp_negative_iff_failed (resnorm : ResNorm)
    (i0 i1 i2 u0 u1 u2 : Vec) (r R0 : ℚ) (params : newton_param)
    (hR0 : 0 < R0) (hr : 0 ≤ r) (hnorm : ∀ a b c, 0 ≤ resnorm a b c) :
    (((PnpAdaptive.update_solution_pnp resnorm i0 i1 i2 u0 u1 u2 r R0 params).ret < 0 ↔
          (PnpAdaptive.backtrack resnorm i0 i1 i2 u0 u1 u2 r R0 params).new_relative_residual > r)
        ∧ ((PnpAdaptive.backtrack resnorm i0 i1 i2 u0 u1 u2 r R0 params).new_relative_residual > r →
          (PnpAdaptive.update_solution_pnp resnorm i0 i1 i2 u0 u1 u2 r R0 params).ret
            = -(PnpAdaptive.backtrack resnorm i0 i1 i2 u0 u1 u2 r R0 params).new_relative_residual)
        ∧ (¬ (PnpAdaptive.backtrack resnorm i0 i1 i2 u0 u1 u2 r R0 params).new_relative_residual > r →
          0 ≤ (PnpAdaptive.update_solution_pnp resnorm i0 i1 i2 u0 u1 u2 r R0 params).ret))
      ∧ (((BatteryPER.update_solution_pnp resnorm i0 i1 i2 u0 u1 u2 r R0 params).ret < 0 ↔
          (BatteryPER.backtrack resnorm i0 i1 i2 u0 u1 u2 r R0 params).new_relative_residual > r)
        ∧ ((BatteryPER.backtrack resnorm i0 i1 i2 u0 u1 u2 r R0 params).new_relative_residual > r →
          (BatteryPER.update_solution_pnp resnorm i0 i1 i2 u0 u1 u2 r R0 params).ret
            = -(BatteryPER.backtrack resnorm i0 i1 i2 u0 u1 u2 r R0 params).new_relative_residual)
        ∧ (¬ (BatteryPER.backtrack resnorm i0 i1 i2 u0 u1 u2 r R0 params).new_relative_residual > r →
          0 ≤ (BatteryPER.update_solution_pnp resnorm i0 i1 i2 u0 u1 u2 r R0 params).ret)) :=
  ⟨finish_sign i0 i1 i2 u0 u1 u2 r _
      (adaptive_backtrack_nonneg resnorm i0 i1 i2 u0 u1 u2 r R0 params hR0 hnorm) hr,
    finish_sign i0 i1 i2 u0 u1 u2 r _
      (battery_backtrack_nonneg resnorm i0 i1 i2 u0 u1 u2 r R0 params hR0 hnorm) hr⟩

theorem example_resnorm_nonneg : ∀ a b c, 0 ≤ example_resnorm a b c := by
  intro a b c
  exact abs_nonneg _

/-- C3, at a concrete input: iterate 0, update 4, halving, `damp_it = 3`,
incoming relative residual 3, initial residual norm 1. -/
theorem update_solution_pnp_negative_iff_failed_witness :
    (0 : ℚ) < 1 ∧ (0 : ℚ) ≤ 3 ∧ (∀ a b c, 0 ≤ example_resnorm a b c)
      ∧ (((PnpAdaptive.update_solution_pnp example_resnorm [0] [0] [0] [4] [0] [0] 3 1
              example_params).ret < 0 ↔
            (PnpAdaptive.backtrack example_resnorm [0] [0] [0] [4] [0] [0] 3 1
              example_params).new_relative_residual > 3)
        ∧ ((BatteryPER.update_solution_pnp example_resnorm [0] [0] [0] [4] [0] [0] 3 1
              example_params).ret < 0 ↔
            (BatteryPER.backtrack example_resnorm [0] [0] [0] [4] [0] [0] 3 1
              example_params).new_relative_residual > 3)) :=
  ⟨by norm_num, by norm_num, example_resnorm_nonneg,
    (update_solution_pnp_negative_iff_failed example_resnorm [0] [0] [0] [4] [0] [0] 3 1
      example_params (by norm_num) (by norm_num) example_resnorm_nonneg).1.1,
    (update_solution_pnp_negative_iff_failed example_resnorm [0] [0] [0] [4] [0] [0] 3 1
      example_params (by norm_num) (by norm_num) example_resnorm_nonneg).2.1⟩

/-- Atomicity of one variant, stated on `finish`: a negative return leaves the
iterates alone, the updates are never touched, and the iterates are replaced
by the last trial on the accepted path only. -/
theorem finish_atomic (i0 i1 i2 u0 u1 u2 : Vec) (r : ℚ) (s : Backtrack)
    (hs : 0 ≤ s.new_relative_residual) :
    ((finish i0 i1 i2 u0 u1 u2 r s).ret < 0 →
        (finish i0 i1 i2 u0 u1 u2 r s).iterate0 = i0
          ∧ (finish i0 i1 i2 u0 u1 u2 r s).iterate1 = i1
          ∧ (finish i0 i1 i2 u0 u1 u2 r s).iterate2 = i2)
      ∧ ((finish i0 i1 i2 u0 u1 u2 r s).update0 = u0
          ∧ (finish i0 i1 i2 u0 u1 u2 r s).update1 = u1
          ∧ (finish i0 i1 i2 u0 u1 u2 r s).update2 = u2)
      ∧ (((finish i0 i1 i2 u0 u1 u2 r s).iterate0 ≠ i0
            ∨ (finish i0 i1 i2 u0 u1 u2 r s).iterate1 ≠ i1
            ∨ (finish i0 i1 i2 u0 u1 u2 r s).iterate2 ≠ i2) →
          ¬ s.new_relative_residual > r
            ∧ (finish i0 i1 i2 u0 u1 u2 r s).iterate0 = s._iterate0
            ∧ (finish i0 i1 i2 u0 u1 u2 r s).iterate1 = s._iterate1
            ∧ (finish i0 i1 i2 u0 u1 u2 r s).iterate2 = s._iterate2) := by
  obtain ⟨hrej, hacc, h0, h1, h2, _, _⟩ := finish_facts i0 i1 i2 u0 u1 u2 r s
  refine ⟨fun hneg => ?_, ⟨h0, h1, h2⟩, fun hne => ?_⟩
  · by_cases h : s.new_relative_residual > r
    · exact (hrej h).2
    · rw [(hacc h).1] at hneg
      exact absurd hneg (not_lt.mpr hs)
  · by_cases h : s.new_relative_residual > r
    · obtain ⟨_, e0, e1, e2⟩ := hrej h
      rcases hne with hne | hne | hne
      · exact absurd e0 hne
      · exact absurd e1 hne
      · exact absurd e2 hne
    · exact ⟨h, (hacc h).2⟩

/-- C4: with a positive initial residual norm and a nonnegative residual
norm, in both variants of `update_solution_pnp` a negative return leaves the
caller's three iterates exactly as they were, the caller's three updates are
unchanged in every case, and the iterates differ from their old values only
on the accepted path, where they are the last trial. -/
theorem update_solution_pnp_atomic (resnorm : ResNorm)
    (i0 i1 i2 u0 u1 u2 : Vec) (r R0 : ℚ) (params : newton_param)
    (hR0 : 0 < R0) (hnorm : ∀ a b c, 0 ≤ resnorm a b c) :
    (((PnpAdaptive.update_solution_pnp resnorm i0 i1 i2 u0 u1 u2 r R0 params).ret < 0 →
          (PnpAdaptive.update_solution_pnp resnorm i0 i1 i2 u0 u1 u2 r R0 params).iterate0 = i0
            ∧ (PnpAdaptive.update_solution_pnp resnorm i0 i1 i2 u0 u1 u2 r R0 params).iterate1 = i1
            ∧ (PnpAdaptive.update_solution_pnp resnorm i0 i1 i2 u0 u1 u2 r R0 params).iterate2 = i2)
        ∧ ((PnpAdaptive.update_solution_pnp resnorm i0 i1 i2 u0 u1 u2 r R0 params).update0 = u0
            ∧ (PnpAdaptive.update_solution_pnp resnorm i0 i1 i2 u0 u1 u2 r R0 params).update1 = u1
            ∧ (PnpAdaptive.update_solution_pnp resnorm i0 i1 i2 u0 u1 u2 r R0 params).update2 = u2)
        ∧ (((PnpAdaptive.update_solution_pnp resnorm i0 i1 i2 u0 u1 u2 r R0 params).iterate0 ≠ i0
              ∨ (PnpAdaptive.update_solution_pnp resnorm i0 i1 i2 u0 u1 u2 r R0 params).iterate1 ≠ i1
              ∨ (PnpAdaptive.update_solution_pnp resnorm i0 i1 i2 u0 u1 u2 r R0 params).iterate2 ≠ i2) →
            ¬ (PnpAdaptive.backtrack resnorm i0 i1 i2 u0 u1 u2 r R0 params).new_relative_residual > r
              ∧ (PnpAdaptive.update_solution_pnp resnorm i0 i1 i2 u0 u1 u2 r R0 params).iterate0
                  = (PnpAdaptive.backtrack resnorm i0 i1 i2 u0 u1 u2 r R0 params)._iterate0
              ∧ (PnpAdaptive.update_solution_pnp resnorm i0 i1 i2 u0 u1 u2 r R0 params).iterate1
                  = (PnpAdaptive.backtrack resnorm i0 i1 i2 u0 u1 u2 r R0 params)._iterate1
              ∧ (PnpAdaptive.update_solution_pnp resnorm i0 i1 i2 u0 u1 u2 r R0 params).iterate2
                  = (PnpAdaptive.backtrack resnorm i0 i1 i2 u0 u1 u2 r R0 params)._iterate2))
      ∧ (((BatteryPER.update_solution_pnp resnorm i0 i1 i2 u0 u1 u2 r R0 params).ret < 0 →
          (BatteryPER.update_solution_pnp resnorm i0 i1 i2 u0 u1 u2 r R0 params).iterate0 = i0
            ∧ (BatteryPER.update_solution_pnp resnorm i0 i1 i2 u0 u1 u2 r R0 params).iterate1 = i1
            ∧ (BatteryPER.update_solution_pnp resnorm i0 i1 i2 u0 u1 u2 r R0 params).iterate2 = i2)
        ∧ ((BatteryPER.update_solution_pnp resnorm i0 i1 i2 u0 u1 u2 r R0 params).update0 = u0
            ∧ (BatteryPER.update_solution_pnp resnorm i0 i1 i2 u0 u1 u2 r R0 params).update1 = u1
            ∧ (BatteryPER.update_solution_pnp resnorm i0 i1 i2 u0 u1 u2 r R0 params).update2 = u2)
        ∧ (((BatteryPER.update_solution_pnp resnorm i0 i1 i2 u0 u1 u2 r R0 params).iterate0 ≠ i0
              ∨ (BatteryPER.update_solution_pnp resnorm i0 i1 i2 u0 u1 u2 r R0 params).iterate1 ≠ i1
              ∨ (BatteryPER.update_solution_pnp resnorm i0 i1 i2 u0 u1 u2 r R0 params).iterate2 ≠ i2) →
            ¬ (BatteryPER.backtrack resnorm i0 i1 i2 u0 u1 u2 r R0 params).new_relative_residual > r
              ∧ (BatteryPER.update_solution_pnp resnorm i0 i1 i2 u0 u1 u2 r R0 params).iterate0
                  = (BatteryPER.backtrack resnorm i0 i1 i2 u0 u1 u2 r R0 params)._iterate0
              ∧ (BatteryPER.update_solution_pnp resnorm i0 i1 i2 u0 u1 u2 r R0 params).iterate1
                  = (BatteryPER.backtrack resnorm i0 i1 i2 u0 u1 u2 r R0 params)._iterate1
              ∧ (BatteryPER.update_solution_pnp resnorm i0 i1 i2 u0 u1 u2 r R0 params).iterate2
                  = (BatteryPER.backtrack resnorm i0 i1 i2 u0 u1 u2 r R0 params)._iterate2)) :=
  ⟨finish_atomic i0 i1 i2 u0 u1 u2 r _
      (adaptive_backtrack_nonneg resnorm i0 i1 i2 u0 u1 u2 r R0 params hR0 hnorm),
    finish_atomic i0 i1 i2 u0 u1 u2 r _
      (battery_backtrack_nonneg resnorm i0 i1 i2 u0 u1 u2 r R0 params hR0 hnorm)⟩

/-- C5: both variants of `update_solution_pnp` are total functions whose
backtrack loop has ended by its own condition; the loop body runs at most
`damp_it` times and `assemble` is called once more than that; with
`damp_it = 0` the residual of the full step is assembled once, nothing is
damped, and that single evaluation decides; and when the full step and every
permitted damped trial (up to `damp_it - 1` dampings in `pnp_adaptive.cpp`, up
to `damp_it` in `battery_PER.cpp`) exceed the incoming relative residual, what
is returned is the failure value (minus the last trial) with the iterates
untouched, after that many dampings. -/
theorem update_solution_pnp_bounded (resnorm : ResNorm)
    (i0 i1 i2 u0 u1 u2 : Vec) (r R0 : ℚ) (params : newton_param) :
    ((PnpAdaptive.update_solution_pnp resnorm i0 i1 i2 u0 u1 u2 r R0 params).passes
          ≤ params.damp_it
        ∧ (PnpAdaptive.update_solution_pnp resnorm i0 i1 i2 u0 u1 u2 r R0 params).assemblies
          = (PnpAdaptive.update_solution_pnp resnorm i0 i1 i2 u0 u1 u2 r R0 params).passes + 1
        ∧ (PnpAdaptive.update_solution_pnp resnorm i0 i1 i2 u0 u1 u2 r R0 params).assemblies
          ≤ params.damp_it + 1
        ∧ ¬ ((PnpAdaptive.backtrack resnorm i0 i1 i2 u0 u1 u2 r R0 params).new_relative_residual > r
            ∧ (PnpAdaptive.backtrack resnorm i0 i1 i2 u0 u1 u2 r R0 params).damp_iters
              < params.damp_it)
        ∧ (params.damp_it = 0 →
            PnpAdaptive.update_solution_pnp resnorm i0 i1 i2 u0 u1 u2 r R0 params
              = if trial_rr resnorm i0 i1 i2 u0 u1 u2 R0 params.damp_factor 0 > r then
                  rejected_step resnorm i0 i1 i2 u0 u1 u2 R0 params.damp_factor 0
                else full_step resnorm i0 i1 i2 u0 u1 u2 R0)
        ∧ ((∀ j, j ≤ params.damp_it - 1 →
              trial_rr resnorm i0 i1 i2 u0 u1 u2 R0 params.damp_factor j > r) →
            PnpAdaptive.update_solution_pnp resnorm i0 i1 i2 u0 u1 u2 r R0 params
              = rejected_step resnorm i0 i1 i2 u0 u1 u2 R0 params.damp_factor
                  (params.damp_it - 1)))
      ∧ ((BatteryPER.update_solution_pnp resnorm i0 i1 i2 u0 u1 u2 r R0 params).passes
          ≤ params.damp_it
        ∧ (BatteryPER.update_solution_pnp resnorm i0 i1 i2 u0 u1 u2 r R0 params).assemblies
          = (BatteryPER.update_solution_pnp resnorm i0 i1 i2 u0 u1 u2 r R0 params).passes + 1
        ∧ (BatteryPER.update_solution_pnp resnorm i0 i1 i2 u0 u1 u2 r R0 params).assemblies
          ≤ params.damp_it + 1
        ∧ ¬ ((BatteryPER.backtrack resnorm i0 i1 i2 u0 u1 u2 r R0 params).new_relative_residual > r
            ∧ (BatteryPER.backtrack resnorm i0 i1 i2 u0 u1 u2 r R0 params).damp_iters
              < params.damp_it)
        ∧ (params.damp_it = 0 →
            BatteryPER.update_solution_pnp resnorm i0 i1 i2 u0 u1 u2 r R0 params
              = if trial_rr resnorm i0 i1 i2 u0 u1 u2 R0 params.damp_factor 0 > r then
                  rejected_step resnorm i0 i1 i2 u0 u1 u2 R0 params.damp_factor 0
                else full_step resnorm i0 i1 i2 u0 u1 u2 R0)
        ∧ ((∀ j, j ≤ params.damp_it →
              trial_rr resnorm i0 i1 i2 u0 u1 u2 R0 params.damp_factor j > r) →
            BatteryPER.update_solution_pnp resnorm i0 i1 i2 u0 u1 u2 r R0 params
              = rejected_step resnorm i0 i1 i2 u0 u1 u2 R0 params.damp_factor
                  params.damp_it)) := by
  have hfull : damped_step resnorm i0 i1 i2 u0 u1 u2 R0 params.damp_factor 0
      = full_step resnorm i0 i1 i2 u0 u1 u2 R0 := by
    simp [damped_step, full_step, trial_rr, damped_zero]
  constructor
  · obtain ⟨k, heq, hbefore, hstop⟩ :=
      adaptive_backtrack_eq resnorm i0 i1 i2 u0 u1 u2 r R0 params
    have hk : k ≤ params.damp_it := by
      rcases Nat.eq_zero_or_pos k with h | h
      · omega
      · have := (hbefore (k - 1) (by omega)).2
        omega
    have hres : PnpAdaptive.update_solution_pnp resnorm i0 i1 i2 u0 u1 u2 r R0 params
        = if trial_rr resnorm i0 i1 i2 u0 u1 u2 R0 params.damp_factor k > r then
            rejected_step resnorm i0 i1 i2 u0 u1 u2 R0 params.damp_factor k
          else damped_step resnorm i0 i1 i2 u0 u1 u2 R0 params.damp_factor k := by
      rw [PnpAdaptive.update_solution_pnp, heq, finish_trial_state]
    have hp : (PnpAdaptive.update_solution_pnp resnorm i0 i1 i2 u0 u1 u2 r R0 params).passes
        = k := by
      rw [hres]
      split <;> rfl
    have ha : (PnpAdaptive.update_solution_pnp resnorm i0 i1 i2 u0 u1 u2 r R0 params).assemblies
        = k + 1 := by
      rw [hres]
      split <;> rfl
    refine ⟨by omega, by omega, by omega, ?_, fun h0 => ?_, fun hall => ?_⟩
    · rw [heq]
      simpa [trial_state] using hstop
    · have hk0 : k = 0 := by omega
      rw [hres, hk0, hfull]
    · exact adaptive_update_solution_pnp_exhausted resnorm i0 i1 i2 u0 u1 u2 r R0 params hall
  · obtain ⟨k, heq, hbefore, hstop⟩ :=
      battery_backtrack_eq resnorm i0 i1 i2 u0 u1 u2 r R0 params
    have hk : k ≤ params.damp_it := by
      rcases Nat.eq_zero_or_pos k with h | h
      · omega
      · have := (hbefore (k - 1) (by omega)).2
        omega
    have hres : BatteryPER.update_solution_pnp resnorm i0 i1 i2 u0 u1 u2 r R0 params
        = if trial_rr resnorm i0 i1 i2 u0 u1 u2 R0 params.damp_factor k > r then
            rejected_step resnorm i0 i1 i2 u0 u1 u2 R0 params.damp_factor k
          else damped_step resnorm i0 i1 i2 u0 u1 u2 R0 params.damp_factor k := by
      rw [BatteryPER.update_solution_pnp, heq, finish_trial_state]
    have hp : (BatteryPER.update_solution_pnp resnorm i0 i1 i2 u0 u1 u2 r R0 params).passes
        = k := by
      rw [hres]
      split <;> rfl
    have ha : (BatteryPER.update_solution_pnp resnorm i0 i1 i2 u0 u1 u2 r R0 params).assemblies
        = k + 1 := by
      rw [hres]
      split <;> rfl
    refine ⟨by omega, by omega, by omega, ?_, fun h0 => ?_, fun hall => ?_⟩
    · rw [heq]
      simpa [trial_state] using hstop
    · have hk0 : k = 0 := by omega
      rw [hres, hk0, hfull]
    · exact battery_update_solution_pnp_exhausted resnorm i0 i1 i2 u0 u1 u2 r R0 params hall

theorem adaptive_newton_pass_iteration (resnorm : ResNorm) (solve : Solver)
    (newtparam : newton_param) (st : NewtonState) :
    (PnpAdaptive.newton_pass resnorm solve newtparam st).newton_iteration
      = st.newton_iteration + 1 := by
  simp only [PnpAdaptive.newton_pass]
  split <;> rfl

theorem battery_newton_pass_iteration (resnorm : ResNorm) (solve : Solver)
    (newtparam : newton_param) (st : NewtonState) :
    (BatteryPER.newton_pass resnorm solve newtparam st).newton_iteration
      = st.newton_iteration + 1 := by
  simp only [BatteryPER.newton_pass]
  split <;> rfl

theorem adaptive_newton_loop_stop (resnorm : ResNorm) (solve : Solver)
    (newtparam : newton_param) (st : NewtonState)
    (h : ¬ (st.relative_residual > newtparam.tol ∧ st.newton_iteration < newtparam.max_it)) :
    PnpAdaptive.newton_loop resnorm solve newtparam st = st := by
  rw [PnpAdaptive.newton_loop, if_neg h]

theorem adaptive_newton_loop_continue (resnorm : ResNorm) (solve : Solver)
    (newtparam : newton_param) (st : NewtonState)
    (h : st.relative_residual > newtparam.tol ∧ st.newton_iteration < newtparam.max_it) :
    PnpAdaptive.newton_loop resnorm solve newtparam st
      = PnpAdaptive.newton_loop resnorm solve newtparam
          (PnpAdaptive.newton_pass resnorm solve newtparam st) := by
  rw [PnpAdaptive.newton_loop, if_pos h]

theorem battery_newton_loop_stop (resnorm : ResNorm) (solve : Solver)
    (newtparam : newton_param) (st : NewtonState)
    (h : ¬ (st.relative_residual > newtparam.tol ∧ st.newton_iteration < newtparam.max_it)) :
    BatteryPER.newton_loop resnorm solve newtparam st = st := by
  rw [BatteryPER.newton_loop, if_neg h]

theorem battery_newton_loop_continue (resnorm : ResNorm) (solve : Solver)
    (newtparam : newton_param) (st : NewtonState)
    (h : st.relative_residual > newtparam.tol ∧ st.newton_iteration < newtparam.max_it) :
    BatteryPER.newton_loop resnorm solve newtparam st
      = BatteryPER.newton_loop resnorm solve newtparam
          (BatteryPER.newton_pass resnorm solve newtparam st) := by
  rw [BatteryPER.newton_loop, if_pos h]

theorem adaptive_iterate_iteration (resnorm : ResNorm) (solve : Solver)
    (newtparam : newton_param) (k : Nat) :
    ∀ st : NewtonState,
      ((PnpAdaptive.newton_pass resnorm solve newtparam)^[k] st).newton_iteration
        = st.newton_iteration + k := by
  induction k with
  | zero => intro st; rfl
  | succ k ih =>
    intro st
    rw [Function.iterate_succ_apply, ih, adaptive_newton_pass_iteration]
    omega

theorem battery_iterate_iteration (resnorm : ResNorm) (solve : Solver)
    (newtparam : newton_param) (k : Nat) :
    ∀ st : NewtonState,
      ((BatteryPER.newton_pass resnorm solve newtparam)^[k] st).newton_iteration
        = st.newton_iteration + k := by
  induction k with
  | zero => intro st; rfl
  | succ k ih =>
    intro st
    rw [Function.iterate_succ_apply, ih, battery_newton_pass_iteration]
    omega

/-- The Newton loop of `pnp_adaptive.cpp` is its pass applied `k` times, where
the loop condition held before each pass and fails after the last. -/
theorem adaptive_newton_loop_iterate (resnorm : ResNorm) (solve : Solver)
    (newtparam : newton_param) :
    ∀ (n : Nat) (st : NewtonState), newtparam.max_it - st.newton_iteration = n →
      ∃ k, PnpAdaptive.newton_loop resnorm solve newtparam st
            = (PnpAdaptive.newton_pass resnorm solve newtparam)^[k] st ∧
          (∀ j, j < k →
            ((PnpAdaptive.newton_pass resnorm solve newtparam)^[j] st).relative_residual
                > newtparam.tol
              ∧ ((PnpAdaptive.newton_pass resnorm solve newtparam)^[j] st).newton_iteration
                < newtparam.max_it) ∧
          ¬ (((PnpAdaptive.newton_pass resnorm solve newtparam)^[k] st).relative_residual
                > newtparam.tol
              ∧ ((PnpAdaptive.newton_pass resnorm solve newtparam)^[k] st).newton_iteration
                < newtparam.max_it) := by
  intro n
  induction n with
  | zero =>
    intro st hm
    have hc : ¬ (st.relative_residual > newtparam.tol
        ∧ st.newton_iteration < newtparam.max_it) := by omega
    exact ⟨0, adaptive_newton_loop_stop resnorm solve newtparam st hc,
      fun j hj => absurd hj (Nat.not_lt_zero j), hc⟩
  | succ n ih =>
    intro st hm
    by_cases hc : st.relative_residual > newtparam.tol
        ∧ st.newton_iteration < newtparam.max_it
    · obtain ⟨k, heq, hbefore, hstop⟩ :=
        ih (PnpAdaptive.newton_pass resnorm solve newtparam st)
          (by rw [adaptive_newton_pass_iteration]; omega)
      refine ⟨k + 1, ?_, ?_, ?_⟩
      · rw [adaptive_newton_loop_continue resnorm solve newtparam st hc, heq,
          Function.iterate_succ_apply]
      · intro j hj
        cases j with
        | zero => exact hc
        | succ j =>
          rw [Function.iterate_succ_apply]
          exact hbefore j (by omega)
      · rw [Function.iterate_succ_apply]
        exact hstop
    · exact ⟨0, adaptive_newton_loop_stop resnorm solve newtparam st hc,
        fun j hj => absurd hj (Nat.not_lt_zero j), hc⟩

/-- The Newton loop of `battery_PER.cpp` is its pass applied `k` times, where
the loop condition held before each pass and fails after the last. -/
theorem battery_newton_loop_iterate (resnorm : ResNorm) (solve : Solver)
    (newtparam : newton_param) :
    ∀ (n : Nat) (st : NewtonState), newtparam.max_it - st.newton_iteration = n →
      ∃ k, BatteryPER.newton_loop resnorm solve newtparam st
            = (BatteryPER.newton_pass resnorm solve newtparam)^[k] st ∧
          (∀ j, j < k →
            ((BatteryPER.newton_pass resnorm solve newtparam)^[j] st).relative_residual
                > newtparam.tol
              ∧ ((BatteryPER.newton_pass resnorm solve newtparam)^[j] st).newton_iteration
                < newtparam.max_it) ∧
          ¬ (((BatteryPER.newton_pass resnorm solve newtparam)^[k] st).relative_residual
                > newtparam.tol
              ∧ ((BatteryPER.newton_pass resnorm solve newtparam)^[k] st).newton_iteration
                < newtparam.max_it) := by
  intro n
  induction n with
  | zero =>
    intro st hm
    have hc : ¬ (st.relative_residual > newtparam.tol
        ∧ st.newton_iteration < newtparam.max_it) := by omega
    exact ⟨0, battery_newton_loop_stop resnorm solve newtparam st hc,
      fun j hj => absurd hj (Nat.not_lt_zero j), hc⟩
  | succ n ih =>
    intro st hm
    by_cases hc : st.relative_residual > newtparam.tol
        ∧ st.newton_iteration < newtparam.max_it
    · obtain ⟨k, heq, hbefore, hstop⟩ :=
        ih (BatteryPER.newton_pass resnorm solve newtparam st)
          (by rw [battery_newton_pass_iteration]; omega)
      refine ⟨k + 1, ?_, ?_, ?_⟩
      · rw [battery_newton_loop_continue resnorm solve newtparam st hc, heq,
          Function.iterate_succ_apply]
      · intro j hj
        cases j with
        | zero => exact hc
        | succ j =>
          rw [Function.iterate_succ_apply]
          exact hbefore j (by omega)
      · rw [Function.iterate_succ_apply]
        exact hstop
    · exact ⟨0, battery_newton_loop_stop resnorm solve newtparam st hc,
        fun j hj => absurd hj (Nat.not_lt_zero j), hc⟩

/-- C8: started with `newton_iteration = 0`, the Newton loops of
`pnp_adaptive.cpp` and `battery_PER.cpp` are their pass applied `k` times for
some `k ≤ max_it`; every pass adds exactly one to the counter, so the counter
is `k` at the end; and if the loop exits with `relative_residual > tol` then the
counter equals `max_it`. -/
theorem newton_loop_iteration_cap (resnorm : ResNorm) (solve : Solver)
    (newtparam : newton_param) (st : NewtonState) (h0 : st.newton_iteration = 0) :
    (∃ k, k ≤ newtparam.max_it
        ∧ PnpAdaptive.newton_loop resnorm solve newtparam st
          = (PnpAdaptive.newton_pass resnorm solve newtparam)^[k] st
        ∧ (PnpAdaptive.newton_loop resnorm solve newtparam st).newton_iteration = k)
      ∧ (∀ s : NewtonState,
          (PnpAdaptive.newton_pass resnorm solve newtparam s).newton_iteration
            = s.newton_iteration + 1)
      ∧ ((PnpAdaptive.newton_loop resnorm solve newtparam st).relative_residual > newtparam.tol →
          (PnpAdaptive.newton_loop resnorm solve newtparam st).newton_iteration
            = newtparam.max_it)
      ∧ (∃ k, k ≤ newtparam.max_it
        ∧ BatteryPER.newton_loop resnorm solve newtparam st
          = (BatteryPER.newton_pass resnorm solve newtparam)^[k] st
        ∧ (BatteryPER.newton_loop resnorm solve newtparam st).newton_iteration = k)
      ∧ (∀ s : NewtonState,
          (BatteryPER.newton_pass resnorm solve newtparam s).newton_iteration
            = s.newton_iteration + 1)
      ∧ ((BatteryPER.newton_loop resnorm solve newtparam st).relative_residual > newtparam.tol →
          (BatteryPER.newton_loop resnorm solve newtparam st).newton_iteration
            = newtparam.max_it) := by
  obtain ⟨k, heq, hbefore, hstop⟩ :=
    adaptive_newton_loop_iterate resnorm solve newtparam _ st rfl
  obtain ⟨m, heqm, hbeforem, hstopm⟩ :=
    battery_newton_loop_iterate resnorm solve newtparam _ st rfl
  have hitk := adaptive_iterate_iteration resnorm solve newtparam k st
  have hitm := battery_iterate_iteration resnorm solve newtparam m st
  have hk : k ≤ newtparam.max_it := by
    rcases Nat.eq_zero_or_pos k with h | h
    · omega
    · have h1 := (hbefore (k - 1) (by omega)).2
      rw [adaptive_iterate_iteration] at h1
      omega
  have hm : m ≤ newtparam.max_it := by
    rcases Nat.eq_zero_or_pos m with h | h
    · omega
    · have h1 := (hbeforem (m - 1) (by omega)).2
      rw [battery_iterate_iteration] at h1
      omega
  refine ⟨⟨k, hk, heq, by rw [heq, hitk]; omega⟩,
    adaptive_newton_pass_iteration resnorm solve newtparam, ?_,
    ⟨m, hm, heqm, by rw [heqm, hitm]; omega⟩,
    battery_newton_pass_iteration resnorm solve newtparam, ?_⟩
  · intro hgt
    rw [heq] at hgt ⊢
    have : ¬ ((PnpAdaptive.newton_pass resnorm solve newtparam)^[k] st).newton_iteration
        < newtparam.max_it := fun hlt => hstop ⟨hgt, hlt⟩
    omega
  · intro hgt
    rw [heqm] at hgt ⊢
    have : ¬ ((BatteryPER.newton_pass resnorm solve newtparam)^[m] st).newton_iteration
        < newtparam.max_it := fun hlt => hstopm ⟨hgt, hlt⟩
    omega

/-- C6, at a failing input: tolerance 1/2, cap 3, initial residual norm 10, and
a Newton step that halves the iterate.  After one pass the relative residual
is exactly 1/2, so the loop of `pnp_adaptive.cpp` and of `battery_PER.cpp`
stops after one of three allowed iterations, yet the report takes the
"Did not converge" branch while the relative residual does not exceed the
tolerance. -/
theorem newton_report_at_tolerance :
    PnpAdaptive.newton_solve example_resnorm example_solver_halve example_params_half
          [10] [0] [0]
        = { cationSolution := [5], anionSolution := [0], potentialSolution := [0],
            initial_residual := 10, relative_residual := 1 / 2, newton_iteration := 1 }
      ∧ BatteryPER.newton_solve (fun a b c _ _ => example_resnorm a b c) id
          example_solver_halve example_params_half [10] [0] [0] [10] [0] [0]
        = { cationSolution := [5], anionSolution := [0], potentialSolution := [0],
            initial_residual := 10, relative_residual := 1 / 2, newton_iteration := 1 }
      ∧ report example_params_half
          { cationSolution := [5], anionSolution := [0], potentialSolution := [0],
            initial_residual := 10, relative_residual := 1 / 2, newton_iteration := 1 }
        = Report.did_not_converge
      ∧ ¬ ((1 / 2 : ℚ) > example_params_half.tol)
      ∧ 1 < example_params_half.max_it := by
  have hup : ∀ c0, damp_loop example_resnorm [10] [0] [0] 1 10 example_params_half
      (first_trial example_resnorm [10] [0] [0] [-5] [0] [0] 10 c0)
        = first_trial example_resnorm [10] [0] [0] [-5] [0] [0] 10 c0 := by
    intro c0
    apply damp_loop_stop
    norm_num [first_trial, example_resnorm, update_solution]
  refine ⟨?_, ?_, ?_, ?_, ?_⟩
  · have hinit : PnpAdaptive.newton_init example_resnorm [10] [0] [0]
        = { cationSolution := [10], anionSolution := [0], potentialSolution := [0],
            initial_residual := 10, relative_residual := 1, newton_iteration := 0 } := by
      norm_num [PnpAdaptive.newton_init, example_resnorm]
    have hpass : PnpAdaptive.newton_pass example_resnorm example_solver_halve
        example_params_half
          { cationSolution := [10], anionSolution := [0], potentialSolution := [0],
            initial_residual := 10, relative_residual := 1, newton_iteration := 0 }
        = { cationSolution := [5], anionSolution := [0], potentialSolution := [0],
            initial_residual := 10, relative_residual := 1 / 2, newton_iteration := 1 } := by
      have hsolve : example_solver_halve [10] [0] [0]
          = { status := 0, update0 := [-5], update1 := [0], update2 := [0] } := by
        norm_num [example_solver_halve]
      simp only [PnpAdaptive.newton_pass, PnpAdaptive.newton_update, hsolve,
        PnpAdaptive.update_solution_pnp, PnpAdaptive.backtrack, hup]
      norm_num [finish, first_trial, example_resnorm, update_solution]
    rw [PnpAdaptive.newton_solve, hinit,
      adaptive_newton_loop_continue _ _ _ _ (by norm_num [example_params_half]), hpass,
      adaptive_newton_loop_stop _ _ _ _ (by norm_num [example_params_half])]
  · have hinit : BatteryPER.newton_init (fun a b c _ _ => example_resnorm a b c) id
          [10] [0] [0] [10] [0] [0]
        = { cationSolution := [10], anionSolution := [0], potentialSolution := [0],
            initial_residual := 10, relative_residual := 1, newton_iteration := 0 } := by
      norm_num [BatteryPER.newton_init, BatteryPER.get_initial_residual, example_resnorm]
    have hpass : BatteryPER.newton_pass example_resnorm example_solver_halve
        example_params_half
          { cationSolution := [10], anionSolution := [0], potentialSolution := [0],
            initial_residual := 10, relative_residual := 1, newton_iteration := 0 }
        = { cationSolution := [5], anionSolution := [0], potentialSolution := [0],
            initial_residual := 10, relative_residual := 1 / 2, newton_iteration := 1 } := by
      have hsolve : example_solver_halve [10] [0] [0]
          = { status := 0, update0 := [-5], update1 := [0], update2 := [0] } := by
        norm_num [example_solver_halve]
      simp only [BatteryPER.newton_pass, BatteryPER.newton_update, hsolve,
        BatteryPER.update_solution_pnp, BatteryPER.backtrack, hup]
      norm_num [finish, first_trial, example_resnorm, update_solution]
    rw [BatteryPER.newton_solve, hinit]
    change BatteryPER.newton_loop example_resnorm example_solver_halve example_params_half _ = _
    rw [battery_newton_loop_continue _ _ _ _ (by norm_num [example_params_half]), hpass,
      battery_newton_loop_stop _ _ _ _ (by norm_num [example_params_half])]
  · norm_num [report, example_params_half]
  · norm_num [example_params_half]
  · norm_num [example_params_half]

theorem adaptive_newton_update_facts (resnorm : ResNorm) (solve : Solver)
    (newtparam : newton_param) (st : NewtonState)
    (hR0 : 0 < st.initial_residual) (hnorm : ∀ a b c, 0 ≤ resnorm a b c)
    (hneg : (PnpAdaptive.newton_update resnorm solve newtparam st).ret < 0) :
    (PnpAdaptive.newton_update resnorm solve newtparam st).iterate0 = st.cationSolution
      ∧ (PnpAdaptive.newton_update resnorm solve newtparam st).iterate1 = st.anionSolution
      ∧ (PnpAdaptive.newton_update resnorm solve newtparam st).iterate2
          = st.potentialSolution :=
  (finish_atomic _ _ _ _ _ _ _ _
    (adaptive_backtrack_nonneg resnorm _ _ _ _ _ _ _ _ newtparam hR0 hnorm)).1 hneg

theorem battery_newton_update_facts (resnorm : ResNorm) (solve : Solver)
    (newtparam : newton_param) (st : NewtonState)
    (hR0 : 0 < st.initial_residual) (hnorm : ∀ a b c, 0 ≤ resnorm a b c)
    (hneg : (BatteryPER.newton_update resnorm solve newtparam st).ret < 0) :
    (BatteryPER.newton_update resnorm solve newtparam st).iterate0 = st.cationSolution
      ∧ (BatteryPER.newton_update resnorm solve newtparam st).iterate1 = st.anionSolution
      ∧ (BatteryPER.newton_update resnorm solve newtparam st).iterate2
          = st.potentialSolution :=
  (finish_atomic _ _ _ _ _ _ _ _
    (battery_backtrack_nonneg resnorm _ _ _ _ _ _ _ _ newtparam hR0 hnorm)).1 hneg

/-- A Newton pass of `pnp_adaptive.cpp` in which backtracking failed: the
iterate stays, the counter advances, the relative residual is recomputed at
the unchanged iterate. -/
theorem adaptive_newton_pass_failed (resnorm : ResNorm) (solve : Solver)
    (newtparam : newton_param) (st : NewtonState)
    (hR0 : 0 < st.initial_residual) (hnorm : ∀ a b c, 0 ≤ resnorm a b c)
    (hneg : (PnpAdaptive.newton_update resnorm solve newtparam st).ret < 0) :
    PnpAdaptive.newton_pass resnorm solve newtparam st
      = { st with
          newton_iteration := st.newton_iteration + 1
          relative_residual :=
            resnorm st.cationSolution st.anionSolution st.potentialSolution
              / st.initial_residual } := by
  obtain ⟨e0, e1, e2⟩ := adaptive_newton_update_facts resnorm solve newtparam st hR0 hnorm hneg
  simp only [PnpAdaptive.newton_pass, if_pos hneg, e0, e1, e2]

/-- A Newton pass of `battery_PER.cpp` in which backtracking failed: the
iterate stays, the counter advances, the relative residual becomes the negated
return value, that is the rejected trial's relative residual. -/
theorem battery_newton_pass_failed (resnorm : ResNorm) (solve : Solver)
    (newtparam : newton_param) (st : NewtonState)
    (hR0 : 0 < st.initial_residual) (hnorm : ∀ a b c, 0 ≤ resnorm a b c)
    (hneg : (BatteryPER.newton_update resnorm solve newtparam st).ret < 0) :
    BatteryPER.newton_pass resnorm solve newtparam st
      = { st with
          newton_iteration := st.newton_iteration + 1
          relative_residual := (BatteryPER.newton_update resnorm solve newtparam st).ret * -1 } := by
  obtain ⟨e0, e1, e2⟩ := battery_newton_update_facts resnorm solve newtparam st hR0 hnorm hneg
  simp only [BatteryPER.newton_pass, if_pos hneg, e0, e1, e2]

theorem example_bad_trials_from_one : ∀ j, j ≤ 3 →
    trial_rr example_resnorm [1] [0] [0] [8] [0] [0] 1 example_params.damp_factor j > 1 := by
  intro j hj
  interval_cases j <;>
    norm_num [trial_rr, example_resnorm, update_solution, damped, example_params]

theorem example_adaptive_update_bad (r : ℚ) (n : Nat) (hr : r ≤ 1) :
    PnpAdaptive.newton_update example_resnorm example_solver_bad example_params
        { cationSolution := [1], anionSolution := [0], potentialSolution := [0],
          initial_residual := 1, relative_residual := r, newton_iteration := n }
      = rejected_step example_resnorm [1] [0] [0] [8] [0] [0] 1 example_params.damp_factor 2 := by
  simp only [PnpAdaptive.newton_update, example_solver_bad]
  rw [adaptive_update_solution_pnp_exhausted]
  · rfl
  · intro j hj
    have h := example_bad_trials_from_one j (by simp only [example_params] at hj; omega)
    exact lt_of_le_of_lt hr h

theorem example_adaptive_pass_bad (n : Nat) :
    PnpAdaptive.newton_pass example_resnorm example_solver_bad example_params
        { cationSolution := [1], anionSolution := [0], potentialSolution := [0],
          initial_residual := 1, relative_residual := 1, newton_iteration := n }
      = { cationSolution := [1], anionSolution := [0], potentialSolution := [0],
          initial_residual := 1, relative_residual := 1, newton_iteration := n + 1 } := by
  have hneg : (PnpAdaptive.newton_update example_resnorm example_solver_bad example_params
        { cationSolution := [1], anionSolution := [0], potentialSolution := [0],
          initial_residual := 1, relative_residual := 1, newton_iteration := n }).ret < 0 := by
    rw [example_adaptive_update_bad 1 n (le_refl 1)]
    norm_num [rejected_step, trial_rr, example_resnorm, update_solution, damped, example_params]
  rw [adaptive_newton_pass_failed _ _ _ _ (by norm_num) example_resnorm_nonneg hneg]
  norm_num [example_resnorm]

/-- C4, at a concrete input: iterate 0, update 4, halving, `damp_it = 3`,
incoming relative residual 1/4, initial residual norm 1.  Every trial exceeds
1/4, both variants return a negative value and leave the iterate at 0. -/
theorem update_solution_pnp_atomic_witness :
    (0 : ℚ) < 1 ∧ (∀ a b c, 0 ≤ example_resnorm a b c)
      ∧ ((PnpAdaptive.update_solution_pnp example_resnorm [0] [0] [0] [4] [0] [0] (1 / 4) 1
            example_params).ret < 0 →
          (PnpAdaptive.update_solution_pnp example_resnorm [0] [0] [0] [4] [0] [0] (1 / 4) 1
              example_params).iterate0 = [0]
            ∧ (PnpAdaptive.update_solution_pnp example_resnorm [0] [0] [0] [4] [0] [0] (1 / 4) 1
              example_params).iterate1 = [0]
            ∧ (PnpAdaptive.update_solution_pnp example_resnorm [0] [0] [0] [4] [0] [0] (1 / 4) 1
              example_params).iterate2 = [0])
      ∧ ((BatteryPER.update_solution_pnp example_resnorm [0] [0] [0] [4] [0] [0] (1 / 4) 1
            example_params).update0 = [4]
          ∧ (BatteryPER.update_solution_pnp example_resnorm [0] [0] [0] [4] [0] [0] (1 / 4) 1
            example_params).update1 = [0]
          ∧ (BatteryPER.update_solution_pnp example_resnorm [0] [0] [0] [4] [0] [0] (1 / 4) 1
            example_params).update2 = [0]) :=
  ⟨by norm_num, example_resnorm_nonneg,
    (update_solution_pnp_atomic example_resnorm [0] [0] [0] [4] [0] [0] (1 / 4) 1
      example_params (by norm_num) example_resnorm_nonneg).1.1,
    (update_solution_pnp_atomic example_resnorm [0] [0] [0] [4] [0] [0] (1 / 4) 1
      example_params (by norm_num) example_resnorm_nonneg).2.2.1⟩

/-- C8, at a concrete input: the start state of `pnp_adaptive.cpp` for the
iterate 10 and the bad-update solve, cap `max_it = 3`. -/
theorem newton_loop_iteration_cap_witness :
    (PnpAdaptive.newton_init example_resnorm [10] [0] [0]).newton_iteration = 0
      ∧ ((PnpAdaptive.newton_loop example_resnorm example_solver_bad example_params
            (PnpAdaptive.newton_init example_resnorm [10] [0] [0])).relative_residual
              > example_params.tol →
          (PnpAdaptive.newton_loop example_resnorm example_solver_bad example_params
            (PnpAdaptive.newton_init example_resnorm [10] [0] [0])).newton_iteration
              = example_params.max_it)
      ∧ ((BatteryPER.newton_loop example_resnorm example_solver_bad example_params
            (PnpAdaptive.newton_init example_resnorm [10] [0] [0])).relative_residual
              > example_params.tol →
          (BatteryPER.newton_loop example_resnorm example_solver_bad example_params
            (PnpAdaptive.newton_init example_resnorm [10] [0] [0])).newton_iteration
              = example_params.max_it) :=
  ⟨rfl,
    (newton_loop_iteration_cap example_resnorm example_solver_bad example_params
      (PnpAdaptive.newton_init example_resnorm [10] [0] [0]) rfl).2.2.1,
    (newton_loop_iteration_cap example_resnorm example_solver_bad example_params
      (PnpAdaptive.newton_init example_resnorm [10] [0] [0]) rfl).2.2.2.2.2⟩

/-- How the Newton loop of `pnp_EAFE2.cpp` runs when the first `k` states all
exceed the tolerance: with fuel at most `k` it has not stopped, and with more
fuel it stops after exactly `k` passes if the state then is within tolerance. -/
theorem eafe2_newton_loop_run (resnorm : ResNorm) (solve : Solver)
    (update_solution3 : Vec → Vec → ℚ → Vec) :
    ∀ (fuel : Nat) (st : NewtonState) (k : Nat),
      (∀ j, j < k →
        ((PnpEAFE2.newton_pass resnorm solve update_solution3)^[j] st).relative_residual
          > PnpEAFE2.tol) →
      (fuel ≤ k → PnpEAFE2.newton_loop resnorm solve update_solution3 fuel st = none)
        ∧ (k < fuel →
            ¬ ((PnpEAFE2.newton_pass resnorm solve update_solution3)^[k] st).relative_residual
              > PnpEAFE2.tol →
            PnpEAFE2.newton_loop resnorm solve update_solution3 fuel st
              = some ((PnpEAFE2.newton_pass resnorm solve update_solution3)^[k] st)) := by
  intro fuel
  induction fuel with
  | zero =>
    intro st k _
    exact ⟨fun _ => rfl, fun h => absurd h (Nat.not_lt_zero k)⟩
  | succ fuel ih =>
    intro st k hbefore
    cases k with
    | zero =>
      refine ⟨fun h => absurd h (Nat.not_succ_le_zero fuel), fun _ hstop => ?_⟩
      rw [Function.iterate_zero_apply] at hstop
      rw [PnpEAFE2.newton_loop, if_neg hstop, Function.iterate_zero_apply]
    | succ k =>
      have hc : st.relative_residual > PnpEAFE2.tol := hbefore 0 (Nat.succ_pos k)
      have hnext : ∀ j, j < k →
          ((PnpEAFE2.newton_pass resnorm solve update_solution3)^[j]
            (PnpEAFE2.newton_pass resnorm solve update_solution3 st)).relative_residual
            > PnpEAFE2.tol := by
        intro j hj
        have := hbefore (j + 1) (by omega)
        rwa [Function.iterate_succ_apply] at this
      obtain ⟨h1, h2⟩ := ih (PnpEAFE2.newton_pass resnorm solve update_solution3 st) k hnext
      refine ⟨fun h => ?_, fun h hstop => ?_⟩
      · rw [PnpEAFE2.newton_loop, if_pos hc]
        exact h1 (by omega)
      · rw [PnpEAFE2.newton_loop, if_pos hc, Function.iterate_succ_apply]
        rw [Function.iterate_succ_apply] at hstop
        exact h2 (by omega) hstop

/-- C9, as the code has it: the Newton loop of `pnp_EAFE2.cpp` has no
iteration cap.  If the state after `k` passes is the first whose relative
residual does not exceed `1e-6`, the loop stops after exactly `k` passes (it
has not stopped within `k` condition checks and has stopped with any more);
and if no state ever reaches the tolerance, the loop never stops. -/
theorem eafe2_newton_loop_stops_only_at_tolerance (resnorm : ResNorm) (solve : Solver)
    (update_solution3 : Vec → Vec → ℚ → Vec) (st : NewtonState) :
    (∀ k,
        (∀ j, j < k →
          ((PnpEAFE2.newton_pass resnorm solve update_solution3)^[j] st).relative_residual
            > PnpEAFE2.tol) →
        ¬ ((PnpEAFE2.newton_pass resnorm solve update_solution3)^[k] st).relative_residual
            > PnpEAFE2.tol →
        ∀ fuel,
          (fuel ≤ k → PnpEAFE2.newton_loop resnorm solve update_solution3 fuel st = none)
            ∧ (k < fuel →
              PnpEAFE2.newton_loop resnorm solve update_solution3 fuel st
                = some ((PnpEAFE2.newton_pass resnorm solve update_solution3)^[k] st)))
      ∧ ((∀ j,
          ((PnpEAFE2.newton_pass resnorm solve update_solution3)^[j] st).relative_residual
            > PnpEAFE2.tol) →
        ∀ fuel, PnpEAFE2.newton_loop resnorm solve update_solution3 fuel st = none) := by
  constructor
  · intro k hbefore hstop fuel
    obtain ⟨h1, h2⟩ := eafe2_newton_loop_run resnorm solve update_solution3 fuel st k hbefore
    exact ⟨h1, fun h => h2 h hstop⟩
  · intro hall fuel
    exact (eafe2_newton_loop_run resnorm solve update_solution3 fuel st fuel
      (fun j _ => hall j)).1 (le_refl fuel)

theorem example_eafe2_stalls : ∀ j,
    ((PnpEAFE2.newton_pass example_resnorm example_solver_zero example_update_solution3)^[j]
        (PnpEAFE2.newton_init example_resnorm [1] [0] [0])).relative_residual = 1
      ∧ ((PnpEAFE2.newton_pass example_resnorm example_solver_zero example_update_solution3)^[j]
        (PnpEAFE2.newton_init example_resnorm [1] [0] [0])).cationSolution = [1]
      ∧ ((PnpEAFE2.newton_pass example_resnorm example_solver_zero example_update_solution3)^[j]
        (PnpEAFE2.newton_init example_resnorm [1] [0] [0])).initial_residual = 1 := by
  intro j
  induction j with
  | zero => norm_num [PnpEAFE2.newton_init, example_resnorm]
  | succ j ih =>
    obtain ⟨_, h2, h3⟩ := ih
    rw [Function.iterate_succ_apply']
    simp only [PnpEAFE2.newton_pass, h2, h3]
    norm_num [example_resnorm, example_solver_zero, example_update_solution3, update_solution,
      scale, PnpEAFE2.lambda]

/-- C9, refuted as stated: with a linear solve that returns the zero update
the relative residual stays at 1, and the Newton loop of `pnp_EAFE2.cpp` has
not stopped after any number of passes; no iteration cap ends it. -/
theorem eafe2_newton_loop_runs_forever :
    ¬ ∃ fuel, (PnpEAFE2.newton_loop example_resnorm example_solver_zero
        example_update_solution3 fuel
        (PnpEAFE2.newton_init example_resnorm [1] [0] [0])).isSome = true := by
  rintro ⟨fuel, h⟩
  have hnone := (eafe2_newton_loop_run example_resnorm example_solver_zero
    example_update_solution3 fuel (PnpEAFE2.newton_init example_resnorm [1] [0] [0]) fuel
    (fun j _ => by
      rw [(example_eafe2_stalls j).1]
      norm_num [PnpEAFE2.tol])).1 (le_refl fuel)
  rw [hnone] at h
  exact absurd h (by simp)

/-- C10, as the code has it: every Newton solve starts with
`newton_iteration = 0`; `relative_residual` starts at 1 in `pnp_adaptive.cpp`
and `pnp_EAFE2.cpp`, while `battery_PER.cpp` starts it, at every time step and
adaptivity pass, at the residual norm of the current iterate divided by the
initial residual taken at the previous time step's solution. -/
theorem newton_initial_state :
    (∀ (resnorm : ResNorm) (c a p : Vec),
        (PnpAdaptive.newton_init resnorm c a p).newton_iteration = 0
          ∧ (PnpAdaptive.newton_init resnorm c a p).relative_residual = 1
          ∧ (PnpEAFE2.newton_init resnorm c a p).newton_iteration = 0
          ∧ (PnpEAFE2.newton_init resnorm c a p).relative_residual = 1)
      ∧ (∀ (assembleNorm : BatteryPER.ResNormT0) (interpolate : Vec → Vec)
          (pc pa pp c a p : Vec),
        (BatteryPER.newton_init assembleNorm interpolate pc pa pp c a p).newton_iteration = 0
          ∧ (BatteryPER.newton_init assembleNorm interpolate pc pa pp c a p).relative_residual
            = assembleNorm c a p pc pa
                / BatteryPER.get_initial_residual assembleNorm interpolate pc pa pp) :=
  ⟨fun _ _ _ _ => ⟨rfl, rfl, rfl, rfl⟩, fun _ _ _ _ _ _ _ _ => ⟨rfl, rfl⟩⟩

/-- C10, refuted as stated: in `battery_PER.cpp`, with previous solution 1 and
current iterate 2 (as on an adaptivity pass after a Newton solve), the Newton
solve starts with relative residual 3, not 1. -/
theorem battery_newton_initial_residual_not_one :
    (BatteryPER.newton_init example_assemble id [1] [0] [0] [2] [0] [0]).relative_residual = 3
      ∧ (BatteryPER.newton_init example_assemble id [1] [0] [0] [2] [0] [0]).relative_residual
        ≠ 1 := by
  have h : (BatteryPER.newton_init example_assemble id [1] [0] [0] [2] [0] [0]).relative_residual
      = 3 := by
    norm_num [BatteryPER.newton_init, BatteryPER.get_initial_residual, example_assemble]
  exact ⟨h, by rw [h]; norm_num⟩

theorem check_electric_field_eq_loop {Mesh : Type} (ops : MeshOps Mesh) (entropy_tol : ℚ)
    (max_cells : Int) :
    ∀ (fuel : Nat) (voltage : DolfinFunction Mesh) (target_mesh : Mesh),
      check_electric_field ops entropy_tol max_cells fuel voltage target_mesh
        = refine_loop (fun v : DolfinFunction Mesh => ops.num_cells v.mesh)
            (fun v => v.mesh) (fun v => (electric_marking ops entropy_tol v).2)
            (electric_adapt ops entropy_tol) max_cells fuel voltage target_mesh := by
  intro fuel
  induction fuel with
  | zero => intro v t; rfl
  | succ fuel ih =>
    intro v t
    simp only [check_electric_field, refine_loop, budget_guard, ih, electric_adapt]

theorem check_local_entropy_eq_loop {Mesh : Type} (ops : MeshOps Mesh)
    (cation_valency anion_valency entropy_tol : ℚ) (max_cells : Int) :
    ∀ (fuel : Nat) (cation anion voltage : DolfinFunction Mesh) (target_mesh : Mesh),
      check_local_entropy ops cation_valency anion_valency entropy_tol max_cells fuel
          cation anion voltage target_mesh
        = refine_loop (fun s : EntropyFields Mesh => ops.num_cells s.voltage.mesh)
            (fun s => s.voltage.mesh)
            (fun s => (entropy_marking ops cation_valency anion_valency entropy_tol
              s.cation s.anion s.voltage).2)
            (entropy_adapt ops cation_valency anion_valency entropy_tol) max_cells fuel
            { cation := cation, anion := anion, voltage := voltage } target_mesh := by
  intro fuel
  induction fuel with
  | zero => intro c a v t; rfl
  | succ fuel ih =>
    intro c a v t
    simp only [check_local_entropy, refine_loop, budget_guard, ih, entropy_adapt]

theorem refine_loop_guard {S Mesh : Type} (cells : S → Nat) (mesh_of : S → Mesh)
    (marked : S → Nat) (adapt : S → S) (max_cells : Int) (fuel : Nat) (s : S) (t : Mesh)
    (h : budget_guard max_cells (cells s)) :
    refine_loop cells mesh_of marked adapt max_cells (fuel + 1) s t
      = some { levels := 0, target_mesh := t, refine_calls := 0,
               indicator_evals := 0, marked := 0 } := by
  rw [refine_loop, if_pos h]

theorem refine_loop_unmarked {S Mesh : Type} (cells : S → Nat) (mesh_of : S → Mesh)
    (marked : S → Nat) (adapt : S → S) (max_cells : Int) (fuel : Nat) (s : S) (t : Mesh)
    (h : ¬ budget_guard max_cells (cells s)) (h0 : marked s = 0) :
    refine_loop cells mesh_of marked adapt max_cells (fuel + 1) s t
      = some { levels := 0, target_mesh := mesh_of s, refine_calls := 0,
               indicator_evals := 1, marked := 0 } := by
  rw [refine_loop, if_neg h, if_pos h0]

theorem refine_loop_marked {S Mesh : Type} (cells : S → Nat) (mesh_of : S → Mesh)
    (marked : S → Nat) (adapt : S → S) (max_cells : Int) (fuel : Nat) (s : S) (t : Mesh)
    (h : ¬ budget_guard max_cells (cells s)) (h0 : marked s ≠ 0) :
    refine_loop cells mesh_of marked adapt max_cells (fuel + 1) s t
      = (refine_loop cells mesh_of marked adapt max_cells fuel (adapt s) t).map
          (one_more_level (marked s)) := by
  rw [refine_loop, if_neg h, if_neg h0]
  cases refine_loop cells mesh_of marked adapt max_cells fuel (adapt s) t <;> rfl

/-- Whatever the recursion returns, the returned level count is the number of
`refine` calls, and an indicator was assembled unless the guard fired at the
top. -/
theorem refine_loop_counts {S Mesh : Type} (cells : S → Nat) (mesh_of : S → Mesh)
    (marked : S → Nat) (adapt : S → S) (max_cells : Int) :
    ∀ (fuel : Nat) (s : S) (t : Mesh) (r : Refinement Mesh),
      refine_loop cells mesh_of marked adapt max_cells fuel s t = some r →
        r.levels = r.refine_calls
          ∧ (¬ budget_guard max_cells (cells s) → 1 ≤ r.indicator_evals) := by
  intro fuel
  induction fuel with
  | zero =>
    intro s t r h
    exact absurd h (by simp [refine_loop])
  | succ fuel ih =>
    intro s t r h
    by_cases hg : budget_guard max_cells (cells s)
    · rw [refine_loop_guard _ _ _ _ _ _ _ _ hg] at h
      cases h
      exact ⟨rfl, fun hn => absurd hg hn⟩
    · by_cases h0 : marked s = 0
      · rw [refine_loop_unmarked _ _ _ _ _ _ _ _ hg h0] at h
        cases h
        exact ⟨rfl, fun _ => le_refl 1⟩
      · rw [refine_loop_marked _ _ _ _ _ _ _ _ hg h0] at h
        cases hrec : refine_loop cells mesh_of marked adapt max_cells fuel (adapt s) t with
        | none => rw [hrec] at h; exact absurd h (by simp)
        | some r' =>
          rw [hrec] at h
          simp only [Option.map_some', Option.some.injEq] at h
          subst h
          obtain ⟨h1, _⟩ := ih (adapt s) t r' hrec
          refine ⟨?_, fun _ => ?_⟩
          · simp only [one_more_level, h1]
          · simp only [one_more_level]
            omega

theorem refine_loop_more_fuel {S Mesh : Type} (cells : S → Nat) (mesh_of : S → Mesh)
    (marked : S → Nat) (adapt : S → S) (max_cells : Int) :
    ∀ (fuel : Nat) (s : S) (t : Mesh) (r : Refinement Mesh),
      refine_loop cells mesh_of marked adapt max_cells fuel s t = some r →
        ∀ n, refine_loop cells mesh_of marked adapt max_cells (fuel + n) s t = some r := by
  intro fuel
  induction fuel with
  | zero =>
    intro s t r h
    exact absurd h (by simp [refine_loop])
  | succ fuel ih =>
    intro s t r h n
    have hn : fuel + 1 + n = (fuel + n) + 1 := by omega
    rw [hn]
    by_cases hg : budget_guard max_cells (cells s)
    · rw [refine_loop_guard _ _ _ _ _ _ _ _ hg] at h ⊢
      exact h
    · by_cases h0 : marked s = 0
      · rw [refine_loop_unmarked _ _ _ _ _ _ _ _ hg h0] at h ⊢
        exact h
      · rw [refine_loop_marked _ _ _ _ _ _ _ _ hg h0] at h ⊢
        cases hrec : refine_loop cells mesh_of marked adapt max_cells fuel (adapt s) t with
        | none => rw [hrec] at h; exact absurd h (by simp)
        | some r' =>
          rw [hrec] at h
          rw [ih (adapt s) t r' hrec n]
          exact h

/-- Closed form of the recursion when the first `k` levels all pass the guard
and mark cells: with at most `k` nested calls it is still descending; with
more, a guard that fires at level `k` returns `k` and leaves `target_mesh`
alone, and a level `k` without marked cells returns `k` and the mesh of that
level. -/
theorem refine_loop_run {S Mesh : Type} (cells : S → Nat) (mesh_of : S → Mesh)
    (marked : S → Nat) (adapt : S → S) (max_cells : Int) :
    ∀ (fuel : Nat) (s : S) (t : Mesh) (k : Nat),
      (∀ j, j < k → ¬ budget_guard max_cells (cells (adapt^[j] s))
          ∧ marked (adapt^[j] s) ≠ 0) →
      (fuel ≤ k → refine_loop cells mesh_of marked adapt max_cells fuel s t = none)
        ∧ (k < fuel → budget_guard max_cells (cells (adapt^[k] s)) →
            ∃ r, refine_loop cells mesh_of marked adapt max_cells fuel s t = some r
              ∧ r.levels = k ∧ r.refine_calls = k ∧ r.target_mesh = t)
        ∧ (k < fuel → ¬ budget_guard max_cells (cells (adapt^[k] s)) →
            marked (adapt^[k] s) = 0 →
            ∃ r, refine_loop cells mesh_of marked adapt max_cells fuel s t = some r
              ∧ r.levels = k ∧ r.refine_calls = k
              ∧ r.target_mesh = mesh_of (adapt^[k] s)) := by
  intro fuel
  induction fuel with
  | zero =>
    intro s t k _
    exact ⟨fun _ => rfl, fun h => absurd h (Nat.not_lt_zero k),
      fun h => absurd h (Nat.not_lt_zero k)⟩
  | succ fuel ih =>
    intro s t k hbefore
    cases k with
    | zero =>
      refine ⟨fun h => absurd h (Nat.not_succ_le_zero fuel), fun _ hg => ?_, fun _ hg h0 => ?_⟩
      · rw [Function.iterate_zero_apply] at hg
        exact ⟨_, refine_loop_guard _ _ _ _ _ _ _ _ hg, rfl, rfl, rfl⟩
      · rw [Function.iterate_zero_apply] at hg h0
        exact ⟨_, refine_loop_unmarked _ _ _ _ _ _ _ _ hg h0, rfl, rfl, rfl⟩
    | succ k =>
      obtain ⟨hg, h0⟩ := hbefore 0 (Nat.succ_pos k)
      rw [Function.iterate_zero_apply] at hg h0
      have hnext : ∀ j, j < k → ¬ budget_guard max_cells (cells (adapt^[j] (adapt s)))
          ∧ marked (adapt^[j] (adapt s)) ≠ 0 := by
        intro j hj
        have := hbefore (j + 1) (by omega)
        rwa [Function.iterate_succ_apply] at this
      obtain ⟨h1, h2, h3⟩ := ih (adapt s) t k hnext
      rw [refine_loop_marked _ _ _ _ _ _ _ _ hg h0]
      refine ⟨fun h => ?_, fun h hgk => ?_, fun h hgk h0k => ?_⟩
      · rw [h1 (by omega)]
        rfl
      · rw [Function.iterate_succ_apply] at hgk
        obtain ⟨r, hr, e1, e2, e3⟩ := h2 (by omega) hgk
        refine ⟨one_more_level (marked s) r, ?_, ?_, ?_, ?_⟩
        · rw [hr]
          rfl
        · simp only [one_more_level, e1]
          omega
        · simp only [one_more_level, e2]
          omega
        · simp only [one_more_level, e3]
      · rw [Function.iterate_succ_apply] at hgk h0k ⊢
        obtain ⟨r, hr, e1, e2, e3⟩ := h3 (by omega) hgk h0k
        refine ⟨one_more_level (marked s) r, ?_, ?_, ?_, ?_⟩
        · rw [hr]
          rfl
        · simp only [one_more_level, e1]
          omega
        · simp only [one_more_level, e2]
          omega
        · simp only [one_more_level, e3]

/-- With a positive cell budget and a refinement that adds cells whenever the
level marks any, the recursion ends within `max_cells - cells + 1` levels. -/
theorem refine_loop_bounded {S Mesh : Type} (cells : S → Nat) (mesh_of : S → Mesh)
    (marked : S → Nat) (adapt : S → S) (max_cells : Int) (hpos : max_cells > 0)
    (hgrow : ∀ s, ¬ budget_guard max_cells (cells s) → marked s ≠ 0 →
      cells s < cells (adapt s)) :
    ∀ (d : Nat) (s : S) (t : Mesh), max_cells - (cells s : Int) + 1 ≤ (d : Int) →
      ∃ r, refine_loop cells mesh_of marked adapt max_cells (d + 1) s t = some r
        ∧ r.levels ≤ d := by
  intro d
  induction d with
  | zero =>
    intro s t hd
    have hg : budget_guard max_cells (cells s) := by
      unfold budget_guard
      omega
    exact ⟨_, refine_loop_guard _ _ _ _ _ _ _ _ hg, le_refl 0⟩
  | succ d ih =>
    intro s t hd
    by_cases hg : budget_guard max_cells (cells s)
    · exact ⟨_, refine_loop_guard _ _ _ _ _ _ _ _ hg, Nat.zero_le _⟩
    · by_cases h0 : marked s = 0
      · exact ⟨_, refine_loop_unmarked _ _ _ _ _ _ _ _ hg h0, Nat.zero_le _⟩
      · have hlt := hgrow s hg h0
        obtain ⟨r, hr, hle⟩ := ih (adapt s) t (by omega)
        refine ⟨one_more_level (marked s) r, ?_, ?_⟩
        · rw [refine_loop_marked _ _ _ _ _ _ _ _ hg h0, hr]
          rfl
        · simp only [one_more_level]
          omega

theorem mark_from_count (threshold : ℚ) :
    ∀ (rest : Vec) (i : Nat) (s : List Bool × Nat),
      (mark_from threshold rest i s).2
        = s.2 + rest.countP (fun e => decide (e > threshold)) := by
  intro rest
  induction rest with
  | nil => intro i s; simp [mark_from]
  | cons e rest ih =>
    intro i s
    by_cases he : e > threshold
    · rw [mark_from, if_pos he, ih, List.countP_cons_of_pos _ _ (by simpa using he)]
      simp only []
      omega
    · rw [mark_from, if_neg he, ih, List.countP_cons_of_neg _ _ (by simpa using he)]

theorem mark_from_length (threshold : ℚ) :
    ∀ (rest : Vec) (i : Nat) (s : List Bool × Nat),
      (mark_from threshold rest i s).1.length = s.1.length := by
  intro rest
  induction rest with
  | nil => intro i s; simp [mark_from]
  | cons e rest ih =>
    intro i s
    by_cases he : e > threshold
    · rw [mark_from, if_pos he, ih]
      simp
    · rw [mark_from, if_neg he, ih]

theorem mark_from_true_iff (threshold : ℚ) :
    ∀ (rest : Vec) (i : Nat) (s : List Bool × Nat) (j : Nat),
      (mark_from threshold rest i s).1[j]? = some true ↔
        s.1[j]? = some true
          ∨ (j < s.1.length ∧ i ≤ j ∧ ∃ e, rest[j - i]? = some e ∧ e > threshold) := by
  intro rest
  induction rest with
  | nil =>
    intro i s j
    simp [mark_from]
  | cons e rest ih =>
    intro i s j
    have hlen : ∀ b : Bool, s.1[j]? = some b → j < s.1.length := by
      intro b hb
      by_contra hcon
      rw [List.getElem?_eq_none (by omega)] at hb
      exact absurd hb (by simp)
    by_cases he : e > threshold
    · rw [mark_from, if_pos he, ih]
      simp only [List.length_set]
      by_cases hji : j = i
      · subst hji
        constructor
        · rintro (h | ⟨h1, h2, _⟩)
          · right
            have : j < s.1.length := by
              by_contra hcon
              rw [List.getElem?_eq_none (by simp; omega)] at h
              exact absurd h (by simp)
            exact ⟨this, le_refl j, e, by simp, he⟩
          · omega
        · rintro (h | ⟨h1, _, _⟩)
          · left
            rw [List.getElem?_set_self (hlen true h)]
          · left
            rw [List.getElem?_set_self h1]
      · rw [List.getElem?_set_ne (Ne.symm hji)]
        constructor
        · rintro (h | ⟨h1, h2, e', h3, h4⟩)
          · exact Or.inl h
          · right
            refine ⟨h1, by omega, e', ?_, h4⟩
            have : j - i = (j - (i + 1)) + 1 := by omega
            rw [this, List.getElem?_cons_succ]
            exact h3
        · rintro (h | ⟨h1, h2, e', h3, h4⟩)
          · exact Or.inl h
          · right
            have hlt : i + 1 ≤ j := by omega
            refine ⟨h1, hlt, e', ?_, h4⟩
            have : j - i = (j - (i + 1)) + 1 := by omega
            rw [this, List.getElem?_cons_succ] at h3
            exact h3
    · rw [mark_from, if_neg he, ih]
      by_cases hji : j = i
      · subst hji
        constructor
        · rintro (h | ⟨_, h2, _⟩)
          · exact Or.inl h
          · omega
        · rintro (h | ⟨_, _, e', h3, h4⟩)
          · exact Or.inl h
          · simp at h3
            rw [← h3] at h4
            exact absurd h4 he
      · constructor
        · rintro (h | ⟨h1, h2, e', h3, h4⟩)
          · exact Or.inl h
          · right
            refine ⟨h1, by omega, e', ?_, h4⟩
            have : j - i = (j - (i + 1)) + 1 := by omega
            rw [this, List.getElem?_cons_succ]
            exact h3
        · rintro (h | ⟨h1, h2, e', h3, h4⟩)
          · exact Or.inl h
          · right
            have hlt : i + 1 ≤ j := by omega
            refine ⟨h1, hlt, e', ?_, h4⟩
            have : j - i = (j - (i + 1)) + 1 := by omega
            rw [this, List.getElem?_cons_succ] at h3
            exact h3

/-- The marking of one level, entry by entry: the count is the number of
entries strictly above the threshold, the marker has one entry per cell, and
cell `j` is marked exactly when entry `j` of the error vector exists and is
strictly above the threshold. -/
theorem mark_cells_spec (error_vector : Vec) (threshold : ℚ) (num_cells : Nat) :
    (mark_cells error_vector threshold num_cells).2
        = error_vector.countP (fun e => decide (e > threshold))
      ∧ (mark_cells error_vector threshold num_cells).1.length = num_cells
      ∧ ∀ j, (mark_cells error_vector threshold num_cells).1[j]? = some true ↔
          j < num_cells ∧ ∃ e, error_vector[j]? = some e ∧ e > threshold := by
  refine ⟨?_, ?_, fun j => ?_⟩
  · rw [mark_cells, mark_from_count]
    simp
  · rw [mark_cells, mark_from_length]
    simp
  · rw [mark_cells, mark_from_true_iff]
    simp only [List.length_replicate, Nat.zero_le, Nat.sub_zero, true_and]
    constructor
    · rintro (h | h)
      · exfalso
        by_cases hj : j < num_cells
        · rw [List.getElem?_eq_getElem (by simpa using hj)] at h
          simp at h
        · rw [List.getElem?_eq_none (by simp; omega)] at h
          exact absurd h (by simp)
      · exact h
    · intro h
      exact Or.inr h

/-- C13: in `check_local_entropy`, for every error vector and tolerance,
`marked_elem_count` is the number of entries strictly greater than
`entropy_tol`, the marker has one entry per cell, cell `j` is marked if and
only if `error_vector[j]` exists and is strictly greater than `entropy_tol`
(every other cell stays `false`), and an entry equal to `entropy_tol` is not
marked. -/
theorem check_local_entropy_marks_strictly {Mesh : Type} (ops : MeshOps Mesh)
    (cation_valency anion_valency entropy_tol : ℚ) (cation anion voltage : DolfinFunction Mesh) :
    (entropy_marking ops cation_valency anion_valency entropy_tol cation anion voltage).2
        = (entropy_error_vector ops cation_valency anion_valency cation anion voltage).countP
            (fun e => decide (e > entropy_tol))
      ∧ (entropy_marking ops cation_valency anion_valency entropy_tol
          cation anion voltage).1.length = ops.num_cells voltage.mesh
      ∧ (∀ j, (entropy_marking ops cation_valency anion_valency entropy_tol
            cation anion voltage).1[j]? = some true ↔
          j < ops.num_cells voltage.mesh
            ∧ ∃ e, (entropy_error_vector ops cation_valency anion_valency
                cation anion voltage)[j]? = some e ∧ e > entropy_tol)
      ∧ (∀ j : Nat, (entropy_error_vector ops cation_valency anion_valency
            cation anion voltage)[j]? = some entropy_tol →
          (entropy_marking ops cation_valency anion_valency entropy_tol
            cation anion voltage).1[j]? ≠ some true) := by
  obtain ⟨h1, h2, h3⟩ := mark_cells_spec
    (entropy_error_vector ops cation_valency anion_valency cation anion voltage)
    entropy_tol (ops.num_cells voltage.mesh)
  refine ⟨h1, h2, h3, fun j hj hm => ?_⟩
  obtain ⟨_, e, he, hgt⟩ := (h3 j).mp hm
  rw [hj] at he
  cases he
  exact absurd hgt (lt_irrefl _)

/-- C14: in `check_electric_field`, for every error vector and tolerance,
cell `j` is marked if and only if `error_vector[j]` exists and is strictly
greater than `entropy_tol / 2`, and `marked_elem_count` is the number of such
entries. -/
theorem check_electric_field_marks_above_half {Mesh : Type} (ops : MeshOps Mesh)
    (entropy_tol : ℚ) (voltage : DolfinFunction Mesh) :
    (electric_marking ops entropy_tol voltage).2
        = (electric_error_vector ops voltage).countP (fun e => decide (e > entropy_tol / 2))
      ∧ (electric_marking ops entropy_tol voltage).1.length = ops.num_cells voltage.mesh
      ∧ (∀ j, (electric_marking ops entropy_tol voltage).1[j]? = some true ↔
          j < ops.num_cells voltage.mesh
            ∧ ∃ e, (electric_error_vector ops voltage)[j]? = some e ∧ e > entropy_tol / 2) :=
  mark_cells_spec (electric_error_vector ops voltage) (entropy_tol / 2)
    (ops.num_cells voltage.mesh)

/-- C15, as the code has it: `check_local_entropy` does not mark a cell whose
error equals the tolerance; `check_electric_field` compares with half the
tolerance, so it does not mark a cell whose error equals `tol / 2`, but it
marks a cell whose error equals `tol` whenever `tol > 0`. -/
theorem marking_at_the_threshold {Mesh : Type} (ops : MeshOps Mesh)
    (cation_valency anion_valency tol : ℚ) (cation anion voltage : DolfinFunction Mesh) :
    (∀ j : Nat, (entropy_error_vector ops cation_valency anion_valency
          cation anion voltage)[j]? = some tol →
        (entropy_marking ops cation_valency anion_valency tol
          cation anion voltage).1[j]? ≠ some true)
      ∧ (∀ j : Nat, (electric_error_vector ops voltage)[j]? = some (tol / 2) →
        (electric_marking ops tol voltage).1[j]? ≠ some true)
      ∧ (∀ j : Nat, 0 < tol → j < ops.num_cells voltage.mesh →
        (electric_error_vector ops voltage)[j]? = some tol →
        (electric_marking ops tol voltage).1[j]? = some true) := by
  obtain ⟨_, _, h3⟩ := mark_cells_spec
    (entropy_error_vector ops cation_valency anion_valency cation anion voltage)
    tol (ops.num_cells voltage.mesh)
  obtain ⟨_, _, k3⟩ := mark_cells_spec (electric_error_vector ops voltage) (tol / 2)
    (ops.num_cells voltage.mesh)
  refine ⟨fun j hj hm => ?_, fun j hj hm => ?_, fun j hpos hlt hj => ?_⟩
  · obtain ⟨_, e, he, hgt⟩ := (h3 j).mp hm
    rw [hj] at he
    cases he
    exact absurd hgt (lt_irrefl _)
  · obtain ⟨_, e, he, hgt⟩ := (k3 j).mp hm
    rw [hj] at he
    cases he
    exact absurd hgt (lt_irrefl _)
  · exact (k3 j).mpr ⟨hlt, tol, hj, by linarith⟩

/-- C15, refuted as stated: with tolerance 1, a one-cell mesh and the error
indicator exactly 1 on that cell, `check_electric_field` marks the cell. -/
theorem electric_field_marks_at_tolerance :
    (electric_error_vector example_mesh_ops { mesh := 1, vector := [1] })[0]? = some 1
      ∧ (electric_marking example_mesh_ops 1 { mesh := 1, vector := [1] }).1[0]? = some true
      ∧ (electric_marking example_mesh_ops 1 { mesh := 1, vector := [1] }).2 = 1 := by
  refine ⟨?_, ?_, ?_⟩ <;>
    norm_num [electric_marking, electric_error_vector, mark_cells, mark_from, example_mesh_ops]

theorem electric_field_guard {Mesh : Type} (ops : MeshOps Mesh) (entropy_tol : ℚ)
    (max_cells : Int) (fuel : Nat) (voltage : DolfinFunction Mesh) (target_mesh : Mesh)
    (h : max_cells > 0 ∧ (ops.num_cells voltage.mesh : Int) > max_cells) :
    check_electric_field ops entropy_tol max_cells (fuel + 1) voltage target_mesh
      = some { levels := 0, target_mesh := target_mesh, refine_calls := 0,
               indicator_evals := 0, marked := 0 } := by
  rw [check_electric_field_eq_loop]
  exact refine_loop_guard _ _ _ _ _ _ _ _ h

theorem electric_field_unmarked {Mesh : Type} (ops : MeshOps Mesh) (entropy_tol : ℚ)
    (max_cells : Int) (fuel : Nat) (voltage : DolfinFunction Mesh) (target_mesh : Mesh)
    (h : ¬ (max_cells > 0 ∧ (ops.num_cells voltage.mesh : Int) > max_cells))
    (h0 : (electric_marking ops entropy_tol voltage).2 = 0) :
    check_electric_field ops entropy_tol max_cells (fuel + 1) voltage target_mesh
      = some { levels := 0, target_mesh := voltage.mesh, refine_calls := 0,
               indicator_evals := 1, marked := 0 } := by
  rw [check_electric_field_eq_loop]
  exact refine_loop_unmarked _ _ _ _ _ _ _ _ h h0

theorem electric_field_marked {Mesh : Type} (ops : MeshOps Mesh) (entropy_tol : ℚ)
    (max_cells : Int) (fuel : Nat) (voltage : DolfinFunction Mesh) (target_mesh : Mesh)
    (h : ¬ (max_cells > 0 ∧ (ops.num_cells voltage.mesh : Int) > max_cells))
    (h0 : (electric_marking ops entropy_tol voltage).2 ≠ 0) :
    check_electric_field ops entropy_tol max_cells (fuel + 1) voltage target_mesh
      = (check_electric_field ops entropy_tol max_cells fuel
            (electric_adapt ops entropy_tol voltage) target_mesh).map
          (one_more_level (electric_marking ops entropy_tol voltage).2) := by
  rw [check_electric_field_eq_loop, check_electric_field_eq_loop]
  exact refine_loop_marked _ _ _ _ _ _ _ _ h h0

theorem local_entropy_guard {Mesh : Type} (ops : MeshOps Mesh)
    (cation_valency anion_valency entropy_tol : ℚ) (max_cells : Int) (fuel : Nat)
    (cation anion voltage : DolfinFunction Mesh) (target_mesh : Mesh)
    (h : max_cells > 0 ∧ (ops.num_cells voltage.mesh : Int) > max_cells) :
    check_local_entropy ops cation_valency anion_valency entropy_tol max_cells (fuel + 1)
        cation anion voltage target_mesh
      = some { levels := 0, target_mesh := target_mesh, refine_calls := 0,
               indicator_evals := 0, marked := 0 } := by
  rw [check_local_entropy_eq_loop]
  exact refine_loop_guard _ _ _ _ _ _ _ _ h

theorem local_entropy_unmarked {Mesh : Type} (ops : MeshOps Mesh)
    (cation_valency anion_valency entropy_tol : ℚ) (max_cells : Int) (fuel : Nat)
    (cation anion voltage : DolfinFunction Mesh) (target_mesh : Mesh)
    (h : ¬ (max_cells > 0 ∧ (ops.num_cells voltage.mesh : Int) > max_cells))
    (h0 : (entropy_marking ops cation_valency anion_valency entropy_tol
      cation anion voltage).2 = 0) :
    check_local_entropy ops cation_valency anion_valency entropy_tol max_cells (fuel + 1)
        cation anion voltage target_mesh
      = some { levels := 0, target_mesh := voltage.mesh, refine_calls := 0,
               indicator_evals := 1, marked := 0 } := by
  rw [check_local_entropy_eq_loop]
  exact refine_loop_unmarked _ _ _ _ _ _ _ _ h h0

theorem local_entropy_marked {Mesh : Type} (ops : MeshOps Mesh)
    (cation_valency anion_valency entropy_tol : ℚ) (max_cells : Int) (fuel : Nat)
    (cation anion voltage : DolfinFunction Mesh) (target_mesh : Mesh)
    (h : ¬ (max_cells > 0 ∧ (ops.num_cells voltage.mesh : Int) > max_cells))
    (h0 : (entropy_marking ops cation_valency anion_valency entropy_tol
      cation anion voltage).2 ≠ 0) :
    check_local_entropy ops cation_valency anion_valency entropy_tol max_cells (fuel + 1)
        cation anion voltage target_mesh
      = (check_local_entropy ops cation_valency anion_valency entropy_tol max_cells fuel
            (entropy_adapt ops cation_valency anion_valency entropy_tol
              { cation := cation, anion := anion, voltage := voltage }).cation
            (entropy_adapt ops cation_valency anion_valency entropy_tol
              { cation := cation, anion := anion, voltage := voltage }).anion
            (entropy_adapt ops cation_valency anion_valency entropy_tol
              { cation := cation, anion := anion, voltage := voltage }).voltage
            target_mesh).map
          (one_more_level (entropy_marking ops cation_valency anion_valency entropy_tol
            cation anion voltage).2) := by
  rw [check_local_entropy_eq_loop, check_local_entropy_eq_loop]
  exact refine_loop_marked (fun s : EntropyFields Mesh => ops.num_cells s.voltage.mesh)
    (fun s => s.voltage.mesh)
    (fun s => (entropy_marking ops cation_valency anion_valency entropy_tol
      s.cation s.anion s.voltage).2)
    (entropy_adapt ops cation_valency anion_valency entropy_tol) max_cells fuel
    { cation := cation, anion := anion, voltage := voltage } target_mesh h h0

/-- C16: in `check_local_entropy` and `check_electric_field`, if
`max_cells > 0` and the mesh has strictly more than `max_cells` cells, the call
returns 0 with no indicator assembled, no cell marked and no `refine` call
(and `target_mesh` as it was); if `max_cells <= 0` or the cell count is at
most `max_cells`, equality included, the guard does not fire: the marking of
the level is computed and decides between returning 0 and refining, and every
result has at least one indicator assembly. -/
theorem cell_budget_guard {Mesh : Type} (ops : MeshOps Mesh)
    (cation_valency anion_valency entropy_tol : ℚ) (max_cells : Int) (fuel : Nat)
    (cation anion voltage : DolfinFunction Mesh) (target_mesh : Mesh) :
    ((max_cells > 0 ∧ (ops.num_cells voltage.mesh : Int) > max_cells) →
        check_local_entropy ops cation_valency anion_valency entropy_tol max_cells (fuel + 1)
            cation anion voltage target_mesh
          = some { levels := 0, target_mesh := target_mesh, refine_calls := 0,
                   indicator_evals := 0, marked := 0 }
        ∧ check_electric_field ops entropy_tol max_cells (fuel + 1) voltage target_mesh
          = some { levels := 0, target_mesh := target_mesh, refine_calls := 0,
                   indicator_evals := 0, marked := 0 })
      ∧ ((max_cells ≤ 0 ∨ (ops.num_cells voltage.mesh : Int) ≤ max_cells) →
        check_local_entropy ops cation_valency anion_valency entropy_tol max_cells (fuel + 1)
            cation anion voltage target_mesh
          = (if (entropy_marking ops cation_valency anion_valency entropy_tol
                cation anion voltage).2 = 0 then
              some { levels := 0, target_mesh := voltage.mesh, refine_calls := 0,
                     indicator_evals := 1, marked := 0 }
            else
              (check_local_entropy ops cation_valency anion_valency entropy_tol max_cells fuel
                (entropy_adapt ops cation_valency anion_valency entropy_tol
                  { cation := cation, anion := anion, voltage := voltage }).cation
                (entropy_adapt ops cation_valency anion_valency entropy_tol
                  { cation := cation, anion := anion, voltage := voltage }).anion
                (entropy_adapt ops cation_valency anion_valency entropy_tol
                  { cation := cation, anion := anion, voltage := voltage }).voltage
                target_mesh).map
              (one_more_level (entropy_marking ops cation_valency anion_valency entropy_tol
                cation anion voltage).2))
        ∧ check_electric_field ops entropy_tol max_cells (fuel + 1) voltage target_mesh
          = (if (electric_marking ops entropy_tol voltage).2 = 0 then
              some { levels := 0, target_mesh := voltage.mesh, refine_calls := 0,
                     indicator_evals := 1, marked := 0 }
            else
              (check_electric_field ops entropy_tol max_cells fuel
                (electric_adapt ops entropy_tol voltage) target_mesh).map
              (one_more_level (electric_marking ops entropy_tol voltage).2))
        ∧ (∀ r, check_local_entropy ops cation_valency anion_valency entropy_tol max_cells
              fuel cation anion voltage target_mesh = some r → 1 ≤ r.indicator_evals)
        ∧ (∀ r, check_electric_field ops entropy_tol max_cells fuel voltage target_mesh
              = some r → 1 ≤ r.indicator_evals)) := by
  constructor
  · intro h
    exact ⟨local_entropy_guard ops _ _ _ _ _ _ _ _ _ h, electric_field_guard ops _ _ _ _ _ h⟩
  · intro h
    have hg : ¬ (max_cells > 0 ∧ (ops.num_cells voltage.mesh : Int) > max_cells) := by
      omega
    refine ⟨?_, ?_, fun r hr => ?_, fun r hr => ?_⟩
    · by_cases h0 : (entropy_marking ops cation_valency anion_valency entropy_tol
          cation anion voltage).2 = 0
      · rw [if_pos h0]
        exact local_entropy_unmarked ops _ _ _ _ _ _ _ _ _ hg h0
      · rw [if_neg h0]
        exact local_entropy_marked ops _ _ _ _ _ _ _ _ _ hg h0
    · by_cases h0 : (electric_marking ops entropy_tol voltage).2 = 0
      · rw [if_pos h0]
        exact electric_field_unmarked ops _ _ _ _ _ hg h0
      · rw [if_neg h0]
        exact electric_field_marked ops _ _ _ _ _ hg h0
    · rw [check_local_entropy_eq_loop] at hr
      exact (refine_loop_counts _ _ _ _ _ _ _ _ _ hr).2 hg
    · rw [check_electric_field_eq_loop] at hr
      exact (refine_loop_counts _ _ _ _ _ _ _ _ _ hr).2 hg

/-- C11: in `Linear_PNP::fasp_solve`, when the solver returns a negative
status the returned function and the stored solution are the solution held
before the call; when the status is nonnegative they are the previous
solution plus the solver's output vector, as converted to a function, entry
by entry (the solver's output itself when the conversion keeps the entries). -/
theorem fasp_solve_keeps_or_adds (fasp : Vec → Vec → FaspSolve) (convert : Vec → Vec)
    (rhs_size : Nat) (self : Linear_PNP) :
    ((fasp self._solution (List.replicate rhs_size 0)).status < 0 →
        (Linear_PNP.fasp_solve fasp convert rhs_size self).1 = self._solution
          ∧ (Linear_PNP.fasp_solve fasp convert rhs_size self).2._solution = self._solution)
      ∧ (0 ≤ (fasp self._solution (List.replicate rhs_size 0)).status →
        (Linear_PNP.fasp_solve fasp convert rhs_size self).1
            = vector_add self._solution
                (convert (fasp self._solution (List.replicate rhs_size 0)).soln)
          ∧ (Linear_PNP.fasp_solve fasp convert rhs_size self).2._solution
            = vector_add self._solution
                (convert (fasp self._solution (List.replicate rhs_size 0)).soln)
          ∧ ((∀ x, convert x = x) → ∀ (i : Nat) (a b : ℚ),
              self._solution[i]? = some a →
              (fasp self._solution (List.replicate rhs_size 0)).soln[i]? = some b →
              (Linear_PNP.fasp_solve fasp convert rhs_size self).1[i]? = some (a + b)
                ∧ (Linear_PNP.fasp_solve fasp convert rhs_size self).2._solution[i]?
                  = some (a + b))) := by
  constructor
  · intro h
    simp only [Linear_PNP.fasp_solve, Linear_PNP.setup_fasp_linear_algebra,
      Linear_PNP.get_solution, Linear_PNP.set_solution, if_pos h, and_self]
  · intro h
    have hn : ¬ (fasp self._solution (List.replicate rhs_size 0)).status < 0 := not_lt.mpr h
    have h1 : (Linear_PNP.fasp_solve fasp convert rhs_size self).1
        = vector_add self._solution
            (convert (fasp self._solution (List.replicate rhs_size 0)).soln) := by
      simp only [Linear_PNP.fasp_solve, Linear_PNP.setup_fasp_linear_algebra,
        Linear_PNP.get_solution, Linear_PNP.set_solution, if_neg hn]
    have h2 : (Linear_PNP.fasp_solve fasp convert rhs_size self).2._solution
        = vector_add self._solution
            (convert (fasp self._solution (List.replicate rhs_size 0)).soln) := by
      simp only [Linear_PNP.fasp_solve, Linear_PNP.setup_fasp_linear_algebra,
        Linear_PNP.get_solution, Linear_PNP.set_solution, if_neg hn]
    refine ⟨h1, h2, fun hid i a b ha hb => ?_⟩
    rw [h1, h2, hid]
    have : (vector_add self._solution
        (fasp self._solution (List.replicate rhs_size 0)).soln)[i]? = some (a + b) := by
      simp [vector_add, List.getElem?_zipWith, ha, hb]
    exact ⟨this, this⟩

theorem battery_newton_pass_iterates (resnorm : ResNorm) (solve : Solver)
    (newtparam : newton_param) (st : NewtonState) :
    (BatteryPER.newton_pass resnorm solve newtparam st).cationSolution
        = (BatteryPER.newton_update resnorm solve newtparam st).iterate0
      ∧ (BatteryPER.newton_pass resnorm solve newtparam st).anionSolution
        = (BatteryPER.newton_update resnorm solve newtparam st).iterate1
      ∧ (BatteryPER.newton_pass resnorm solve newtparam st).potentialSolution
        = (BatteryPER.newton_update resnorm solve newtparam st).iterate2 := by
  simp only [BatteryPER.newton_pass]
  split <;> exact ⟨rfl, rfl, rfl⟩

/-- C12, as the code has it: the Newton pass of `battery_PER.cpp` never reads
the solver's status.  Two solves that fill the buffer alike give the same pass
even if their statuses differ; the iterates after the pass are those
`update_solution_pnp` leaves when given the buffer's contents as update.  So,
whatever the status: if `k ≤ damp_it` is the least number of dampings whose
trial does not exceed the current relative residual, the iterate becomes
iterate + `damp_factor ^ k` * update; if the full trial and all `damp_it`
damped trials exceed it, the iterate stays; and one of the two happens in
every pass. -/
theorem battery_pass_ignores_solver_status (resnorm : ResNorm) (solve : Solver)
    (newtparam : newton_param) (st : NewtonState) :
    (∀ solve2 : Solver,
        (∀ a b c, (solve2 a b c).update0 = (solve a b c).update0
          ∧ (solve2 a b c).update1 = (solve a b c).update1
          ∧ (solve2 a b c).update2 = (solve a b c).update2) →
        BatteryPER.newton_pass resnorm solve2 newtparam st
          = BatteryPER.newton_pass resnorm solve newtparam st)
      ∧ ((BatteryPER.newton_pass resnorm solve newtparam st).cationSolution
          = (BatteryPER.update_solution_pnp resnorm
              st.cationSolution st.anionSolution st.potentialSolution
              (solve st.cationSolution st.anionSolution st.potentialSolution).update0
              (solve st.cationSolution st.anionSolution st.potentialSolution).update1
              (solve st.cationSolution st.anionSolution st.potentialSolution).update2
              st.relative_residual st.initial_residual newtparam).iterate0
        ∧ (BatteryPER.newton_pass resnorm solve newtparam st).anionSolution
          = (BatteryPER.update_solution_pnp resnorm
              st.cationSolution st.anionSolution st.potentialSolution
              (solve st.cationSolution st.anionSolution st.potentialSolution).update0
              (solve st.cationSolution st.anionSolution st.potentialSolution).update1
              (solve st.cationSolution st.anionSolution st.potentialSolution).update2
              st.relative_residual st.initial_residual newtparam).iterate1
        ∧ (BatteryPER.newton_pass resnorm solve newtparam st).potentialSolution
          = (BatteryPER.update_solution_pnp resnorm
              st.cationSolution st.anionSolution st.potentialSolution
              (solve st.cationSolution st.anionSolution st.potentialSolution).update0
              (solve st.cationSolution st.anionSolution st.potentialSolution).update1
              (solve st.cationSolution st.anionSolution st.potentialSolution).update2
              st.relative_residual st.initial_residual newtparam).iterate2)
      ∧ (∀ k, k ≤ newtparam.damp_it →
          (∀ j, j < k →
            trial_rr resnorm st.cationSolution st.anionSolution st.potentialSolution
              (solve st.cationSolution st.anionSolution st.potentialSolution).update0
              (solve st.cationSolution st.anionSolution st.potentialSolution).update1
              (solve st.cationSolution st.anionSolution st.potentialSolution).update2
              st.initial_residual newtparam.damp_factor j > st.relative_residual) →
          trial_rr resnorm st.cationSolution st.anionSolution st.potentialSolution
              (solve st.cationSolution st.anionSolution st.potentialSolution).update0
              (solve st.cationSolution st.anionSolution st.potentialSolution).update1
              (solve st.cationSolution st.anionSolution st.potentialSolution).update2
              st.initial_residual newtparam.damp_factor k ≤ st.relative_residual →
          (BatteryPER.newton_pass resnorm solve newtparam st).cationSolution
              = update_solution st.cationSolution
                  (damped (solve st.cationSolution st.anionSolution st.potentialSolution).update0
                    newtparam.damp_factor k)
            ∧ (BatteryPER.newton_pass resnorm solve newtparam st).anionSolution
              = update_solution st.anionSolution
                  (damped (solve st.cationSolution st.anionSolution st.potentialSolution).update1
                    newtparam.damp_factor k)
            ∧ (BatteryPER.newton_pass resnorm solve newtparam st).potentialSolution
              = update_solution st.potentialSolution
                  (damped (solve st.cationSolution st.anionSolution st.potentialSolution).update2
                    newtparam.damp_factor k))
      ∧ ((∀ j, j ≤ newtparam.damp_it →
            trial_rr resnorm st.cationSolution st.anionSolution st.potentialSolution
              (solve st.cationSolution st.anionSolution st.potentialSolution).update0
              (solve st.cationSolution st.anionSolution st.potentialSolution).update1
              (solve st.cationSolution st.anionSolution st.potentialSolution).update2
              st.initial_residual newtparam.damp_factor j > st.relative_residual) →
          (BatteryPER.newton_pass resnorm solve newtparam st).cationSolution
              = st.cationSolution
            ∧ (BatteryPER.newton_pass resnorm solve newtparam st).anionSolution
              = st.anionSolution
            ∧ (BatteryPER.newton_pass resnorm solve newtparam st).potentialSolution
              = st.potentialSolution)
      ∧ (∃ k, k ≤ newtparam.damp_it
          ∧ (((BatteryPER.newton_pass resnorm solve newtparam st).cationSolution
                = st.cationSolution
              ∧ (BatteryPER.newton_pass resnorm solve newtparam st).anionSolution
                = st.anionSolution
              ∧ (BatteryPER.newton_pass resnorm solve newtparam st).potentialSolution
                = st.potentialSolution)
            ∨ ((BatteryPER.newton_pass resnorm solve newtparam st).cationSolution
                = update_solution st.cationSolution
                    (damped
                      (solve st.cationSolution st.anionSolution st.potentialSolution).update0
                      newtparam.damp_factor k)
              ∧ (BatteryPER.newton_pass resnorm solve newtparam st).anionSolution
                = update_solution st.anionSolution
                    (damped
                      (solve st.cationSolution st.anionSolution st.potentialSolution).update1
                      newtparam.damp_factor k)
              ∧ (BatteryPER.newton_pass resnorm solve newtparam st).potentialSolution
                = update_solution st.potentialSolution
                    (damped
                      (solve st.cationSolution st.anionSolution st.potentialSolution).update2
                      newtparam.damp_factor k)))) := by
  obtain ⟨p0, p1, p2⟩ := battery_newton_pass_iterates resnorm solve newtparam st
  refine ⟨?_, ⟨p0, p1, p2⟩, ?_, ?_, ?_⟩
  · intro solve2 hsame
    obtain ⟨e0, e1, e2⟩ := hsame st.cationSolution st.anionSolution st.potentialSolution
    simp only [BatteryPER.newton_pass, BatteryPER.newton_update, e0, e1, e2]
  · intro k hk hlt hle
    have hup := battery_update_solution_pnp_least resnorm st.cationSolution st.anionSolution
      st.potentialSolution
      (solve st.cationSolution st.anionSolution st.potentialSolution).update0
      (solve st.cationSolution st.anionSolution st.potentialSolution).update1
      (solve st.cationSolution st.anionSolution st.potentialSolution).update2
      st.relative_residual st.initial_residual newtparam k hk hlt hle
    rw [p0, p1, p2]
    refine ⟨?_, ?_, ?_⟩ <;> simp only [BatteryPER.newton_update, hup, damped_step]
  · intro hgt
    have hup := battery_update_solution_pnp_exhausted resnorm st.cationSolution st.anionSolution
      st.potentialSolution
      (solve st.cationSolution st.anionSolution st.potentialSolution).update0
      (solve st.cationSolution st.anionSolution st.potentialSolution).update1
      (solve st.cationSolution st.anionSolution st.potentialSolution).update2
      st.relative_residual st.initial_residual newtparam hgt
    rw [p0, p1, p2]
    refine ⟨?_, ?_, ?_⟩ <;> simp only [BatteryPER.newton_update, hup, rejected_step]
  · obtain ⟨m, heq, hbefore, _⟩ := battery_backtrack_eq resnorm st.cationSolution
      st.anionSolution st.potentialSolution
      (solve st.cationSolution st.anionSolution st.potentialSolution).update0
      (solve st.cationSolution st.anionSolution st.potentialSolution).update1
      (solve st.cationSolution st.anionSolution st.potentialSolution).update2
      st.relative_residual st.initial_residual newtparam
    have hm : m ≤ newtparam.damp_it := by
      by_contra hcon
      have := (hbefore newtparam.damp_it (by omega)).2
      omega
    refine ⟨m, hm, ?_⟩
    rw [p0, p1, p2]
    simp only [BatteryPER.newton_update, BatteryPER.update_solution_pnp]
    rw [heq, finish_trial_state]
    split
    · exact Or.inl ⟨rfl, rfl, rfl⟩
    · exact Or.inr ⟨rfl, rfl, rfl⟩

/-- C12, refuted as stated: a solve that returns status -1 while its buffer
holds the update -5 for the iterate 10.  The Newton pass of `battery_PER.cpp`
applies the buffer: the iterate at the end of the pass is 5, not 10. -/
theorem battery_applies_update_of_failed_solve :
    (example_solver_failed [10] [0] [0]).status < 0
      ∧ (BatteryPER.newton_pass example_resnorm example_solver_failed example_params
          { cationSolution := [10], anionSolution := [0], potentialSolution := [0],
            initial_residual := 10, relative_residual := 1, newton_iteration := 0 })
        = { cationSolution := [5], anionSolution := [0], potentialSolution := [0],
            initial_residual := 10, relative_residual := 1 / 2, newton_iteration := 1 }
      ∧ ([5] : Vec) ≠ [10] := by
  refine ⟨by norm_num [example_solver_failed], ?_, by norm_num⟩
  have hsolve : example_solver_failed [10] [0] [0]
      = { status := -1, update0 := [-5], update1 := [0], update2 := [0] } := by
    norm_num [example_solver_failed]
  have hup : BatteryPER.newton_update example_resnorm example_solver_failed example_params
      { cationSolution := [10], anionSolution := [0], potentialSolution := [0],
        initial_residual := 10, relative_residual := 1, newton_iteration := 0 }
      = damped_step example_resnorm [10] [0] [0] [-5] [0] [0] 10 example_params.damp_factor 0 := by
    simp only [BatteryPER.newton_update, hsolve]
    apply battery_update_solution_pnp_least
    · exact Nat.zero_le _
    · intro j hj
      exact absurd hj (Nat.not_lt_zero j)
    · norm_num [trial_rr, example_resnorm, update_solution, damped]
  simp only [BatteryPER.newton_pass, hup]
  norm_num [damped_step, trial_rr, example_resnorm, update_solution, damped]

/-- C12 as amended, at a concrete input: the failed solve of the example at
the iterate 10; the full trial is accepted and the iterate becomes
iterate + update although the status is -1. -/
theorem battery_pass_ignores_solver_status_witness :
    (example_solver_failed [10] [0] [0]).status < 0
      ∧ (BatteryPER.newton_pass example_resnorm example_solver_failed example_params
          { cationSolution := [10], anionSolution := [0], potentialSolution := [0],
            initial_residual := 10, relative_residual := 1, newton_iteration := 0 }).cationSolution
        = update_solution [10]
            (damped (example_solver_failed [10] [0] [0]).update0 example_params.damp_factor 0) :=
  ⟨by norm_num [example_solver_failed],
    ((battery_pass_ignores_solver_status example_resnorm example_solver_failed example_params
      { cationSolution := [10], anionSolution := [0], potentialSolution := [0],
        initial_residual := 10, relative_residual := 1, newton_iteration := 0 }).2.2.1 0
      (Nat.zero_le _) (fun j hj => absurd hj (Nat.not_lt_zero j))
      (by norm_num [trial_rr, example_resnorm, update_solution, damped,
        example_solver_failed])).1⟩

/-- The example voltage 1 on a one-cell mesh with tolerance 1/2 and budget 1:
the only cell is marked, the mesh is refined to two cells, and the guard ends
the recursion one level down without touching `target_mesh`. -/
theorem example_electric_run (fuel : Nat) (t : Nat) :
    check_electric_field example_mesh_ops (1 / 2) 1 (fuel + 1 + 1)
        { mesh := 1, vector := [1] } t
      = some (example_one_level t) := by
  have hm : electric_marking example_mesh_ops (1 / 2) { mesh := 1, vector := [1] }
      = ([true], 1) := by
    norm_num [electric_marking, electric_error_vector, mark_cells, mark_from, example_mesh_ops]
  have ha : electric_adapt example_mesh_ops (1 / 2) { mesh := 1, vector := [1] }
      = { mesh := 2, vector := [1, 1] } := by
    simp only [electric_adapt, hm]
    simp [example_mesh_ops, List.replicate]
  rw [electric_field_marked _ _ _ _ _ _ (by norm_num [example_mesh_ops]) (by rw [hm]; simp),
    ha, electric_field_guard _ _ _ _ _ _ (by norm_num [example_mesh_ops]), hm]
  rfl

/-- The same run for `check_local_entropy`: cation 1, anion 0, voltage 1,
valencies 1 and -1, tolerance 1/2, budget 1. -/
theorem example_entropy_run (fuel : Nat) (t : Nat) :
    check_local_entropy example_mesh_ops 1 (-1) (1 / 2) 1 (fuel + 1 + 1)
        { mesh := 1, vector := [1] } { mesh := 1, vector := [0] } { mesh := 1, vector := [1] } t
      = some (example_one_level t) := by
  have hm : entropy_marking example_mesh_ops 1 (-1) (1 / 2)
      { mesh := 1, vector := [1] } { mesh := 1, vector := [0] } { mesh := 1, vector := [1] }
        = ([true], 1) := by
    norm_num [entropy_marking, entropy_error_vector, entropic_potential, mark_cells, mark_from,
      example_mesh_ops, vector_add, scale]
  have ha : entropy_adapt example_mesh_ops 1 (-1) (1 / 2)
      { cation := { mesh := 1, vector := [1] }, anion := { mesh := 1, vector := [0] },
        voltage := { mesh := 1, vector := [1] } }
      = { cation := { mesh := 2, vector := [1, 1] }, anion := { mesh := 2, vector := [0, 0] },
          voltage := { mesh := 2, vector := [1, 1] } } := by
    simp only [entropy_adapt, hm]
    simp [example_mesh_ops, List.replicate]
  rw [local_entropy_marked _ _ _ _ _ _ _ _ _ _ (by norm_num [example_mesh_ops])
    (by rw [hm]; simp), ha,
    local_entropy_guard _ _ _ _ _ _ _ _ _ _ (by norm_num [example_mesh_ops]), hm]
  rfl

/-- C17, at a failing input: budget `max_cells = 1`, input functions that are
zero on a two-cell mesh (every error entry is 0, nothing is marked), and a
caller whose `target_mesh` is some five-cell mesh.  Both functions return 0
without calling `refine`, but the guard's early return leaves `target_mesh`
at the five-cell mesh instead of setting it to the input mesh. -/
theorem unmarked_over_budget_keeps_stale_target :
    entropy_error_vector example_mesh_ops 1 (-1)
        { mesh := 2, vector := [0, 0] } { mesh := 2, vector := [0, 0] }
        { mesh := 2, vector := [0, 0] } = [0, 0]
      ∧ (entropy_marking example_mesh_ops 1 (-1) 1
        { mesh := 2, vector := [0, 0] } { mesh := 2, vector := [0, 0] }
        { mesh := 2, vector := [0, 0] }).2 = 0
      ∧ check_local_entropy example_mesh_ops 1 (-1) 1 1 3
          { mesh := 2, vector := [0, 0] } { mesh := 2, vector := [0, 0] }
          { mesh := 2, vector := [0, 0] } 5
        = some { levels := 0, target_mesh := 5, refine_calls := 0,
                 indicator_evals := 0, marked := 0 }
      ∧ electric_error_vector example_mesh_ops { mesh := 2, vector := [0, 0] } = [0, 0]
      ∧ (electric_marking example_mesh_ops 1 { mesh := 2, vector := [0, 0] }).2 = 0
      ∧ check_electric_field example_mesh_ops 1 1 3 { mesh := 2, vector := [0, 0] } 5
        = some { levels := 0, target_mesh := 5, refine_calls := 0,
                 indicator_evals := 0, marked := 0 }
      ∧ (5 : Nat) ≠ 2 := by
  refine ⟨?_, ?_, ?_, ?_, ?_, ?_, by decide⟩
  · norm_num [entropy_error_vector, entropic_potential, example_mesh_ops, vector_add, scale,
      List.replicate]
  · norm_num [entropy_marking, entropy_error_vector, entropic_potential, mark_cells, mark_from,
      example_mesh_ops, vector_add, scale, List.replicate]
  · exact local_entropy_guard example_mesh_ops 1 (-1) 1 1 2 _ _ _ 5
      (by norm_num [example_mesh_ops])
  · norm_num [electric_error_vector, example_mesh_ops, List.replicate]
  · norm_num [electric_marking, electric_error_vector, mark_cells, mark_from, example_mesh_ops,
      List.replicate]
  · exact electric_field_guard example_mesh_ops 1 1 2 _ 5 (by norm_num [example_mesh_ops])

/-- C18: whenever `check_local_entropy` and `check_electric_field` return, the
returned value is the number of `refine` calls of the call; a level that marks
a cell adds exactly one to both (one `refine`, `1 + num_refines`), and a level
that ends the recursion adds none. -/
theorem levels_count_refine_calls {Mesh : Type} (ops : MeshOps Mesh)
    (cation_valency anion_valency entropy_tol : ℚ) (max_cells : Int) (fuel : Nat)
    (cation anion voltage : DolfinFunction Mesh) (target_mesh : Mesh)
    (r1 r2 : Refinement Mesh)
    (h1 : check_local_entropy ops cation_valency anion_valency entropy_tol max_cells fuel
      cation anion voltage target_mesh = some r1)
    (h2 : check_electric_field ops entropy_tol max_cells fuel voltage target_mesh = some r2) :
    r1.levels = r1.refine_calls ∧ r2.levels = r2.refine_calls
      ∧ (∀ (n : Nat) (r : Refinement Mesh),
          (one_more_level n r).levels = 1 + r.levels
            ∧ (one_more_level n r).refine_calls = 1 + r.refine_calls)
      ∧ (∀ (n : Nat) (c a v : DolfinFunction Mesh) (t : Mesh),
          ¬ (max_cells > 0 ∧ (ops.num_cells v.mesh : Int) > max_cells) →
          (entropy_marking ops cation_valency anion_valency entropy_tol c a v).2 ≠ 0 →
          check_local_entropy ops cation_valency anion_valency entropy_tol max_cells (n + 1)
              c a v t
            = (check_local_entropy ops cation_valency anion_valency entropy_tol max_cells n
                (entropy_adapt ops cation_valency anion_valency entropy_tol
                  { cation := c, anion := a, voltage := v }).cation
                (entropy_adapt ops cation_valency anion_valency entropy_tol
                  { cation := c, anion := a, voltage := v }).anion
                (entropy_adapt ops cation_valency anion_valency entropy_tol
                  { cation := c, anion := a, voltage := v }).voltage t).map
              (one_more_level
                (entropy_marking ops cation_valency anion_valency entropy_tol c a v).2))
      ∧ (∀ (n : Nat) (v : DolfinFunction Mesh) (t : Mesh),
          ¬ (max_cells > 0 ∧ (ops.num_cells v.mesh : Int) > max_cells) →
          (electric_marking ops entropy_tol v).2 ≠ 0 →
          check_electric_field ops entropy_tol max_cells (n + 1) v t
            = (check_electric_field ops entropy_tol max_cells n
                (electric_adapt ops entropy_tol v) t).map
              (one_more_level (electric_marking ops entropy_tol v).2)) := by
  rw [check_local_entropy_eq_loop] at h1
  rw [check_electric_field_eq_loop] at h2
  exact ⟨(refine_loop_counts _ _ _ _ _ _ _ _ _ h1).1,
    (refine_loop_counts _ _ _ _ _ _ _ _ _ h2).1, fun _ _ => ⟨rfl, rfl⟩,
    fun n c a v t hg h0 => local_entropy_marked ops _ _ _ _ n c a v t hg h0,
    fun n v t hg h0 => electric_field_marked ops _ _ n v t hg h0⟩

/-- C18, at a concrete input: the one-cell examples with budget 1 return one
level after one `refine` call. -/
theorem levels_count_refine_calls_witness :
    check_local_entropy example_mesh_ops 1 (-1) (1 / 2) 1 (0 + 1 + 1)
          { mesh := 1, vector := [1] } { mesh := 1, vector := [0] }
          { mesh := 1, vector := [1] } 1
        = some (example_one_level 1)
      ∧ check_electric_field example_mesh_ops (1 / 2) 1 (0 + 1 + 1)
          { mesh := 1, vector := [1] } 1
        = some (example_one_level 1)
      ∧ (example_one_level 1).levels = (example_one_level 1).refine_calls :=
  ⟨example_entropy_run 0 1, example_electric_run 0 1,
    (levels_count_refine_calls example_mesh_ops 1 (-1) (1 / 2) 1 (0 + 1 + 1)
      { mesh := 1, vector := [1] } { mesh := 1, vector := [0] } { mesh := 1, vector := [1] } 1
      _ _ (example_entropy_run 0 1) (example_electric_run 0 1)).1⟩

/-- C19, at a failing input: one-cell mesh, budget `max_cells = 1`, an error
above the threshold (tolerance 1/2), and a caller whose `target_mesh` is some
seven-cell mesh.
Both functions mark the cell, call `refine` once (giving a two-cell mesh) and
return 1, but the guard ends the recursion one level down without assigning
`target_mesh`, which stays the seven-cell mesh instead of the refined one. -/
theorem refined_mesh_lost_at_guard :
    check_local_entropy example_mesh_ops 1 (-1) (1 / 2) 1 (1 + 1 + 1)
          { mesh := 1, vector := [1] } { mesh := 1, vector := [0] }
          { mesh := 1, vector := [1] } 7
        = some { levels := 1, target_mesh := 7, refine_calls := 1,
                 indicator_evals := 1, marked := 1 }
      ∧ check_electric_field example_mesh_ops (1 / 2) 1 (1 + 1 + 1)
          { mesh := 1, vector := [1] } 7
        = some { levels := 1, target_mesh := 7, refine_calls := 1,
                 indicator_evals := 1, marked := 1 }
      ∧ example_mesh_ops.refine 1
          (electric_marking example_mesh_ops (1 / 2) { mesh := 1, vector := [1] }).1 = 2
      ∧ (7 : Nat) ≠ 2 := by
  refine ⟨example_entropy_run 1 7, example_electric_run 1 7, ?_, by decide⟩
  have hm : electric_marking example_mesh_ops (1 / 2) { mesh := 1, vector := [1] }
      = ([true], 1) := by
    norm_num [electric_marking, electric_error_vector, mark_cells, mark_from, example_mesh_ops]
  rw [hm]
  simp [example_mesh_ops]

theorem mark_cells_marks_some (error_vector : Vec) (threshold : ℚ) (num_cells : Nat)
    (hlen : error_vector.length ≤ num_cells)
    (h : (mark_cells error_vector threshold num_cells).2 ≠ 0) :
    0 < (mark_cells error_vector threshold num_cells).1.count true := by
  obtain ⟨h1, _, h3⟩ := mark_cells_spec error_vector threshold num_cells
  rw [h1] at h
  have hpos : 0 < error_vector.countP (fun e => decide (e > threshold)) := Nat.pos_of_ne_zero h
  obtain ⟨e, hmem, he⟩ := List.countP_pos_iff.mp hpos
  obtain ⟨j, hj, hje⟩ := List.getElem_of_mem hmem
  have hget : error_vector[j]? = some e := by
    rw [List.getElem?_eq_getElem hj, hje]
  have hmark := (h3 j).mpr ⟨by omega, e, hget, by simpa using he⟩
  have hin : true ∈ (mark_cells error_vector threshold num_cells).1 :=
    List.getElem?_mem hmark
  exact List.count_pos_iff.mpr hin

/-- C20, as the code has it.  Assume that `max_cells > 0`, that the input mesh
has at most `max_cells` cells, and that `refine` returns a mesh with strictly
more cells whenever the level marks a cell.  Then `check_local_entropy` and
`check_electric_field` return, after at most `max_cells - n0 + 1` nested
levels, a value of at most `max_cells - n0 + 1`.  The overloads without
`max_cells` pass `-1`, which switches the guard off: they return `k` if level
`k` is the first to mark no cell, and they never return if every level marks
a cell. -/
theorem refinement_recursion_termination {Mesh : Type} (ops : MeshOps Mesh)
    (cation_valency anion_valency entropy_tol : ℚ) (max_cells : Int)
    (cation anion voltage : DolfinFunction Mesh) (target_mesh : Mesh)
    (hpos : max_cells > 0) (hn0 : (ops.num_cells voltage.mesh : Int) ≤ max_cells)
    (hgrowS : ∀ c a v : DolfinFunction Mesh,
      (entropy_marking ops cation_valency anion_valency entropy_tol c a v).2 ≠ 0 →
        ops.num_cells v.mesh < ops.num_cells (ops.refine v.mesh
          (entropy_marking ops cation_valency anion_valency entropy_tol c a v).1))
    (hgrowE : ∀ v : DolfinFunction Mesh,
      (electric_marking ops entropy_tol v).2 ≠ 0 →
        ops.num_cells v.mesh < ops.num_cells (ops.refine v.mesh
          (electric_marking ops entropy_tol v).1)) :
    (∀ fuel : Nat, max_cells - (ops.num_cells voltage.mesh : Int) + 2 ≤ (fuel : Int) →
        ∃ r, check_local_entropy ops cation_valency anion_valency entropy_tol max_cells fuel
              cation anion voltage target_mesh = some r
          ∧ (r.levels : Int) ≤ max_cells - (ops.num_cells voltage.mesh : Int) + 1)
      ∧ (∀ fuel : Nat, max_cells - (ops.num_cells voltage.mesh : Int) + 2 ≤ (fuel : Int) →
        ∃ r, check_electric_field ops entropy_tol max_cells fuel voltage target_mesh = some r
          ∧ (r.levels : Int) ≤ max_cells - (ops.num_cells voltage.mesh : Int) + 1)
      ∧ (∀ k : Nat,
          (∀ j, j < k → (electric_marking ops entropy_tol
            ((electric_adapt ops entropy_tol)^[j] voltage)).2 ≠ 0) →
          (electric_marking ops entropy_tol
            ((electric_adapt ops entropy_tol)^[k] voltage)).2 = 0 →
          ∀ fuel, k < fuel →
            ∃ r, check_electric_field_unbounded ops entropy_tol fuel voltage target_mesh = some r
              ∧ r.levels = k
              ∧ r.target_mesh = ((electric_adapt ops entropy_tol)^[k] voltage).mesh)
      ∧ ((∀ j, (electric_marking ops entropy_tol
            ((electric_adapt ops entropy_tol)^[j] voltage)).2 ≠ 0) →
          ∀ fuel, check_electric_field_unbounded ops entropy_tol fuel voltage target_mesh = none)
      ∧ (∀ k : Nat,
          (∀ j, j < k → (entropy_marking ops cation_valency anion_valency entropy_tol
            ((entropy_adapt ops cation_valency anion_valency entropy_tol)^[j]
              { cation := cation, anion := anion, voltage := voltage }).cation
            ((entropy_adapt ops cation_valency anion_valency entropy_tol)^[j]
              { cation := cation, anion := anion, voltage := voltage }).anion
            ((entropy_adapt ops cation_valency anion_valency entropy_tol)^[j]
              { cation := cation, anion := anion, voltage := voltage }).voltage).2 ≠ 0) →
          (entropy_marking ops cation_valency anion_valency entropy_tol
            ((entropy_adapt ops cation_valency anion_valency entropy_tol)^[k]
              { cation := cation, anion := anion, voltage := voltage }).cation
            ((entropy_adapt ops cation_valency anion_valency entropy_tol)^[k]
              { cation := cation, anion := anion, voltage := voltage }).anion
            ((entropy_adapt ops cation_valency anion_valency entropy_tol)^[k]
              { cation := cation, anion := anion, voltage := voltage }).voltage).2 = 0 →
          ∀ fuel, k < fuel →
            ∃ r, check_local_entropy_unbounded ops cation_valency anion_valency entropy_tol
                  fuel cation anion voltage target_mesh = some r
              ∧ r.levels = k
              ∧ r.target_mesh
                = ((entropy_adapt ops cation_valency anion_valency entropy_tol)^[k]
                    { cation := cation, anion := anion, voltage := voltage }).voltage.mesh)
      ∧ ((∀ j, (entropy_marking ops cation_valency anion_valency entropy_tol
            ((entropy_adapt ops cation_valency anion_valency entropy_tol)^[j]
              { cation := cation, anion := anion, voltage := voltage }).cation
            ((entropy_adapt ops cation_valency anion_valency entropy_tol)^[j]
              { cation := cation, anion := anion, voltage := voltage }).anion
            ((entropy_adapt ops cation_valency anion_valency entropy_tol)^[j]
              { cation := cation, anion := anion, voltage := voltage }).voltage).2 ≠ 0) →
          ∀ fuel, check_local_entropy_unbounded ops cation_valency anion_valency entropy_tol
            fuel cation anion voltage target_mesh = none) := by
  have hoff : ∀ n : Nat, ¬ budget_guard (-1) n := by
    intro n hg
    unfold budget_guard at hg
    omega
  refine ⟨?_, ?_, ?_, ?_, ?_, ?_⟩
  · intro fuel hfuel
    obtain ⟨d, hd⟩ : ∃ d : Nat, (d : Int)
        = max_cells - (ops.num_cells voltage.mesh : Int) + 1 :=
      ⟨(max_cells - (ops.num_cells voltage.mesh : Int) + 1).toNat, by omega⟩
    obtain ⟨r, hr, hle⟩ := refine_loop_bounded
      (fun s : EntropyFields Mesh => ops.num_cells s.voltage.mesh) (fun s => s.voltage.mesh)
      (fun s => (entropy_marking ops cation_valency anion_valency entropy_tol
        s.cation s.anion s.voltage).2)
      (entropy_adapt ops cation_valency anion_valency entropy_tol) max_cells hpos
      (fun s _ h0 => hgrowS s.cation s.anion s.voltage h0) d
      { cation := cation, anion := anion, voltage := voltage } target_mesh (by simp only; omega)
    have hmore := refine_loop_more_fuel _ _ _ _ _ _ _ _ _ hr (fuel - (d + 1))
    have hf : d + 1 + (fuel - (d + 1)) = fuel := by omega
    rw [hf] at hmore
    exact ⟨r, by rw [check_local_entropy_eq_loop]; exact hmore, by omega⟩
  · intro fuel hfuel
    obtain ⟨d, hd⟩ : ∃ d : Nat, (d : Int)
        = max_cells - (ops.num_cells voltage.mesh : Int) + 1 :=
      ⟨(max_cells - (ops.num_cells voltage.mesh : Int) + 1).toNat, by omega⟩
    obtain ⟨r, hr, hle⟩ := refine_loop_bounded
      (fun v : DolfinFunction Mesh => ops.num_cells v.mesh) (fun v => v.mesh)
      (fun v => (electric_marking ops entropy_tol v).2)
      (electric_adapt ops entropy_tol) max_cells hpos
      (fun v _ h0 => hgrowE v h0) d voltage target_mesh (by simp only; omega)
    have hmore := refine_loop_more_fuel _ _ _ _ _ _ _ _ _ hr (fuel - (d + 1))
    have hf : d + 1 + (fuel - (d + 1)) = fuel := by omega
    rw [hf] at hmore
    exact ⟨r, by rw [check_electric_field_eq_loop]; exact hmore, by omega⟩
  · intro k hbefore hstop fuel hfuel
    obtain ⟨_, _, h3⟩ := refine_loop_run
      (fun v : DolfinFunction Mesh => ops.num_cells v.mesh) (fun v => v.mesh)
      (fun v => (electric_marking ops entropy_tol v).2)
      (electric_adapt ops entropy_tol) (-1) fuel voltage target_mesh k
      (fun j hj => ⟨hoff _, hbefore j hj⟩)
    obtain ⟨r, hr, e1, _, e3⟩ := h3 hfuel (hoff _) hstop
    exact ⟨r, by rw [check_electric_field_unbounded, check_electric_field_eq_loop]; exact hr,
      e1, e3⟩
  · intro hall fuel
    obtain ⟨h1, _, _⟩ := refine_loop_run
      (fun v : DolfinFunction Mesh => ops.num_cells v.mesh) (fun v => v.mesh)
      (fun v => (electric_marking ops entropy_tol v).2)
      (electric_adapt ops entropy_tol) (-1) fuel voltage target_mesh fuel
      (fun j _ => ⟨hoff _, hall j⟩)
    rw [check_electric_field_unbounded, check_electric_field_eq_loop]
    exact h1 (le_refl fuel)
  · intro k hbefore hstop fuel hfuel
    obtain ⟨_, _, h3⟩ := refine_loop_run
      (fun s : EntropyFields Mesh => ops.num_cells s.voltage.mesh) (fun s => s.voltage.mesh)
      (fun s => (entropy_marking ops cation_valency anion_valency entropy_tol
        s.cation s.anion s.voltage).2)
      (entropy_adapt ops cation_valency anion_valency entropy_tol) (-1) fuel
      { cation := cation, anion := anion, voltage := voltage } target_mesh k
      (fun j hj => ⟨hoff _, hbefore j hj⟩)
    obtain ⟨r, hr, e1, _, e3⟩ := h3 hfuel (hoff _) hstop
    exact ⟨r, by rw [check_local_entropy_unbounded, check_local_entropy_eq_loop]; exact hr,
      e1, e3⟩
  · intro hall fuel
    obtain ⟨h1, _, _⟩ := refine_loop_run
      (fun s : EntropyFields Mesh => ops.num_cells s.voltage.mesh) (fun s => s.voltage.mesh)
      (fun s => (entropy_marking ops cation_valency anion_valency entropy_tol
        s.cation s.anion s.voltage).2)
      (entropy_adapt ops cation_valency anion_valency entropy_tol) (-1) fuel
      { cation := cation, anion := anion, voltage := voltage } target_mesh fuel
      (fun j _ => ⟨hoff _, hall j⟩)
    rw [check_local_entropy_unbounded, check_local_entropy_eq_loop]
    exact h1 (le_refl fuel)

theorem example_electric_error_length (v : DolfinFunction Nat) :
    (electric_error_vector example_mesh_ops v).length ≤ example_mesh_ops.num_cells v.mesh := by
  simp [electric_error_vector, example_mesh_ops]

theorem example_entropy_error_length (cation_valency anion_valency : ℚ)
    (c a v : DolfinFunction Nat) :
    (entropy_error_vector example_mesh_ops cation_valency anion_valency c a v).length
      ≤ example_mesh_ops.num_cells v.mesh := by
  simp only [entropy_error_vector, entropic_potential, example_mesh_ops, vector_add, scale,
    List.length_map, List.length_zipWith, List.length_replicate]
  omega

theorem example_electric_grows (tol : ℚ) (v : DolfinFunction Nat)
    (h : (electric_marking example_mesh_ops tol v).2 ≠ 0) :
    example_mesh_ops.num_cells v.mesh
      < example_mesh_ops.num_cells (example_mesh_ops.refine v.mesh
          (electric_marking example_mesh_ops tol v).1) := by
  have hpos := mark_cells_marks_some _ _ _ (example_electric_error_length v) h
  have hr : example_mesh_ops.num_cells (example_mesh_ops.refine v.mesh
      (electric_marking example_mesh_ops tol v).1)
        = v.mesh + (electric_marking example_mesh_ops tol v).1.count true := rfl
  have hn : example_mesh_ops.num_cells v.mesh = v.mesh := rfl
  rw [hr, hn]
  unfold electric_marking
  omega

theorem example_entropy_grows (cation_valency anion_valency tol : ℚ)
    (c a v : DolfinFunction Nat)
    (h : (entropy_marking example_mesh_ops cation_valency anion_valency tol c a v).2 ≠ 0) :
    example_mesh_ops.num_cells v.mesh
      < example_mesh_ops.num_cells (example_mesh_ops.refine v.mesh
          (entropy_marking example_mesh_ops cation_valency anion_valency tol c a v).1) := by
  have hpos := mark_cells_marks_some _ _ _
    (example_entropy_error_length cation_valency anion_valency c a v) h
  have hr : example_mesh_ops.num_cells (example_mesh_ops.refine v.mesh
      (entropy_marking example_mesh_ops cation_valency anion_valency tol c a v).1)
        = v.mesh
          + (entropy_marking example_mesh_ops cation_valency anion_valency tol c a v).1.count
              true := rfl
  have hn : example_mesh_ops.num_cells v.mesh = v.mesh := rfl
  rw [hr, hn]
  unfold entropy_marking
  omega

/-- C20 as amended, at a concrete input: the example mesh services, where
`refine` splits every marked cell, with budget `max_cells = 1` and one-cell
input functions; both functions return at most one level once two nested
calls are allowed. -/
theorem refinement_recursion_termination_witness :
    (1 : Int) > 0
      ∧ ((example_mesh_ops.num_cells 1 : Nat) : Int) ≤ 1
      ∧ (∀ fuel : Nat, (1 : Int) - ((example_mesh_ops.num_cells 1 : Nat) : Int) + 2 ≤ (fuel : Int) →
          ∃ r, check_local_entropy example_mesh_ops 1 (-1) (1 / 2) 1 fuel
                { mesh := 1, vector := [1] } { mesh := 1, vector := [0] }
                { mesh := 1, vector := [1] } 1 = some r
            ∧ (r.levels : Int) ≤ 1 - ((example_mesh_ops.num_cells 1 : Nat) : Int) + 1)
      ∧ (∀ fuel : Nat, (1 : Int) - ((example_mesh_ops.num_cells 1 : Nat) : Int) + 2 ≤ (fuel : Int) →
          ∃ r, check_electric_field example_mesh_ops (1 / 2) 1 fuel
                { mesh := 1, vector := [1] } 1 = some r
            ∧ (r.levels : Int) ≤ 1 - ((example_mesh_ops.num_cells 1 : Nat) : Int) + 1) :=
  ⟨by norm_num, by norm_num [example_mesh_ops],
    (refinement_recursion_termination example_mesh_ops 1 (-1) (1 / 2) 1
      { mesh := 1, vector := [1] } { mesh := 1, vector := [0] } { mesh := 1, vector := [1] } 1
      (by norm_num) (by norm_num [example_mesh_ops])
      (example_entropy_grows 1 (-1) (1 / 2)) (example_electric_grows (1 / 2))).1,
    (refinement_recursion_termination example_mesh_ops 1 (-1) (1 / 2) 1
      { mesh := 1, vector := [1] } { mesh := 1, vector := [0] } { mesh := 1, vector := [1] } 1
      (by norm_num) (by norm_num [example_mesh_ops])
      (example_entropy_grows 1 (-1) (1 / 2)) (example_electric_grows (1 / 2))).2.1⟩

theorem example_electric_never_unmarked : ∀ j : Nat,
    1 ≤ ((electric_adapt example_mesh_ops 1)^[j] { mesh := 1, vector := [1] }).mesh
      ∧ ((electric_adapt example_mesh_ops 1)^[j] { mesh := 1, vector := [1] }).vector
        = List.replicate
            ((electric_adapt example_mesh_ops 1)^[j] { mesh := 1, vector := [1] }).mesh 1
      ∧ (electric_marking example_mesh_ops 1
          ((electric_adapt example_mesh_ops 1)^[j] { mesh := 1, vector := [1] })).2 ≠ 0 := by
  have hstep : ∀ v : DolfinFunction Nat, 1 ≤ v.mesh → v.vector = List.replicate v.mesh 1 →
      (electric_marking example_mesh_ops 1 v).2 ≠ 0
        ∧ 1 ≤ (electric_adapt example_mesh_ops 1 v).mesh
        ∧ (electric_adapt example_mesh_ops 1 v).vector
          = List.replicate (electric_adapt example_mesh_ops 1 v).mesh 1 := by
    intro v hm hv
    have hhead : v.vector.headD 0 = 1 := by
      rw [hv]
      obtain ⟨n, hn⟩ : ∃ n, v.mesh = n + 1 := ⟨v.mesh - 1, by omega⟩
      rw [hn]
      rfl
    refine ⟨?_, ?_, ?_⟩
    · rw [electric_marking, (mark_cells_spec _ _ _).1]
      simp only [electric_error_vector, example_mesh_ops, hhead, List.map_replicate, abs_one,
        List.countP_replicate]
      norm_num
      omega
    · simp only [electric_adapt, example_mesh_ops]
      omega
    · simp only [electric_adapt, example_mesh_ops, hhead]
  intro j
  induction j with
  | zero =>
    have h := hstep { mesh := 1, vector := [1] } (le_refl 1) rfl
    exact ⟨le_refl 1, rfl, h.1⟩
  | succ j ih =>
    obtain ⟨h1, h2, _⟩ := ih
    obtain ⟨_, k2, k3⟩ := hstep _ h1 h2
    rw [Function.iterate_succ_apply']
    exact ⟨k2, k3, (hstep _ k2 k3).1⟩

/-- C20, refuted as stated: for the overload of `check_electric_field`
without `max_cells`, the example voltage 1 with tolerance 1 marks every cell
on every level, and the recursion never returns, however many nested calls
are allowed. -/
theorem unbounded_refinement_never_returns :
    ¬ ∃ fuel, (check_electric_field_unbounded example_mesh_ops 1 fuel
        { mesh := 1, vector := [1] } 1).isSome = true := by
  rintro ⟨fuel, h⟩
  have hoff : ∀ n : Nat, ¬ budget_guard (-1) n := by
    intro n hg
    unfold budget_guard at hg
    omega
  obtain ⟨h1, _, _⟩ := refine_loop_run
    (fun v : DolfinFunction Nat => example_mesh_ops.num_cells v.mesh) (fun v => v.mesh)
    (fun v => (electric_marking example_mesh_ops 1 v).2)
    (electric_adapt example_mesh_ops 1) (-1) fuel { mesh := 1, vector := [1] } 1 fuel
    (fun j _ => ⟨hoff _, (example_electric_never_unmarked j).2.2⟩)
  rw [check_electric_field_unbounded, check_electric_field_eq_loop, h1 (le_refl fuel)] at h
  exact absurd h (by simp)

/-- C21: in `check_local_entropy` the error vector is assembled from the two
entropic potentials and their recovered gradients, and each entropic potential
equals valency times voltage plus log-density entry by entry, where voltage is
the input voltage interpolated into its own function space: wherever the
interpolated voltage has the entry `v` and the species the entry `c`, the
potential has the entry `valency * v + c`, and it has no other entries. -/
theorem entropic_potential_entrywise {Mesh : Type} (ops : MeshOps Mesh)
    (cation_valency anion_valency : ℚ) (cation anion voltage : DolfinFunction Mesh) :
    entropy_error_vector ops cation_valency anion_valency cation anion voltage
        = ops.entropy_error voltage.mesh
            (ops.gradient_recovery voltage.mesh
              (entropic_potential ops cation_valency cation voltage))
            (entropic_potential ops cation_valency cation voltage)
            (ops.gradient_recovery voltage.mesh
              (entropic_potential ops anion_valency anion voltage))
            (entropic_potential ops anion_valency anion voltage)
      ∧ (∀ (j : Nat) (v c : ℚ), (ops.interpolate voltage.mesh voltage)[j]? = some v →
          cation.vector[j]? = some c →
          (entropic_potential ops cation_valency cation voltage)[j]?
            = some (cation_valency * v + c))
      ∧ (∀ (j : Nat) (v c : ℚ), (ops.interpolate voltage.mesh voltage)[j]? = some v →
          anion.vector[j]? = some c →
          (entropic_potential ops anion_valency anion voltage)[j]?
            = some (anion_valency * v + c))
      ∧ (entropic_potential ops cation_valency cation voltage).length
          = min (ops.interpolate voltage.mesh voltage).length cation.vector.length
      ∧ (entropic_potential ops anion_valency anion voltage).length
          = min (ops.interpolate voltage.mesh voltage).length anion.vector.length := by
  refine ⟨rfl, fun j v c hv hc => ?_, fun j v c hv hc => ?_, ?_, ?_⟩
  · simp only [entropic_potential, vector_add, scale, List.getElem?_zipWith, List.getElem?_map,
      hv, hc, Option.map_some', Option.some.injEq]
    simp [mul_comm]
  · simp only [entropic_potential, vector_add, scale, List.getElem?_zipWith, List.getElem?_map,
      hv, hc, Option.map_some', Option.some.injEq]
    simp [mul_comm]
  · simp [entropic_potential, vector_add, scale]
  · simp [entropic_potential, vector_add, scale]

/-- What `compute_entropy_potential` returns, for every input: the
interpolated components 1, 2, ... of the solution themselves.  Neither the
valencies nor component 0 enter the result. -/
theorem compute_entropy_potential_eq (interpolate : Nat → Vec → Vec) (solution : List Vec)
    (valencies : List ℚ) :
    compute_entropy_potential interpolate solution valencies
      = (List.range (solution.length - 1)).map
          (fun k => interpolate (k + 1) (solution.getD (k + 1) [])) := by
  simp only [compute_entropy_potential, entropy_potential_pass]

/-- C22, at the failing input: potential 1 and log-densities 0 on one degree
of freedom, valencies `{0.0, -1.0, 1.0}` as in `main`, interpolation the
identity.  `compute_entropy_potential` returns the log-densities `[0]`, `[0]`;
valency times potential plus log-density is `[-1]`, `[1]`.  The scaled
potential is added to itself (it ends as `[-2]`, `[2]`) and never to the
function that is returned. -/
theorem compute_entropy_potential_omits_potential :
    compute_entropy_potential (fun _ f => f) [[1], [0], [0]] [0, -1, 1] = [[0], [0]]
      ∧ (List.range 2).map
          (fun k => entropy_potential_spec (fun _ f => f) [[1], [0], [0]] [0, -1, 1] (k + 1))
        = [[-1], [1]]
      ∧ (entropy_potential_pass (fun _ f => f) [[1], [0], [0]] [0, -1, 1] 1).potential = [-2]
      ∧ (entropy_potential_pass (fun _ f => f) [[1], [0], [0]] [0, -1, 1] 2).potential = [2]
      ∧ compute_entropy_potential (fun _ f => f) [[1], [0], [0]] [0, -1, 1]
        ≠ (List.range 2).map
          (fun k => entropy_potential_spec (fun _ f => f) [[1], [0], [0]] [0, -1, 1] (k + 1)) := by
  refine ⟨?_, ?_, ?_, ?_, ?_⟩
  · rw [compute_entropy_potential_eq]
    decide
  · norm_num [entropy_potential_spec, vector_add, scale, List.range, List.range.loop]
  · norm_num [entropy_potential_pass, vector_add, scale]
  · norm_num [entropy_potential_pass, vector_add, scale]
  · rw [compute_entropy_potential_eq]
    norm_num [entropy_potential_spec, vector_add, scale, List.range, List.range.loop]

theorem fix_point_search_unflagged (getitem : Int → ℚ) (fuel : Nat) (s : BatteryPER.FixPoint)
    (h : s.flag_index = false) :
    BatteryPER.fix_point_search getitem fuel s = some s := by
  cases fuel <;> simp [BatteryPER.fix_point_search, h]

/-- C27: for every content of the boundary marker vector and every amount of
fuel, the search loop of `battery_PER.cpp` returns without executing its body,
the pinned index is `3 * 0 + 2 = 2`, and the residual entry zeroed with it is
entry 2. -/
theorem fix_point_index_is_two (getitem : Int → ℚ) (fuel : Nat) :
    BatteryPER.fix_point_index getitem fuel = some (2, 0)
      ∧ ∀ b : Vec, (BatteryPER.fix_point_index getitem fuel).map
          (fun r => BatteryPER.pin_residual b r.1) = some (b.set 2 0) := by
  have h : BatteryPER.fix_point_index getitem fuel = some (2, 0) := by
    rw [BatteryPER.fix_point_index, fix_point_search_unflagged getitem fuel _ rfl]
    rfl
  refine ⟨h, fun b => ?_⟩
  rw [h]
  rfl

/-- C28: for a positive `DOLFIN_EPS` and every point with at least one
coordinate of absolute value at most half the box length, `inside` of
`PeriodicBoundary` and of `PeriodicBoundary1D` returns `on_boundary`;
`PeriodicBoundary::map` makes `y` equal to `x`, and `PeriodicBoundary1D::map`
copies coordinate 0 and leaves the other coordinates of `y` as they were. -/
theorem periodic_boundary_degenerate (DOLFIN_EPS : ℚ) (heps : 0 < DOLFIN_EPS)
    (x y : Fin 3 → ℚ) (on_boundary : Bool)
    (hx : |x 0| ≤ BatteryPER.Lx / 2 ∨ |x 1| ≤ BatteryPER.Ly / 2 ∨ |x 2| ≤ BatteryPER.Lz / 2) :
    BatteryPER.PeriodicBoundary.inside DOLFIN_EPS x on_boundary = on_boundary
      ∧ BatteryPER.PeriodicBoundary1D.inside DOLFIN_EPS x on_boundary = on_boundary
      ∧ BatteryPER.PeriodicBoundary.map x y = x
      ∧ BatteryPER.PeriodicBoundary1D.map x y 0 = x 0
      ∧ (∀ i : Fin 3, i ≠ 0 → BatteryPER.PeriodicBoundary1D.map x y i = y i) := by
  have hor : (decide (|x 0| < BatteryPER.Lx / 2 + 5 * DOLFIN_EPS)
      || decide (|x 1| < BatteryPER.Ly / 2 + 5 * DOLFIN_EPS)
      || decide (|x 2| < BatteryPER.Lz / 2 + 5 * DOLFIN_EPS)) = true := by
    simp only [Bool.or_eq_true, decide_eq_true_eq]
    rcases hx with h | h | h
    · exact Or.inl (Or.inl (by linarith))
    · exact Or.inl (Or.inr (by linarith))
    · exact Or.inr (by linarith)
  refine ⟨?_, ?_, ?_, ?_, ?_⟩
  · rw [BatteryPER.PeriodicBoundary.inside, hor, Bool.and_true]
  · rw [BatteryPER.PeriodicBoundary1D.inside, hor, Bool.and_true]
  · funext i
    simp only [BatteryPER.PeriodicBoundary.map]
    fin_cases i <;> simp [Function.update]
  · simp [BatteryPER.PeriodicBoundary1D.map]
  · intro i hi
    simp [BatteryPER.PeriodicBoundary1D.map, Function.update, hi]

/-- C28 at a corner of the box: `DOLFIN_EPS = 3e-16`, `x = (6, -6, 6)`, on the
boundary. -/
theorem periodic_boundary_degenerate_witness :
    (0 : ℚ) < 3 / 10 ^ 16
      ∧ BatteryPER.PeriodicBoundary.inside (3 / 10 ^ 16) ![6, -6, 6] true = true
      ∧ BatteryPER.PeriodicBoundary1D.inside (3 / 10 ^ 16) ![6, -6, 6] true = true
      ∧ BatteryPER.PeriodicBoundary.map ![6, -6, 6] ![0, 0, 0] = ![6, -6, 6]
      ∧ BatteryPER.PeriodicBoundary1D.map ![6, -6, 6] ![0, 0, 0] 0 = (![6, -6, 6] : Fin 3 → ℚ) 0
      ∧ (∀ i : Fin 3, i ≠ 0 →
          BatteryPER.PeriodicBoundary1D.map ![6, -6, 6] ![0, 0, 0] i
            = (![0, 0, 0] : Fin 3 → ℚ) i) :=
  ⟨by norm_num,
    periodic_boundary_degenerate (3 / 10 ^ 16) (by norm_num) ![6, -6, 6] ![0, 0, 0] true
      (Or.inl (by norm_num [BatteryPER.Lx]))⟩

/-- C29: if the surface functional is linear in its constant charge and the
unit surface integral is not zero, the corrected surface charge is
`-(cationNetCharge - anionNetCharge) / S`, the surface net charge assembled
again is `-(cationNetCharge - anionNetCharge)`, and the total charge printed is
exactly 0. -/
theorem charge_neutral_after_correction (volumeCharge : Vec → ℚ) (surfaceCharge : ℚ → ℚ)
    (initial_cation initial_anion : Vec)
    (hlinear : ∀ c, surfaceCharge c = c * surfaceCharge 1) (hS : surfaceCharge 1 ≠ 0) :
    (BatteryPER.charge_sanity volumeCharge surfaceCharge initial_cation
        initial_anion).correctedSurfaceCharge
        = -(volumeCharge initial_cation - volumeCharge initial_anion) / surfaceCharge 1
      ∧ (BatteryPER.charge_sanity volumeCharge surfaceCharge initial_cation
          initial_anion).surfaceNetCharge
        = -(volumeCharge initial_cation - volumeCharge initial_anion)
      ∧ (BatteryPER.charge_sanity volumeCharge surfaceCharge initial_cation
          initial_anion).cationNetCharge = volumeCharge initial_cation
      ∧ (BatteryPER.charge_sanity volumeCharge surfaceCharge initial_cation
          initial_anion).anionNetCharge = volumeCharge initial_anion
      ∧ (BatteryPER.charge_sanity volumeCharge surfaceCharge initial_cation
          initial_anion).total_charge = 0 := by
  have hnet : surfaceCharge
      (-(volumeCharge initial_cation - volumeCharge initial_anion) / surfaceCharge 1)
      = -(volumeCharge initial_cation - volumeCharge initial_anion) := by
    rw [hlinear, div_mul_cancel₀ _ hS]
  refine ⟨rfl, hnet, rfl, rfl, ?_⟩
  simp only [BatteryPER.charge_sanity]
  rw [hnet]
  ring

/-- C29 at a concrete input: cation charge 5, anion charge 2, unit surface
integral 2; the corrected surface charge is -3/2 and the total is 0. -/
theorem charge_neutral_after_correction_witness :
    (∀ c, example_surface_charge c = c * example_surface_charge 1)
      ∧ example_surface_charge 1 ≠ 0
      ∧ (BatteryPER.charge_sanity example_volume_charge example_surface_charge [2, 3]
          [1, 1]).correctedSurfaceCharge
        = -(example_volume_charge [2, 3] - example_volume_charge [1, 1])
            / example_surface_charge 1
      ∧ (BatteryPER.charge_sanity example_volume_charge example_surface_charge [2, 3]
          [1, 1]).surfaceNetCharge
        = -(example_volume_charge [2, 3] - example_volume_charge [1, 1])
      ∧ (BatteryPER.charge_sanity example_volume_charge example_surface_charge [2, 3]
          [1, 1]).cationNetCharge = example_volume_charge [2, 3]
      ∧ (BatteryPER.charge_sanity example_volume_charge example_surface_charge [2, 3]
          [1, 1]).anionNetCharge = example_volume_charge [1, 1]
      ∧ (BatteryPER.charge_sanity example_volume_charge example_surface_charge [2, 3]
          [1, 1]).total_charge = 0 :=
  ⟨fun c => by norm_num [example_surface_charge],
    by norm_num [example_surface_charge],
    charge_neutral_after_correction example_volume_charge example_surface_charge [2, 3] [1, 1]
      (fun c => by norm_num [example_surface_charge])
      (by norm_num [example_surface_charge])⟩

theorem adapt_loop_done (refines : Nat → Nat) (fuel : Nat) (s : BatteryPER.AdaptState)
    (h : s.adaptive_convergence = true) :
    BatteryPER.adapt_loop refines fuel s = some s := by
  cases fuel <;> simp [BatteryPER.adapt_loop, h]

/-- The adaptivity loop from a state reached by `passes` passes that all
asked for refinement: with fuel for the passes left up to six, it returns, and
it stops at the first pass without refinement or at the sixth pass. -/
theorem adapt_loop_run (refines : Nat → Nat) :
    ∀ (fuel : Nat) (s : BatteryPER.AdaptState), s.adaptive_convergence = false →
      s.num_adapts = s.passes → s.passes ≤ 5 → 6 ≤ fuel + s.passes →
      (∀ j, j < s.passes → refines j ≠ 0) →
      ∃ r, BatteryPER.adapt_loop refines fuel s = some r
        ∧ r.adaptive_convergence = true
        ∧ s.passes + 1 ≤ r.passes ∧ r.passes ≤ 6
        ∧ (∀ j, j + 1 < r.passes → refines j ≠ 0)
        ∧ ((refines (r.passes - 1) = 0 ∧ r.num_adapts = r.passes - 1)
          ∨ (refines (r.passes - 1) ≠ 0 ∧ r.passes = 6 ∧ r.num_adapts = 6)) := by
  intro fuel
  induction fuel with
  | zero =>
    intro s _ _ h5 h6 _
    omega
  | succ fuel ih =>
    intro s hc hn h5 h6 hall
    by_cases h0 : refines s.passes = 0
    · refine ⟨{ s with passes := s.passes + 1, adaptive_convergence := true }, ?_, rfl,
        le_refl _, ?_, ?_, ?_⟩
      · rw [BatteryPER.adapt_loop, if_neg (by simp [hc])]
        simp only [BatteryPER.adapt_pass, h0, if_true]
        exact adapt_loop_done refines fuel _ rfl
      · show s.passes + 1 ≤ 6
        omega
      · intro j hj
        exact hall j (by simpa using hj)
      · left
        refine ⟨by simpa using h0, ?_⟩
        show s.num_adapts = s.passes + 1 - 1
        omega
    · have hmod : (s.num_adapts + 1) % 2 ^ 32 = s.passes + 1 := by
        rw [hn]
        omega
      by_cases h6p : s.passes = 5
      · refine ⟨{ passes := s.passes + 1, num_adapts := s.passes + 1,
                  adaptive_convergence := true }, ?_, rfl, le_refl _, ?_, ?_, ?_⟩
        · rw [BatteryPER.adapt_loop, if_neg (by simp [hc])]
          simp only [BatteryPER.adapt_pass, h0, if_false, hmod]
          rw [if_pos (by simp only [BatteryPER.max_adapts]; omega)]
          exact adapt_loop_done refines fuel _ rfl
        · show s.passes + 1 ≤ 6
          omega
        · intro j hj
          exact hall j (by simpa using hj)
        · right
          refine ⟨by simpa using h0, ?_, ?_⟩
          · show s.passes + 1 = 6
            omega
          · show s.passes + 1 = 6
            omega
      · have hstep : BatteryPER.adapt_pass (refines s.passes) s
            = { s with passes := s.passes + 1, num_adapts := s.passes + 1 } := by
          simp only [BatteryPER.adapt_pass, h0, if_false, hmod]
          rw [if_neg (by simp only [BatteryPER.max_adapts]; omega)]
        obtain ⟨r, hr, hconv, hlo, hhi, hbefore, hlast⟩ :=
          ih { s with passes := s.passes + 1, num_adapts := s.passes + 1 } hc rfl
            (by show s.passes + 1 ≤ 5; omega) (by show 6 ≤ fuel + (s.passes + 1); omega)
            (by
              intro j hj
              have hj2 : j < s.passes + 1 := hj
              rcases Nat.lt_succ_iff_lt_or_eq.mp hj2 with h | h
              · exact hall j h
              · rw [h]
                exact h0)
        refine ⟨r, ?_, hconv, ?_, hhi, hbefore, hlast⟩
        · rw [BatteryPER.adapt_loop, if_neg (by simp [hc]), hstep]
          exact hr
        · have : s.passes + 1 + 1 ≤ r.passes := hlo
          omega

/-- C30: for every sequence of values returned by `check_electric_field`, the
adaptivity loop of a time step, given fuel for six passes, returns after at
least one and at most `max_adapts + 1 = 6` passes; every pass before the last
asked for refinement; the last pass is either the first with
`num_refines == 0` (and then `num_adapts` counts the passes before it), or the
sixth, in which the incremented `num_adapts` is 6 > `max_adapts`. -/
theorem adaptivity_loop_at_most_six_passes (refines : Nat → Nat) (fuel : Nat)
    (hfuel : 6 ≤ fuel) :
    ∃ r, BatteryPER.adapt_loop refines fuel BatteryPER.adapt_init = some r
      ∧ r.adaptive_convergence = true
      ∧ 1 ≤ r.passes ∧ r.passes ≤ BatteryPER.max_adapts + 1
      ∧ (∀ j, j + 1 < r.passes → refines j ≠ 0)
      ∧ ((refines (r.passes - 1) = 0 ∧ r.num_adapts = r.passes - 1)
        ∨ (refines (r.passes - 1) ≠ 0 ∧ r.passes = BatteryPER.max_adapts + 1
            ∧ r.num_adapts = BatteryPER.max_adapts + 1
            ∧ r.num_adapts > BatteryPER.max_adapts)) := by
  obtain ⟨r, hr, hconv, hlo, hhi, hbefore, hlast⟩ :=
    adapt_loop_run refines fuel BatteryPER.adapt_init rfl rfl (by decide)
      (by simp only [BatteryPER.adapt_init]; omega) (by intro j hj; simp [BatteryPER.adapt_init] at hj)
  refine ⟨r, hr, hconv, ?_, hhi, hbefore, ?_⟩
  · have : BatteryPER.adapt_init.passes + 1 ≤ r.passes := hlo
    simp only [BatteryPER.adapt_init] at this
    omega
  · rcases hlast with h | ⟨h1, h2, h3⟩
    · exact Or.inl h
    · exact Or.inr ⟨h1, h2, h3, by rw [h3]; decide⟩

/-- C30 with refinement asked for in every pass: the loop stops in the sixth
pass with `num_adapts = 6`. -/
theorem adaptivity_loop_at_most_six_passes_witness :
    6 ≤ 6
      ∧ ∃ r, BatteryPER.adapt_loop (fun _ => 1) 6 BatteryPER.adapt_init = some r
        ∧ r.adaptive_convergence = true
        ∧ 1 ≤ r.passes ∧ r.passes ≤ BatteryPER.max_adapts + 1
        ∧ (∀ j, j + 1 < r.passes → (fun _ : Nat => 1) j ≠ 0)
        ∧ (((fun _ : Nat => 1) (r.passes - 1) = 0 ∧ r.num_adapts = r.passes - 1)
          ∨ ((fun _ : Nat => 1) (r.passes - 1) ≠ 0 ∧ r.passes = BatteryPER.max_adapts + 1
              ∧ r.num_adapts = BatteryPER.max_adapts + 1
              ∧ r.num_adapts > BatteryPER.max_adapts)) :=
  ⟨le_refl 6, adaptivity_loop_at_most_six_passes (fun _ => 1) 6 (le_refl 6)⟩

/-- The run of the adaptivity loop when every pass asks for refinement. -/
theorem example_adapt_loop_six :
    BatteryPER.adapt_loop (fun _ => 1) 6 BatteryPER.adapt_init
      = some { num_adapts := 6, adaptive_convergence := true, passes := 6 } := by
  decide

/-- After a Newton pass of `pnp_adaptive.cpp` the relative residual is the
residual norm at the iterates `update_solution_pnp` left behind, divided by
the initial residual. -/
theorem adaptive_newton_pass_residual (resnorm : ResNorm) (solve : Solver)
    (newtparam : newton_param) (st : NewtonState) :
    (PnpAdaptive.newton_pass resnorm solve newtparam st).relative_residual
        = resnorm (PnpAdaptive.newton_update resnorm solve newtparam st).iterate0
            (PnpAdaptive.newton_update resnorm solve newtparam st).iterate1
            (PnpAdaptive.newton_update resnorm solve newtparam st).iterate2
          / st.initial_residual
      ∧ (PnpAdaptive.newton_pass resnorm solve newtparam st).cationSolution
        = (PnpAdaptive.newton_update resnorm solve newtparam st).iterate0
      ∧ (PnpAdaptive.newton_pass resnorm solve newtparam st).anionSolution
        = (PnpAdaptive.newton_update resnorm solve newtparam st).iterate1
      ∧ (PnpAdaptive.newton_pass resnorm solve newtparam st).potentialSolution
        = (PnpAdaptive.newton_update resnorm solve newtparam st).iterate2
      ∧ (PnpAdaptive.newton_pass resnorm solve newtparam st).initial_residual
        = st.initial_residual := by
  simp only [PnpAdaptive.newton_pass]
  split <;> exact ⟨rfl, rfl, rfl, rfl, rfl⟩

/-- A Newton pass of `pnp_adaptive.cpp` that starts with the relative residual
of its iterate does not increase the relative residual. -/
theorem adaptive_newton_pass_le (resnorm : ResNorm) (solve : Solver)
    (newtparam : newton_param) (st : NewtonState)
    (h : st.relative_residual
      = resnorm st.cationSolution st.anionSolution st.potentialSolution / st.initial_residual) :
    (PnpAdaptive.newton_pass resnorm solve newtparam st).relative_residual
      ≤ st.relative_residual := by
  rw [(adaptive_newton_pass_residual resnorm solve newtparam st).1]
  obtain ⟨k, heq, _, _⟩ := adaptive_backtrack_eq resnorm st.cationSolution st.anionSolution
    st.potentialSolution
    (solve st.cationSolution st.anionSolution st.potentialSolution).update0
    (solve st.cationSolution st.anionSolution st.potentialSolution).update1
    (solve st.cationSolution st.anionSolution st.potentialSolution).update2
    st.relative_residual st.initial_residual newtparam
  simp only [PnpAdaptive.newton_update, PnpAdaptive.update_solution_pnp]
  rw [heq, finish_trial_state]
  split
  · rw [h]
    exact le_refl _
  · rename_i hle
    exact not_lt.mp hle

theorem adaptive_iterate_tracks (resnorm : ResNorm) (solve : Solver)
    (newtparam : newton_param) (c a p : Vec) (hR0 : resnorm c a p ≠ 0) (j : Nat) :
    ((PnpAdaptive.newton_pass resnorm solve newtparam)^[j]
        (PnpAdaptive.newton_init resnorm c a p)).relative_residual
        = resnorm
            ((PnpAdaptive.newton_pass resnorm solve newtparam)^[j]
              (PnpAdaptive.newton_init resnorm c a p)).cationSolution
            ((PnpAdaptive.newton_pass resnorm solve newtparam)^[j]
              (PnpAdaptive.newton_init resnorm c a p)).anionSolution
            ((PnpAdaptive.newton_pass resnorm solve newtparam)^[j]
              (PnpAdaptive.newton_init resnorm c a p)).potentialSolution
          / ((PnpAdaptive.newton_pass resnorm solve newtparam)^[j]
              (PnpAdaptive.newton_init resnorm c a p)).initial_residual
      ∧ ((PnpAdaptive.newton_pass resnorm solve newtparam)^[j]
          (PnpAdaptive.newton_init resnorm c a p)).initial_residual = resnorm c a p := by
  induction j with
  | zero =>
    rw [Function.iterate_zero_apply]
    exact ⟨(div_self hR0).symm, rfl⟩
  | succ j ih =>
    rw [Function.iterate_succ_apply']
    obtain ⟨h1, h2, h3, h4, h5⟩ := adaptive_newton_pass_residual resnorm solve newtparam
      ((PnpAdaptive.newton_pass resnorm solve newtparam)^[j]
        (PnpAdaptive.newton_init resnorm c a p))
    refine ⟨?_, ?_⟩
    · rw [h1, h2, h3, h4, h5]
    · rw [h5]
      exact ih.2

/-- C23: in the Newton loop of `pnp_adaptive.cpp`, started at an iterate whose
residual norm is not zero, the state at the head of every iteration (the start
state after `j` passes, for every `j`) has `relative_residual` equal to the
residual norm of the stored iterate divided by `initial_residual`, which stays
the start residual norm; the next pass, accepted or rejected, does not
increase `relative_residual`; and the loop ends in one of these states. -/
theorem adaptive_relative_residual_tracks_iterate (resnorm : ResNorm) (solve : Solver)
    (newtparam : newton_param) (c a p : Vec) (hR0 : resnorm c a p ≠ 0) :
    (∀ j : Nat,
      ((PnpAdaptive.newton_pass resnorm solve newtparam)^[j]
          (PnpAdaptive.newton_init resnorm c a p)).relative_residual
          = resnorm
              ((PnpAdaptive.newton_pass resnorm solve newtparam)^[j]
                (PnpAdaptive.newton_init resnorm c a p)).cationSolution
              ((PnpAdaptive.newton_pass resnorm solve newtparam)^[j]
                (PnpAdaptive.newton_init resnorm c a p)).anionSolution
              ((PnpAdaptive.newton_pass resnorm solve newtparam)^[j]
                (PnpAdaptive.newton_init resnorm c a p)).potentialSolution
            / ((PnpAdaptive.newton_pass resnorm solve newtparam)^[j]
                (PnpAdaptive.newton_init resnorm c a p)).initial_residual
        ∧ ((PnpAdaptive.newton_pass resnorm solve newtparam)^[j]
            (PnpAdaptive.newton_init resnorm c a p)).initial_residual = resnorm c a p
        ∧ ((PnpAdaptive.newton_pass resnorm solve newtparam)^[j + 1]
            (PnpAdaptive.newton_init resnorm c a p)).relative_residual
          ≤ ((PnpAdaptive.newton_pass resnorm solve newtparam)^[j]
            (PnpAdaptive.newton_init resnorm c a p)).relative_residual)
      ∧ ∃ n, PnpAdaptive.newton_solve resnorm solve newtparam c a p
          = (PnpAdaptive.newton_pass resnorm solve newtparam)^[n]
              (PnpAdaptive.newton_init resnorm c a p) := by
  refine ⟨fun j => ?_, ?_⟩
  · obtain ⟨h1, h2⟩ := adaptive_iterate_tracks resnorm solve newtparam c a p hR0 j
    refine ⟨h1, h2, ?_⟩
    rw [Function.iterate_succ_apply']
    exact adaptive_newton_pass_le resnorm solve newtparam _ h1
  · obtain ⟨n, hn, _, _⟩ := adaptive_newton_loop_iterate resnorm solve newtparam _
      (PnpAdaptive.newton_init resnorm c a p) rfl
    exact ⟨n, hn⟩

/-- C23 at a concrete input: start iterate 1 with residual norm 1, the solve
that halves the iterate; before and after the first pass. -/
theorem adaptive_relative_residual_tracks_iterate_witness :
    example_resnorm [1] [0] [0] ≠ 0
      ∧ ((PnpAdaptive.newton_pass example_resnorm example_solver_halve example_params)^[1]
            (PnpAdaptive.newton_init example_resnorm [1] [0] [0])).relative_residual
          = example_resnorm
              ((PnpAdaptive.newton_pass example_resnorm example_solver_halve example_params)^[1]
                (PnpAdaptive.newton_init example_resnorm [1] [0] [0])).cationSolution
              ((PnpAdaptive.newton_pass example_resnorm example_solver_halve example_params)^[1]
                (PnpAdaptive.newton_init example_resnorm [1] [0] [0])).anionSolution
              ((PnpAdaptive.newton_pass example_resnorm example_solver_halve example_params)^[1]
                (PnpAdaptive.newton_init example_resnorm [1] [0] [0])).potentialSolution
            / ((PnpAdaptive.newton_pass example_resnorm example_solver_halve example_params)^[1]
                (PnpAdaptive.newton_init example_resnorm [1] [0] [0])).initial_residual
      ∧ ((PnpAdaptive.newton_pass example_resnorm example_solver_halve example_params)^[1]
          (PnpAdaptive.newton_init example_resnorm [1] [0] [0])).initial_residual
        = example_resnorm [1] [0] [0]
      ∧ ((PnpAdaptive.newton_pass example_resnorm example_solver_halve example_params)^[1 + 1]
          (PnpAdaptive.newton_init example_resnorm [1] [0] [0])).relative_residual
        ≤ ((PnpAdaptive.newton_pass example_resnorm example_solver_halve example_params)^[1]
          (PnpAdaptive.newton_init example_resnorm [1] [0] [0])).relative_residual :=
  ⟨by norm_num [example_resnorm],
    (adaptive_relative_residual_tracks_iterate example_resnorm example_solver_halve
      example_params [1] [0] [0] (by norm_num [example_resnorm])).1 1⟩

theorem example_battery_update_bad (n : Nat) :
    BatteryPER.newton_update example_resnorm example_solver_bad example_params
        { cationSolution := [1], anionSolution := [0], potentialSolution := [0],
          initial_residual := 1, relative_residual := 1, newton_iteration := n }
      = rejected_step example_resnorm [1] [0] [0] [8] [0] [0] 1 example_params.damp_factor 3 := by
  simp only [BatteryPER.newton_update, example_solver_bad]
  rw [battery_update_solution_pnp_exhausted]
  · rfl
  · intro j hj
    exact example_bad_trials_from_one j (by simp only [example_params] at hj; omega)

theorem example_battery_pass_bad (n : Nat) :
    BatteryPER.newton_pass example_resnorm example_solver_bad example_params
        { cationSolution := [1], anionSolution := [0], potentialSolution := [0],
          initial_residual := 1, relative_residual := 1, newton_iteration := n }
      = { cationSolution := [1], anionSolution := [0], potentialSolution := [0],
          initial_residual := 1, relative_residual := 2, newton_iteration := n + 1 } := by
  have hret : (BatteryPER.newton_update example_resnorm example_solver_bad example_params
        { cationSolution := [1], anionSolution := [0], potentialSolution := [0],
          initial_residual := 1, relative_residual := 1, newton_iteration := n }).ret = -2 := by
    rw [example_battery_update_bad n]
    norm_num [rejected_step, trial_rr, example_resnorm, update_solution, damped, example_params]
  rw [battery_newton_pass_failed _ _ _ _ (by norm_num) example_resnorm_nonneg
    (by rw [hret]; norm_num), hret]
  norm_num

theorem example_battery_pass_drifted (n : Nat) :
    BatteryPER.newton_pass example_resnorm example_solver_bad example_params
        { cationSolution := [1], anionSolution := [0], potentialSolution := [0],
          initial_residual := 1, relative_residual := 2, newton_iteration := n }
      = { cationSolution := [2], anionSolution := [0], potentialSolution := [0],
          initial_residual := 1, relative_residual := 2, newton_iteration := n + 1 } := by
  have hup : BatteryPER.newton_update example_resnorm example_solver_bad example_params
        { cationSolution := [1], anionSolution := [0], potentialSolution := [0],
          initial_residual := 1, relative_residual := 2, newton_iteration := n }
      = damped_step example_resnorm [1] [0] [0] [8] [0] [0] 1 example_params.damp_factor 3 := by
    simp only [BatteryPER.newton_update, example_solver_bad]
    rw [battery_update_solution_pnp_least _ _ _ _ _ _ _ _ _ _ 3 (by norm_num [example_params])]
    · intro j hj
      interval_cases j <;>
        norm_num [trial_rr, example_resnorm, update_solution, damped, example_params]
    · norm_num [trial_rr, example_resnorm, update_solution, damped, example_params]
  simp only [BatteryPER.newton_pass, hup]
  norm_num [damped_step, trial_rr, example_resnorm, update_solution, damped, example_params]

/-- C24, at the failing input: start iterate 1 with residual norm 1 (so
`initial_residual = 1`, `relative_residual = 1`), a linear solve that proposes
the update 8, halving, `damp_it = 3`.  In the first pass of the loop of
`battery_PER.cpp` backtracking fails, the stored iterate stays 1 with residual
norm 1, but the tracked `relative_residual` becomes 2, the value of the
rejected trial: it differs from the residual of the stored iterate and it has
increased.  The second pass then accepts the iterate 2, whose residual norm is
twice that of the iterate it replaces.  The sibling loop of `pnp_adaptive.cpp`
leaves `relative_residual` at 1 in the same state. -/
theorem battery_relative_residual_not_recomputed :
    BatteryPER.newton_pass example_resnorm example_solver_bad example_params
        { cationSolution := [1], anionSolution := [0], potentialSolution := [0],
          initial_residual := 1, relative_residual := 1, newton_iteration := 0 }
      = { cationSolution := [1], anionSolution := [0], potentialSolution := [0],
          initial_residual := 1, relative_residual := 2, newton_iteration := 1 }
      ∧ example_resnorm [1] [0] [0] / 1 = 1
      ∧ (BatteryPER.newton_pass example_resnorm example_solver_bad example_params
          { cationSolution := [1], anionSolution := [0], potentialSolution := [0],
            initial_residual := 1, relative_residual := 1,
            newton_iteration := 0 }).relative_residual
        > 1
      ∧ BatteryPER.newton_pass example_resnorm example_solver_bad example_params
          { cationSolution := [1], anionSolution := [0], potentialSolution := [0],
            initial_residual := 1, relative_residual := 2, newton_iteration := 1 }
        = { cationSolution := [2], anionSolution := [0], potentialSolution := [0],
            initial_residual := 1, relative_residual := 2, newton_iteration := 2 }
      ∧ example_resnorm [2] [0] [0] / 1 = 2
      ∧ PnpAdaptive.newton_pass example_resnorm example_solver_bad example_params
          { cationSolution := [1], anionSolution := [0], potentialSolution := [0],
            initial_residual := 1, relative_residual := 1, newton_iteration := 0 }
        = { cationSolution := [1], anionSolution := [0], potentialSolution := [0],
            initial_residual := 1, relative_residual := 1, newton_iteration := 1 } := by
  refine ⟨example_battery_pass_bad 0, by norm_num [example_resnorm], ?_,
    example_battery_pass_drifted 1, by norm_num [example_resnorm], example_adaptive_pass_bad 0⟩
  rw [example_battery_pass_bad 0]
  norm_num

/-- The two variants of `update_solution_pnp` agree when the cap of
`pnp_adaptive.cpp` is one more than the cap of `battery_PER.cpp`. -/
theorem adaptive_update_eq_battery_shifted (resnorm : ResNorm) (i0 i1 i2 u0 u1 u2 : Vec)
    (r R0 : ℚ) (params : newton_param) :
    PnpAdaptive.update_solution_pnp resnorm i0 i1 i2 u0 u1 u2 r R0
        { params with damp_it := params.damp_it + 1 }
      = BatteryPER.update_solution_pnp resnorm i0 i1 i2 u0 u1 u2 r R0 params := by
  obtain ⟨k, hk, hkb, hks⟩ := adaptive_backtrack_eq resnorm i0 i1 i2 u0 u1 u2 r R0
    { params with damp_it := params.damp_it + 1 }
  obtain ⟨m, hm, hmb, hms⟩ := battery_backtrack_eq resnorm i0 i1 i2 u0 u1 u2 r R0 params
  have hkm : k = m := by
    rcases Nat.lt_trichotomy k m with h | h | h
    · have := hmb k h
      exact absurd ⟨this.1, by show 1 + k < params.damp_it + 1; omega⟩ hks
    · exact h
    · have := hkb m h
      have h2 : 1 + m < params.damp_it + 1 := this.2
      exact absurd ⟨this.1, by omega⟩ hms
  subst hkm
  rw [PnpAdaptive.update_solution_pnp, BatteryPER.update_solution_pnp, hk, hm,
    finish_trial_state, finish_trial_state]

/-- C25, at the failing input `damp_it = 1`, `damp_factor = 1/2`, iterate 1,
update -3, incoming relative residual 1, initial residual norm 1: the full
trial has relative residual 2, the halved trial 1/2.  `pnp_adaptive.cpp`
scales the update zero times, leaves the iterate at 1 and returns -2;
`battery_PER.cpp` scales it once, commits the iterate -1/2 and returns 1/2. -/
theorem update_solution_pnp_variants_differ :
    PnpAdaptive.update_solution_pnp example_resnorm [1] [0] [0] [-3] [0] [0] 1 1
        example_params_one
      = { iterate0 := [1], iterate1 := [0], iterate2 := [0],
          update0 := [-3], update1 := [0], update2 := [0],
          ret := -2, passes := 0, assemblies := 1 }
      ∧ BatteryPER.update_solution_pnp example_resnorm [1] [0] [0] [-3] [0] [0] 1 1
          example_params_one
        = { iterate0 := [-1 / 2], iterate1 := [0], iterate2 := [0],
            update0 := [-3], update1 := [0], update2 := [0],
            ret := 1 / 2, passes := 1, assemblies := 2 }
      ∧ (PnpAdaptive.update_solution_pnp example_resnorm [1] [0] [0] [-3] [0] [0] 1 1
          example_params_one).passes
        ≠ (BatteryPER.update_solution_pnp example_resnorm [1] [0] [0] [-3] [0] [0] 1 1
          example_params_one).passes
      ∧ (PnpAdaptive.update_solution_pnp example_resnorm [1] [0] [0] [-3] [0] [0] 1 1
          example_params_one).iterate0
        ≠ (BatteryPER.update_solution_pnp example_resnorm [1] [0] [0] [-3] [0] [0] 1 1
          example_params_one).iterate0
      ∧ (PnpAdaptive.update_solution_pnp example_resnorm [1] [0] [0] [-3] [0] [0] 1 1
          example_params_one).ret
        ≠ (BatteryPER.update_solution_pnp example_resnorm [1] [0] [0] [-3] [0] [0] 1 1
          example_params_one).ret := by
  have h0 : trial_rr example_resnorm [1] [0] [0] [-3] [0] [0] 1
      example_params_one.damp_factor 0 > 1 := by
    norm_num [trial_rr, example_resnorm, update_solution, damped, example_params_one]
  have h1 : trial_rr example_resnorm [1] [0] [0] [-3] [0] [0] 1
      example_params_one.damp_factor 1 ≤ 1 := by
    norm_num [trial_rr, example_resnorm, update_solution, damped, example_params_one, abs_le]
  have hA : PnpAdaptive.update_solution_pnp example_resnorm [1] [0] [0] [-3] [0] [0] 1 1
        example_params_one
      = { iterate0 := [1], iterate1 := [0], iterate2 := [0],
          update0 := [-3], update1 := [0], update2 := [0],
          ret := -2, passes := 0, assemblies := 1 } := by
    rw [adaptive_update_solution_pnp_exhausted]
    · norm_num [rejected_step, trial_rr, example_resnorm, update_solution, damped,
        example_params_one]
    · intro j hj
      have hj0 : j = 0 := by
        simp only [example_params_one] at hj
        omega
      rw [hj0]
      exact h0
  have hB : BatteryPER.update_solution_pnp example_resnorm [1] [0] [0] [-3] [0] [0] 1 1
        example_params_one
      = { iterate0 := [-1 / 2], iterate1 := [0], iterate2 := [0],
          update0 := [-3], update1 := [0], update2 := [0],
          ret := 1 / 2, passes := 1, assemblies := 2 } := by
    rw [battery_update_solution_pnp_least _ _ _ _ _ _ _ _ _ _ 1
      (by norm_num [example_params_one])
      (by
        intro j hj
        have hj0 : j = 0 := by omega
        rw [hj0]
        exact h0) h1]
    norm_num [damped_step, trial_rr, example_resnorm, update_solution, damped,
      example_params_one, abs_of_neg]
  refine ⟨hA, hB, ?_, ?_, ?_⟩
  · rw [hA, hB]
    decide
  · rw [hA, hB]
    norm_num
  · rw [hA, hB]
    norm_num

theorem exact_solution_hasDerivAt (x : ℝ) (i : Fin 3) :
    HasDerivAt (fun y => PnpRefineExact.exact_solution Real.sin Real.log y i)
      (PnpRefineExact.exact_derivative Real.cos x i) x := by
  have hid : HasDerivAt (fun y : ℝ => y) 1 x := hasDerivAt_id x
  have hlin : HasDerivAt (fun y : ℝ => PnpRefineExact.pi * y) PnpRefineExact.pi x := by
    simpa using hid.const_mul (PnpRefineExact.pi : ℝ)
  have hsq : HasDerivAt (fun y : ℝ => y * y * PnpRefineExact.electric_strength)
      (2 * x * PnpRefineExact.electric_strength) x := by
    have h := (hid.mul hid).mul_const (PnpRefineExact.electric_strength : ℝ)
    convert h using 1
    ring
  fin_cases i
  · have h := (hid.mul_const (PnpRefineExact.electric_strength : ℝ)).add hlin.sin
    simp only [PnpRefineExact.exact_solution, PnpRefineExact.exact_derivative]
    convert h using 1
    simp
    ring
  · have h := hsq.const_sub (Real.log PnpRefineExact.ref_concentration)
    simp only [PnpRefineExact.exact_solution, PnpRefineExact.exact_derivative]
    convert h using 1
    simp
  · have h := hsq.const_add (Real.log PnpRefineExact.ref_concentration)
    simp only [PnpRefineExact.exact_solution, PnpRefineExact.exact_derivative]
    convert h using 1

theorem exact_derivative_hasDerivAt (x : ℝ) (i : Fin 3) :
    HasDerivAt (fun y => PnpRefineExact.exact_derivative Real.cos y i)
      (PnpRefineExact.exact_second Real.sin x i) x := by
  have hid : HasDerivAt (fun y : ℝ => y) 1 x := hasDerivAt_id x
  have hlin : HasDerivAt (fun y : ℝ => PnpRefineExact.pi * y) PnpRefineExact.pi x := by
    simpa using hid.const_mul (PnpRefineExact.pi : ℝ)
  fin_cases i
  · have h := (hlin.cos.const_mul (PnpRefineExact.pi : ℝ)).const_add
      (PnpRefineExact.electric_strength : ℝ)
    simp only [PnpRefineExact.exact_derivative, PnpRefineExact.exact_second]
    convert h using 1
    simp
    ring
  · have h := (hid.const_mul (-2 : ℝ)).mul_const (PnpRefineExact.electric_strength : ℝ)
    simp only [PnpRefineExact.exact_derivative, PnpRefineExact.exact_second]
    convert h using 1
    simp
  · have h := (hid.const_mul (2 : ℝ)).mul_const (PnpRefineExact.electric_strength : ℝ)
    simp only [PnpRefineExact.exact_derivative, PnpRefineExact.exact_second]
    convert h using 1
    simp

theorem flux_hasDerivAt (x : ℝ) (i : Fin 3) (hi : i ≠ 0) :
    HasDerivAt
      (fun y => PnpRefineExact.diffusivities y i
        * Real.exp (PnpRefineExact.exact_solution Real.sin Real.log y i)
        * (PnpRefineExact.exact_derivative Real.cos y i
          + PnpRefineExact.Valency_Expression y i * PnpRefineExact.exact_derivative Real.cos y 0))
      (-(PnpRefineExact.reactions Real.sin Real.cos Real.exp Real.log x i)) x := by
  have hs := exact_solution_hasDerivAt x i
  have hd := exact_derivative_hasDerivAt x i
  have hphi := exact_derivative_hasDerivAt x 0
  fin_cases i
  · exact absurd rfl hi
  · have h := (hs.exp.const_mul (1 : ℝ)).mul (hd.add (hphi.const_mul (1 : ℝ)))
    simp only [PnpRefineExact.diffusivities, PnpRefineExact.Valency_Expression,
      PnpRefineExact.reactions]
    convert h using 1
    simp
    ring
  · have h := (hs.exp.const_mul (1 : ℝ)).mul (hd.add (hphi.const_mul (-1 : ℝ)))
    simp only [PnpRefineExact.diffusivities, PnpRefineExact.Valency_Expression,
      PnpRefineExact.reactions]
    convert h using 1
    simp
    ring

/-- C26: over the reals, with `std::sin`, `std::cos`, `std::exp`, `std::log`
the real functions and `pi` the constant of the file, at every `x`:
`exact_derivative` is the derivative of `exact_solution` and `exact_second`
the derivative of `exact_derivative`, component by component;
`fixed(x) = -permittivity_const * phi''(x) - (exp(s[1](x)) - exp(s[2](x)))`,
so `-(permittivity_const * phi')' = fixed + (exp(s[1]) - exp(s[2]))`; for the
two species, with the diffusivities of `diffusivities(x)` and the valencies
`+1`, `-1` of `Valency_Expression`, the flux
`D_i * exp(s[i]) * (s[i]' + q_i * phi')` has derivative `-reactions(x)[i]`;
and `reactions(x)[0] = 0`. -/
theorem manufactured_solution_consistent (x : ℝ) :
    (∀ i : Fin 3,
      HasDerivAt (fun y => PnpRefineExact.exact_solution Real.sin Real.log y i)
        (PnpRefineExact.exact_derivative Real.cos x i) x)
      ∧ (∀ i : Fin 3,
        HasDerivAt (fun y => PnpRefineExact.exact_derivative Real.cos y i)
          (PnpRefineExact.exact_second Real.sin x i) x)
      ∧ PnpRefineExact.fixed Real.sin Real.exp Real.log x
        = -PnpRefineExact.permittivity_const * PnpRefineExact.exact_second Real.sin x 0
          - (Real.exp (PnpRefineExact.exact_solution Real.sin Real.log x 1)
            - Real.exp (PnpRefineExact.exact_solution Real.sin Real.log x 2))
      ∧ HasDerivAt
          (fun y => -(PnpRefineExact.permittivity_const
            * PnpRefineExact.exact_derivative Real.cos y 0))
          (PnpRefineExact.fixed Real.sin Real.exp Real.log x
            + (Real.exp (PnpRefineExact.exact_solution Real.sin Real.log x 1)
              - Real.exp (PnpRefineExact.exact_solution Real.sin Real.log x 2))) x
      ∧ (∀ i : Fin 3, i ≠ 0 →
        HasDerivAt
          (fun y => PnpRefineExact.diffusivities y i
            * Real.exp (PnpRefineExact.exact_solution Real.sin Real.log y i)
            * (PnpRefineExact.exact_derivative Real.cos y i
              + PnpRefineExact.Valency_Expression y i
                * PnpRefineExact.exact_derivative Real.cos y 0))
          (-(PnpRefineExact.reactions Real.sin Real.cos Real.exp Real.log x i)) x)
      ∧ PnpRefineExact.reactions Real.sin Real.cos Real.exp Real.log x 0 = 0
      ∧ PnpRefineExact.Valency_Expression x 1 = 1
      ∧ PnpRefineExact.Valency_Expression x 2 = -1
      ∧ PnpRefineExact.diffusivities x 1 = 1
      ∧ PnpRefineExact.diffusivities x 2 = 1 := by
  refine ⟨exact_solution_hasDerivAt x, exact_derivative_hasDerivAt x, rfl, ?_,
    flux_hasDerivAt x, ?_, ?_, ?_, ?_, ?_⟩
  · have h := ((exact_derivative_hasDerivAt x 0).const_mul
      (PnpRefineExact.permittivity_const : ℝ)).neg
    convert h using 1
    simp only [PnpRefineExact.fixed]
    ring
  · simp [PnpRefineExact.reactions]
  · simp [PnpRefineExact.Valency_Expression]
  · simp [PnpRefineExact.Valency_Expression]
  · simp [PnpRefineExact.diffusivities]
  · simp [PnpRefineExact.diffusivities]

end ModularPnp
